import Mathlib

/-!
# Lyra samples: StencilTest, Triangle, Window

A shallow embedding of the three sample programs under `src/Samples`.  Each
sample is a set of window-event handlers that drive the Lyra render hardware
interface (RHI).  The RHI itself is a library the samples consume; here every
call a handler makes on it is appended, in program order, to the `trace` of a
`Device`, and every object the RHI hands back is a record holding a fresh
handle and the descriptor it was created from.

Conventions of the embedding:

* a C++ local or global that is mutated in place (`command`, the module-level
  handles) is passed explicitly and returned;
* `execute([&]() { ... })` runs the lambda at once and yields its result, so it
  is embedded as the body of the lambda;
* what `surface.get_current_texture()`, `surface.get_current_extent()` and
  `surface.get_current_format()` return is an input of the handler;
* `sizeof(float) = 4`, so `sizeof(Vertex) = 24`, `offsetof(Vertex, color) = 12`
  and `sizeof(glm::mat4x4) = 64`.
-/

namespace Lyra

/-! ## Enumerations named by the samples -/

inductive GPUBarrierSync where
  | PIXEL_SHADING
  | RENDER_TARGET
  deriving DecidableEq, Repr, Inhabited

inductive GPULoadOp where
  | LOAD
  | CLEAR
  deriving DecidableEq, Repr, Inhabited

inductive GPUStoreOp where
  | STORE
  | DISCARD
  deriving DecidableEq, Repr, Inhabited

inductive GPUCompareFunction where
  | NEVER
  | LESS
  | EQUAL
  | LESS_EQUAL
  | GREATER
  | NOT_EQUAL
  | GREATER_EQUAL
  | ALWAYS
  deriving DecidableEq, Repr, Inhabited

inductive GPUStencilOperation where
  | KEEP
  | ZERO
  | REPLACE
  | INVERT
  | INCREMENT_CLAMP
  | DECREMENT_CLAMP
  | INCREMENT_WRAP
  | DECREMENT_WRAP
  deriving DecidableEq, Repr, Inhabited

/-- Texture formats: the one the samples name, and any other format (the
format of the surface is whatever `get_current_format()` reports).  A handle
that no handler has assigned yet carries `other 0`, not the format the
samples name. -/
inductive GPUTextureFormat where
  | other (code : Nat)
  | DEPTH24PLUS_STENCIL8
  deriving DecidableEq, Repr, Inhabited

inductive GPUVertexFormat where
  | FLOAT32x3
  deriving DecidableEq, Repr, Inhabited

inductive GPUVertexStepMode where
  | VERTEX
  | INSTANCE
  deriving DecidableEq, Repr, Inhabited

inductive GPUCullMode where
  | NONE
  | FRONT
  | BACK
  deriving DecidableEq, Repr, Inhabited

inductive GPUPrimitiveTopology where
  | TRIANGLE_LIST
  deriving DecidableEq, Repr, Inhabited

inductive GPUFrontFace where
  | CCW
  | CW
  deriving DecidableEq, Repr, Inhabited

inductive GPUIndexFormat where
  | UINT16
  | UINT32
  deriving DecidableEq, Repr, Inhabited

inductive GPUBindingResourceType where
  | BUFFER
  | SAMPLER
  | TEXTURE
  deriving DecidableEq, Repr, Inhabited

inductive GPUBufferBindingType where
  | UNIFORM
  | STORAGE
  deriving DecidableEq, Repr, Inhabited

inductive GPUShaderStage where
  | VERTEX
  | FRAGMENT
  deriving DecidableEq, Repr, Inhabited

inductive GPUQueueType where
  | DEFAULT
  deriving DecidableEq, Repr, Inhabited

inductive GPUBufferUsage where
  | VERTEX
  | INDEX
  | UNIFORM
  | MAP_WRITE
  deriving DecidableEq, Repr, Inhabited

inductive GPUTextureUsage where
  | RENDER_ATTACHMENT
  deriving DecidableEq, Repr, Inhabited

/-- The flag value `GPUColorWrite::NONE`: no colour channel is written. -/
def GPUColorWrite.NONE : Nat := 0

/-- Resource states of the state tracker (spec, data model). -/
inductive ResourceState where
  | Undefined
  | ColorAttachment
  | DepthStencilAttachment
  | PresentSource
  deriving DecidableEq, Repr, Inhabited

/-! ## Descriptors and the objects created from them -/

structure GPUExtent where
  width : Nat
  height : Nat
  deriving DecidableEq, Repr, Inhabited

/-- What the surface reports to a handler. -/
structure Surface where
  format : GPUTextureFormat
  extent : GPUExtent
  deriving DecidableEq, Repr, Inhabited

/-- The binary blob `module->get_shader_blob(entry)` of the compiled module. -/
structure ShaderBlob where
  entry : String
  deriving DecidableEq, Repr, Inhabited

/-- Fields `data` and `size` of the source are the two halves of `code`. -/
structure GPUShaderModuleDescriptor where
  label : String
  code : ShaderBlob
  deriving DecidableEq, Repr, Inhabited

structure GPUShaderModule where
  handle : Nat
  desc : GPUShaderModuleDescriptor
  deriving DecidableEq, Repr, Inhabited

structure GPUBufferBindingLayout where
  type : GPUBufferBindingType
  has_dynamic_offset : Bool
  deriving DecidableEq, Repr, Inhabited

structure GPUBindGroupLayoutEntry where
  type : GPUBindingResourceType
  binding : Nat
  count : Nat
  visibility : GPUShaderStage
  buffer : GPUBufferBindingLayout
  deriving DecidableEq, Repr, Inhabited

structure GPUBindGroupLayoutDescriptor where
  entries : List GPUBindGroupLayoutEntry
  deriving DecidableEq, Repr, Inhabited

structure GPUBindGroupLayout where
  handle : Nat
  desc : GPUBindGroupLayoutDescriptor
  deriving DecidableEq, Repr, Inhabited

structure GPUPipelineLayoutDescriptor where
  bind_group_layouts : List GPUBindGroupLayout
  deriving DecidableEq, Repr, Inhabited

structure GPUPipelineLayout where
  handle : Nat
  desc : GPUPipelineLayoutDescriptor
  deriving DecidableEq, Repr, Inhabited

structure GPUVertexAttribute where
  format : GPUVertexFormat
  offset : Nat
  shader_location : Nat
  deriving DecidableEq, Repr, Inhabited

structure GPUVertexBufferLayout where
  attributes : List GPUVertexAttribute
  array_stride : Nat
  step_mode : GPUVertexStepMode
  deriving DecidableEq, Repr, Inhabited

structure GPUColorTargetState where
  format : GPUTextureFormat
  blend_enable : Bool
  write_mask : Nat
  deriving DecidableEq, Repr, Inhabited

structure GPUStencilFaceState where
  compare : GPUCompareFunction
  fail_op : GPUStencilOperation
  depth_fail_op : GPUStencilOperation
  pass_op : GPUStencilOperation
  deriving DecidableEq, Repr, Inhabited

structure GPUDepthStencilState where
  format : GPUTextureFormat
  depth_compare : GPUCompareFunction
  depth_write_enabled : Bool
  stencil_read_mask : Nat
  stencil_write_mask : Nat
  stencil_front : GPUStencilFaceState
  stencil_back : GPUStencilFaceState
  deriving DecidableEq, Repr, Inhabited

structure GPUPrimitiveState where
  cull_mode : GPUCullMode
  topology : GPUPrimitiveTopology
  front_face : GPUFrontFace
  strip_index_format : GPUIndexFormat
  deriving DecidableEq, Repr, Inhabited

structure GPUMultisampleState where
  alpha_to_coverage_enabled : Bool
  count : Nat
  deriving DecidableEq, Repr, Inhabited

structure GPUVertexState where
  module : GPUShaderModule
  buffers : List GPUVertexBufferLayout
  deriving DecidableEq, Repr, Inhabited

structure GPUFragmentState where
  module : GPUShaderModule
  targets : List GPUColorTargetState
  deriving DecidableEq, Repr, Inhabited

structure GPURenderPipelineDescriptor where
  layout : GPUPipelineLayout
  primitive : GPUPrimitiveState
  depth_stencil : GPUDepthStencilState
  multisample : GPUMultisampleState
  vertex : GPUVertexState
  fragment : GPUFragmentState
  deriving DecidableEq, Repr, Inhabited

structure GPURenderPipeline where
  handle : Nat
  desc : GPURenderPipelineDescriptor
  deriving DecidableEq, Repr, Inhabited

/-- Values the RHI headers give to the fields a sample leaves unassigned after
value-initialising a descriptor (`T{}`).  The headers are not among the
sources, so these values are a parameter of every handler that relies on one. -/
structure Defaults where
  color_write_mask : Nat
  depth_stencil : GPUDepthStencilState
  layout_entry_count : Nat
  bind_entry_index : Nat
  deriving DecidableEq, Repr, Inhabited

structure GPUBufferDescriptor where
  label : String
  size : Nat
  usage : List GPUBufferUsage
  mapped_at_creation : Bool
  deriving DecidableEq, Repr, Inhabited

structure GPUBuffer where
  handle : Nat
  desc : GPUBufferDescriptor
  deriving DecidableEq, Repr, Inhabited

structure GPUExtent3D where
  width : Nat
  height : Nat
  depth : Nat
  deriving DecidableEq, Repr, Inhabited

structure GPUTextureDescriptor where
  format : GPUTextureFormat
  size : GPUExtent3D
  array_layers : Nat
  mip_level_count : Nat
  usage : List GPUTextureUsage
  label : String
  deriving DecidableEq, Repr, Inhabited

structure GPUTexture where
  handle : Nat
  desc : GPUTextureDescriptor
  deriving DecidableEq, Repr, Inhabited

/-- A view remembers the texture it projects. -/
structure GPUTextureView where
  handle : Nat
  texture : GPUTexture
  deriving DecidableEq, Repr, Inhabited

/-- The two synchronisation signals of a frame are fences of the surface. -/
structure GPUFence where
  handle : Nat
  deriving DecidableEq, Repr, Inhabited

/-- What `surface.get_current_texture()` returns. -/
structure GPUSurfaceTexture where
  texture : GPUTexture
  view : GPUTextureView
  available : GPUFence
  complete : GPUFence
  suboptimal : Bool
  deriving DecidableEq, Repr, Inhabited

structure GPUBufferBinding where
  buffer : GPUBuffer
  offset : Nat
  size : Nat
  deriving DecidableEq, Repr, Inhabited

structure GPUBindGroupEntry where
  type : GPUBindingResourceType
  binding : Nat
  index : Nat
  buffer : GPUBufferBinding
  deriving DecidableEq, Repr, Inhabited

structure GPUBindGroupDescriptor where
  layout : GPUBindGroupLayout
  entries : List GPUBindGroupEntry
  deriving DecidableEq, Repr, Inhabited

structure GPUBindGroup where
  handle : Nat
  desc : GPUBindGroupDescriptor
  deriving DecidableEq, Repr, Inhabited

structure GPUCommandBufferDescriptor where
  queue : GPUQueueType
  deriving DecidableEq, Repr, Inhabited

structure GPUCommandBuffer where
  handle : Nat
  desc : GPUCommandBufferDescriptor
  deriving DecidableEq, Repr, Inhabited

structure GPUColor where
  r : ℚ
  g : ℚ
  b : ℚ
  a : ℚ
  deriving DecidableEq, Repr, Inhabited

structure GPURenderPassColorAttachment where
  clear_value : GPUColor
  load_op : GPULoadOp
  store_op : GPUStoreOp
  view : GPUTextureView
  deriving DecidableEq, Repr, Inhabited

structure GPURenderPassDepthStencilAttachment where
  view : GPUTextureView
  depth_clear_value : ℚ
  depth_load_op : GPULoadOp
  depth_store_op : GPUStoreOp
  depth_read_only : Bool
  stencil_clear_value : Nat
  stencil_load_op : GPULoadOp
  stencil_store_op : GPUStoreOp
  stencil_read_only : Bool
  deriving DecidableEq, Repr, Inhabited

structure GPURenderPassDescriptor where
  color_attachments : List GPURenderPassColorAttachment
  depth_stencil_attachment : Option GPURenderPassDepthStencilAttachment
  deriving DecidableEq, Repr, Inhabited

/-- The argument of `resource_barrier`, as built by `state_transition`. -/
structure GPUStateTransition where
  texture : GPUTexture
  from_state : ResourceState
  to_state : ResourceState
  deriving DecidableEq, Repr, Inhabited

def undefined_state : ResourceState := ResourceState.Undefined

def color_attachment_state : ResourceState := ResourceState.ColorAttachment

def depth_stencil_attachment_state : ResourceState := ResourceState.DepthStencilAttachment

def present_src_state : ResourceState := ResourceState.PresentSource

def state_transition (texture : GPUTexture) (a b : ResourceState) : GPUStateTransition :=
  { texture := texture, from_state := a, to_state := b }

/-! ## Commands and the trace of RHI calls -/

/-- One command recorded on a command buffer. -/
inductive Command where
  | wait (fence : GPUFence) (sync : GPUBarrierSync)
  | signal (fence : GPUFence) (sync : GPUBarrierSync)
  | resource_barrier (t : GPUStateTransition)
  | begin_render_pass (desc : GPURenderPassDescriptor)
  | set_viewport (x y width height : Nat)
  | set_scissor_rect (x y width height : Nat)
  | set_pipeline (pipeline : GPURenderPipeline)
  | set_vertex_buffer (slot : Nat) (buffer : GPUBuffer)
  | set_index_buffer (buffer : GPUBuffer) (format : GPUIndexFormat)
  | set_bind_group (index : Nat) (group : GPUBindGroup)
  | set_stencil_reference (reference : Nat)
  | draw (vertex_count instance_count first_vertex first_instance : Nat)
  | draw_indexed (index_count instance_count first_index base_vertex first_instance : Nat)
  | end_render_pass
  deriving DecidableEq, Repr, Inhabited

/-- A value stored through a mapped range.  The float literals of the samples
are dyadic rationals and are kept exactly; a value that the source computes
with `glm` in floating point is kept as the text of its expression. -/
inductive Value where
  | vec3 (x y z : ℚ)
  | vec2 (x y : ℚ)
  | u32 (n : Nat)
  | computed (expression : String)
  deriving DecidableEq, Repr, Inhabited

/-- One store `buffer.get_mapped_range<T>().at(index).field = value`, where
`elem_size = sizeof(T)` and `field` is empty when the whole element is
assigned. -/
structure MappedWrite where
  buffer : GPUBuffer
  elem_size : Nat
  index : Nat
  field : String
  value : Value
  deriving DecidableEq, Repr, Inhabited

/-- One call on the RHI, as seen from the thread that runs the handlers. -/
inductive Call where
  | create_shader_module (m : GPUShaderModule)
  | create_bind_group_layout (l : GPUBindGroupLayout)
  | create_pipeline_layout (l : GPUPipelineLayout)
  | create_render_pipeline (p : GPURenderPipeline)
  | create_buffer (b : GPUBuffer)
  | create_texture (t : GPUTexture)
  | create_view (v : GPUTextureView)
  | create_command_buffer (c : GPUCommandBuffer)
  | create_bind_group (g : GPUBindGroup)
  | mapped_write (w : MappedWrite)
  | record (command : GPUCommandBuffer) (c : Command)
  | submit (command : GPUCommandBuffer)
  | present (texture : GPUSurfaceTexture)
  | device_wait
  | destroy (handle : Nat)
  deriving DecidableEq, Repr, Inhabited

/-- The device as the handlers see it: the next free handle of its registry
and every call made so far, oldest first. -/
structure Device where
  next_handle : Nat
  trace : List Call
  deriving DecidableEq, Repr, Inhabited

namespace Device

def emit (d : Device) (c : Call) : Device :=
  { d with trace := d.trace ++ [c] }

def create_shader_module (d : Device) (desc : GPUShaderModuleDescriptor) : GPUShaderModule × Device :=
  let m : GPUShaderModule := { handle := d.next_handle, desc := desc }
  (m, { next_handle := d.next_handle + 1, trace := d.trace ++ [Call.create_shader_module m] })

def create_bind_group_layout (d : Device) (desc : GPUBindGroupLayoutDescriptor) : GPUBindGroupLayout × Device :=
  let l : GPUBindGroupLayout := { handle := d.next_handle, desc := desc }
  (l, { next_handle := d.next_handle + 1, trace := d.trace ++ [Call.create_bind_group_layout l] })

def create_pipeline_layout (d : Device) (desc : GPUPipelineLayoutDescriptor) : GPUPipelineLayout × Device :=
  let l : GPUPipelineLayout := { handle := d.next_handle, desc := desc }
  (l, { next_handle := d.next_handle + 1, trace := d.trace ++ [Call.create_pipeline_layout l] })

def create_render_pipeline (d : Device) (desc : GPURenderPipelineDescriptor) : GPURenderPipeline × Device :=
  let p : GPURenderPipeline := { handle := d.next_handle, desc := desc }
  (p, { next_handle := d.next_handle + 1, trace := d.trace ++ [Call.create_render_pipeline p] })

def create_buffer (d : Device) (desc : GPUBufferDescriptor) : GPUBuffer × Device :=
  let b : GPUBuffer := { handle := d.next_handle, desc := desc }
  (b, { next_handle := d.next_handle + 1, trace := d.trace ++ [Call.create_buffer b] })

def create_texture (d : Device) (desc : GPUTextureDescriptor) : GPUTexture × Device :=
  let t : GPUTexture := { handle := d.next_handle, desc := desc }
  (t, { next_handle := d.next_handle + 1, trace := d.trace ++ [Call.create_texture t] })

def create_command_buffer (d : Device) (desc : GPUCommandBufferDescriptor) : GPUCommandBuffer × Device :=
  let c : GPUCommandBuffer := { handle := d.next_handle, desc := desc }
  (c, { next_handle := d.next_handle + 1, trace := d.trace ++ [Call.create_command_buffer c] })

def create_bind_group (d : Device) (desc : GPUBindGroupDescriptor) : GPUBindGroup × Device :=
  let g : GPUBindGroup := { handle := d.next_handle, desc := desc }
  (g, { next_handle := d.next_handle + 1, trace := d.trace ++ [Call.create_bind_group g] })

def wait (d : Device) : Device :=
  d.emit Call.device_wait

end Device

/-- The call `texture.create_view()`. -/
def GPUTexture.create_view (t : GPUTexture) (d : Device) : GPUTextureView × Device :=
  let v : GPUTextureView := { handle := d.next_handle, texture := t }
  (v, { next_handle := d.next_handle + 1, trace := d.trace ++ [Call.create_view v] })

/-- Recording a command: `command.c(...)` in the source. -/
def GPUCommandBuffer.record (command : GPUCommandBuffer) (c : Command) (d : Device) : Device :=
  d.emit (Call.record command c)

def GPUCommandBuffer.submit (command : GPUCommandBuffer) (d : Device) : Device :=
  d.emit (Call.submit command)

def GPUSurfaceTexture.present (texture : GPUSurfaceTexture) (d : Device) : Device :=
  d.emit (Call.present texture)

/-- The store `buffer.get_mapped_range<T>().at(index).field = value`. -/
def GPUBuffer.write (buffer : GPUBuffer) (elem_size index : Nat) (field : String) (value : Value)
    (d : Device) : Device :=
  d.emit (Call.mapped_write
    { buffer := buffer, elem_size := elem_size, index := index, field := field, value := value })

/-! ## Sample `StencilTest` (`src/Samples/StencilTest/main.cpp`) -/

namespace StencilTest

/-- The module-level handles of the sample. -/
structure Globals where
  vshader : GPUShaderModule
  fshader : GPUShaderModule
  blayout : GPUBindGroupLayout
  playout : GPUPipelineLayout
  pipeline_mask : GPURenderPipeline
  pipeline_draw : GPURenderPipeline
  vbuffer_mask : GPUBuffer
  ibuffer_mask : GPUBuffer
  vbuffer_draw : GPUBuffer
  ibuffer_draw : GPUBuffer
  ubuffer : GPUBuffer
  dsbuffer : GPUTexture
  dsview : GPUTextureView
  deriving DecidableEq, Repr, Inhabited

/-- The vertex buffer layout both pipelines declare: `position` at
`offsetof(Vertex, position) = 0`, `color` at `offsetof(Vertex, color) = 12`,
stride `sizeof(Vertex) = 24`. -/
def vertex_layout : GPUVertexBufferLayout :=
  { attributes :=
      [ { format := GPUVertexFormat.FLOAT32x3, offset := 0, shader_location := 0 },
        { format := GPUVertexFormat.FLOAT32x3, offset := 12, shader_location := 1 } ],
    array_stride := 24,
    step_mode := GPUVertexStepMode.VERTEX }

/-- The descriptor from which `setup_pipelines` creates `pipeline_mask`. -/
def pipeline_mask_descriptor (dflt : Defaults) (surface : Surface) (playout : GPUPipelineLayout)
    (vshader fshader : GPUShaderModule) : GPURenderPipelineDescriptor :=
  let target : GPUColorTargetState :=
    { format := surface.format, blend_enable := false, write_mask := GPUColorWrite.NONE }
  let stencil_front : GPUStencilFaceState :=
    { dflt.depth_stencil.stencil_front with
      depth_fail_op := GPUStencilOperation.KEEP,
      compare := GPUCompareFunction.ALWAYS,
      pass_op := GPUStencilOperation.REPLACE,
      fail_op := GPUStencilOperation.REPLACE }
  { layout := playout,
    primitive :=
      { cull_mode := GPUCullMode.NONE,
        topology := GPUPrimitiveTopology.TRIANGLE_LIST,
        front_face := GPUFrontFace.CCW,
        strip_index_format := GPUIndexFormat.UINT32 },
    depth_stencil :=
      { dflt.depth_stencil with
        format := GPUTextureFormat.DEPTH24PLUS_STENCIL8,
        depth_compare := GPUCompareFunction.ALWAYS,
        depth_write_enabled := false,
        stencil_read_mask := 0x0,
        stencil_write_mask := 0x1,
        stencil_front := stencil_front,
        stencil_back := stencil_front },
    multisample := { alpha_to_coverage_enabled := false, count := 1 },
    vertex := { module := vshader, buffers := [vertex_layout] },
    fragment := { module := fshader, targets := [target] } }

/-- The descriptor from which `setup_pipelines` creates `pipeline_draw`; the
colour target keeps the write mask of a value-initialised target. -/
def pipeline_draw_descriptor (dflt : Defaults) (surface : Surface) (playout : GPUPipelineLayout)
    (vshader fshader : GPUShaderModule) : GPURenderPipelineDescriptor :=
  let target : GPUColorTargetState :=
    { format := surface.format, blend_enable := false, write_mask := dflt.color_write_mask }
  let stencil_front : GPUStencilFaceState :=
    { dflt.depth_stencil.stencil_front with
      depth_fail_op := GPUStencilOperation.KEEP,
      compare := GPUCompareFunction.EQUAL,
      pass_op := GPUStencilOperation.KEEP,
      fail_op := GPUStencilOperation.KEEP }
  { layout := playout,
    primitive :=
      { cull_mode := GPUCullMode.NONE,
        topology := GPUPrimitiveTopology.TRIANGLE_LIST,
        front_face := GPUFrontFace.CCW,
        strip_index_format := GPUIndexFormat.UINT32 },
    depth_stencil :=
      { dflt.depth_stencil with
        format := GPUTextureFormat.DEPTH24PLUS_STENCIL8,
        depth_compare := GPUCompareFunction.ALWAYS,
        depth_write_enabled := true,
        stencil_read_mask := 0x1,
        stencil_write_mask := 0x0,
        stencil_front := stencil_front,
        stencil_back := stencil_front },
    multisample := { alpha_to_coverage_enabled := false, count := 1 },
    vertex := { module := vshader, buffers := [vertex_layout] },
    fragment := { module := fshader, targets := [target] } }

def setup_pipelines (dflt : Defaults) (surface : Surface) (g : Globals) (d : Device) :
    Globals × Device :=
  let (vshader, d) := d.create_shader_module
    { label := "vertex_shader", code := { entry := "vsmain" } }
  let (fshader, d) := d.create_shader_module
    { label := "fragment_shader", code := { entry := "fsmain" } }
  let (blayout, d) := d.create_bind_group_layout
    { entries :=
        [ { type := GPUBindingResourceType.BUFFER,
            binding := 0,
            count := dflt.layout_entry_count,
            visibility := GPUShaderStage.VERTEX,
            buffer := { type := GPUBufferBindingType.UNIFORM, has_dynamic_offset := false } } ] }
  let (playout, d) := d.create_pipeline_layout { bind_group_layouts := [blayout] }
  let (pipeline_mask, d) := d.create_render_pipeline
    (pipeline_mask_descriptor dflt surface playout vshader fshader)
  let (pipeline_draw, d) := d.create_render_pipeline
    (pipeline_draw_descriptor dflt surface playout vshader fshader)
  ({ g with
     vshader := vshader, fshader := fshader, blayout := blayout, playout := playout,
     pipeline_mask := pipeline_mask, pipeline_draw := pipeline_draw }, d)

def setup_mask_geometry (g : Globals) (d : Device) : Globals × Device :=
  let (vbuffer_mask, d) := d.create_buffer
    { label := "vertex_buffer", size := 24 * 3,
      usage := [GPUBufferUsage.VERTEX, GPUBufferUsage.MAP_WRITE], mapped_at_creation := true }
  let (ibuffer_mask, d) := d.create_buffer
    { label := "index_buffer", size := 4 * 3,
      usage := [GPUBufferUsage.INDEX, GPUBufferUsage.MAP_WRITE], mapped_at_creation := true }
  let d := vbuffer_mask.write 24 0 "position" (Value.vec3 0 0 0) d
  let d := vbuffer_mask.write 24 1 "position" (Value.vec3 1 0 0) d
  let d := vbuffer_mask.write 24 2 "position" (Value.vec3 0 1 0) d
  let d := vbuffer_mask.write 24 0 "color" (Value.vec3 1 1 0) d
  let d := vbuffer_mask.write 24 1 "color" (Value.vec3 1 1 0) d
  let d := vbuffer_mask.write 24 2 "color" (Value.vec3 1 1 0) d
  let d := ibuffer_mask.write 4 0 "" (Value.u32 0) d
  let d := ibuffer_mask.write 4 1 "" (Value.u32 1) d
  let d := ibuffer_mask.write 4 2 "" (Value.u32 2) d
  ({ g with vbuffer_mask := vbuffer_mask, ibuffer_mask := ibuffer_mask }, d)

def setup_draw_geometry (g : Globals) (d : Device) : Globals × Device :=
  let (vbuffer_draw, d) := d.create_buffer
    { label := "vertex_buffer", size := 24 * 6,
      usage := [GPUBufferUsage.VERTEX, GPUBufferUsage.MAP_WRITE], mapped_at_creation := true }
  let (ibuffer_draw, d) := d.create_buffer
    { label := "index_buffer", size := 4 * 6,
      usage := [GPUBufferUsage.INDEX, GPUBufferUsage.MAP_WRITE], mapped_at_creation := true }
  let d := vbuffer_draw.write 24 0 "position" (Value.vec3 0 0 0) d
  let d := vbuffer_draw.write 24 1 "position" (Value.vec3 1 0 0) d
  let d := vbuffer_draw.write 24 2 "position" (Value.vec3 0 1 0) d
  let d := vbuffer_draw.write 24 0 "color" (Value.vec3 1 1 0) d
  let d := vbuffer_draw.write 24 1 "color" (Value.vec3 1 1 0) d
  let d := vbuffer_draw.write 24 2 "color" (Value.vec3 1 1 0) d
  let d := vbuffer_draw.write 24 3 "position" (Value.vec3 (0 - 1/4) (0 - 1/4) 1) d
  let d := vbuffer_draw.write 24 4 "position" (Value.vec3 (1 - 1/4) (0 - 1/4) 1) d
  let d := vbuffer_draw.write 24 5 "position" (Value.vec3 (0 - 1/4) (1 - 1/4) 1) d
  let d := vbuffer_draw.write 24 3 "color" (Value.vec3 0 1 1) d
  let d := vbuffer_draw.write 24 4 "color" (Value.vec3 0 1 1) d
  let d := vbuffer_draw.write 24 5 "color" (Value.vec3 0 1 1) d
  let d := ibuffer_draw.write 4 0 "" (Value.u32 0) d
  let d := ibuffer_draw.write 4 1 "" (Value.u32 1) d
  let d := ibuffer_draw.write 4 2 "" (Value.u32 2) d
  let d := ibuffer_draw.write 4 3 "" (Value.u32 3) d
  let d := ibuffer_draw.write 4 4 "" (Value.u32 4) d
  let d := ibuffer_draw.write 4 5 "" (Value.u32 5) d
  ({ g with vbuffer_draw := vbuffer_draw, ibuffer_draw := ibuffer_draw }, d)

def setup_uniform_buffer (g : Globals) (d : Device) : Globals × Device :=
  let (ubuffer, d) := d.create_buffer
    { label := "uniform_buffer", size := 64,
      usage := [GPUBufferUsage.UNIFORM, GPUBufferUsage.MAP_WRITE], mapped_at_creation := true }
  let d := ubuffer.write 64 0 "" (Value.computed "projection * modelview") d
  ({ g with ubuffer := ubuffer }, d)

def setup_stencil_buffer (surface : Surface) (g : Globals) (d : Device) : Globals × Device :=
  let (dsbuffer, d) := d.create_texture
    { format := GPUTextureFormat.DEPTH24PLUS_STENCIL8,
      size := { width := surface.extent.width, height := surface.extent.height, depth := 1 },
      array_layers := 1,
      mip_level_count := 1,
      usage := [GPUTextureUsage.RENDER_ATTACHMENT],
      label := "depth_stencil_buffer" }
  let (dsview, d) := dsbuffer.create_view d
  ({ g with dsbuffer := dsbuffer, dsview := dsview }, d)

def cleanup (g : Globals) (d : Device) : Device :=
  let d := d.wait
  let d := d.emit (Call.destroy g.dsbuffer.handle)
  let d := d.emit (Call.destroy g.ibuffer_mask.handle)
  let d := d.emit (Call.destroy g.vbuffer_mask.handle)
  let d := d.emit (Call.destroy g.ibuffer_draw.handle)
  let d := d.emit (Call.destroy g.vbuffer_draw.handle)
  let d := d.emit (Call.destroy g.pipeline_mask.handle)
  let d := d.emit (Call.destroy g.pipeline_draw.handle)
  let d := d.emit (Call.destroy g.vshader.handle)
  let d := d.emit (Call.destroy g.fshader.handle)
  let d := d.emit (Call.destroy g.blayout.handle)
  let d := d.emit (Call.destroy g.playout.handle)
  d

/-- The render pass descriptor `render_mask` builds. -/
def mask_pass (g : Globals) (backbuffer : GPUSurfaceTexture) : GPURenderPassDescriptor :=
  let color_attachment : GPURenderPassColorAttachment :=
    { clear_value := { r := 0, g := 0, b := 0, a := 0 },
      load_op := GPULoadOp.CLEAR,
      store_op := GPUStoreOp.DISCARD,
      view := backbuffer.view }
  let stencil_attachment : GPURenderPassDepthStencilAttachment :=
    { view := g.dsview,
      depth_clear_value := 1,
      depth_load_op := GPULoadOp.CLEAR,
      depth_store_op := GPUStoreOp.DISCARD,
      depth_read_only := true,
      stencil_clear_value := 0,
      stencil_load_op := GPULoadOp.CLEAR,
      stencil_store_op := GPUStoreOp.STORE,
      stencil_read_only := false }
  { color_attachments := [color_attachment],
    depth_stencil_attachment := some stencil_attachment }

def render_mask (g : Globals) (surface : Surface) (command : GPUCommandBuffer)
    (backbuffer : GPUSurfaceTexture) (bind_group : GPUBindGroup) (d : Device) : Device :=
  let extent := surface.extent
  let d := command.record (Command.begin_render_pass (mask_pass g backbuffer)) d
  let d := command.record (Command.set_viewport 0 0 extent.width extent.height) d
  let d := command.record (Command.set_scissor_rect 0 0 extent.width extent.height) d
  let d := command.record (Command.set_pipeline g.pipeline_mask) d
  let d := command.record (Command.set_vertex_buffer 0 g.vbuffer_mask) d
  let d := command.record (Command.set_index_buffer g.ibuffer_mask GPUIndexFormat.UINT32) d
  let d := command.record (Command.set_bind_group 0 bind_group) d
  let d := command.record (Command.set_stencil_reference 0x1) d
  let d := command.record (Command.draw_indexed 3 1 0 0 0) d
  let d := command.record Command.end_render_pass d
  d

/-- The render pass descriptor `render_color` builds. -/
def color_pass (g : Globals) (backbuffer : GPUSurfaceTexture) : GPURenderPassDescriptor :=
  let color_attachment : GPURenderPassColorAttachment :=
    { clear_value := { r := 0, g := 0, b := 0, a := 0 },
      load_op := GPULoadOp.CLEAR,
      store_op := GPUStoreOp.STORE,
      view := backbuffer.view }
  let depth_attachment : GPURenderPassDepthStencilAttachment :=
    { view := g.dsview,
      depth_clear_value := 1,
      depth_load_op := GPULoadOp.CLEAR,
      depth_store_op := GPUStoreOp.STORE,
      depth_read_only := false,
      stencil_clear_value := 0,
      stencil_load_op := GPULoadOp.LOAD,
      stencil_store_op := GPUStoreOp.DISCARD,
      stencil_read_only := true }
  { color_attachments := [color_attachment],
    depth_stencil_attachment := some depth_attachment }

def render_color (g : Globals) (surface : Surface) (command : GPUCommandBuffer)
    (backbuffer : GPUSurfaceTexture) (bind_group : GPUBindGroup) (d : Device) : Device :=
  let extent := surface.extent
  let d := command.record (Command.begin_render_pass (color_pass g backbuffer)) d
  let d := command.record (Command.set_viewport 0 0 extent.width extent.height) d
  let d := command.record (Command.set_scissor_rect 0 0 extent.width extent.height) d
  let d := command.record (Command.set_pipeline g.pipeline_draw) d
  let d := command.record (Command.set_vertex_buffer 0 g.vbuffer_draw) d
  let d := command.record (Command.set_index_buffer g.ibuffer_draw GPUIndexFormat.UINT32) d
  let d := command.record (Command.set_bind_group 0 bind_group) d
  let d := command.record (Command.set_stencil_reference 0x1) d
  let d := command.record (Command.draw_indexed 6 1 0 0 0) d
  let d := command.record Command.end_render_pass d
  d

/-- The handler bound to `WindowEvent::RENDER`; `texture` is what
`surface.get_current_texture()` returned for this invocation. -/
def render (dflt : Defaults) (g : Globals) (surface : Surface) (texture : GPUSurfaceTexture)
    (d : Device) : Device :=
  if texture.suboptimal then d else
  let (command, d) := d.create_command_buffer { queue := GPUQueueType.DEFAULT }
  let (bind_group, d) := d.create_bind_group
    { layout := g.blayout,
      entries :=
        [ { type := GPUBindingResourceType.BUFFER,
            binding := 0,
            index := dflt.bind_entry_index,
            buffer := { buffer := g.ubuffer, offset := 0, size := 0 } } ] }
  let d := command.record (Command.wait texture.available GPUBarrierSync.PIXEL_SHADING) d
  let d := command.record (Command.resource_barrier
    (state_transition texture.texture undefined_state color_attachment_state)) d
  let d := command.record (Command.resource_barrier
    (state_transition g.dsbuffer undefined_state depth_stencil_attachment_state)) d
  let d := render_mask g surface command texture bind_group d
  let d := render_color g surface command texture bind_group d
  let d := command.record (Command.resource_barrier
    (state_transition texture.texture color_attachment_state present_src_state)) d
  let d := command.record (Command.signal texture.complete GPUBarrierSync.RENDER_TARGET) d
  let d := command.submit d
  texture.present d

end StencilTest

/-! ## Sample `Triangle` (`src/Samples/Triangle/main.cpp`) -/

namespace Triangle

/-- The module-level handles of the sample. -/
structure Globals where
  vshader : GPUShaderModule
  fshader : GPUShaderModule
  blayout : GPUBindGroupLayout
  playout : GPUPipelineLayout
  pipeline : GPURenderPipeline
  vbuffer : GPUBuffer
  ibuffer : GPUBuffer
  ubuffer : GPUBuffer
  deriving DecidableEq, Repr, Inhabited

/-- The descriptor from which `setup_pipeline` creates `pipeline`: offsets
`0` and `sizeof(float) * 3 = 12`, stride `sizeof(float) * 6 = 24`; the depth
and stencil fields the source does not assign keep their initial values. -/
def pipeline_descriptor (dflt : Defaults) (surface : Surface) (playout : GPUPipelineLayout)
    (vshader fshader : GPUShaderModule) : GPURenderPipelineDescriptor :=
  let layout : GPUVertexBufferLayout :=
    { attributes :=
        [ { format := GPUVertexFormat.FLOAT32x3, offset := 0, shader_location := 0 },
          { format := GPUVertexFormat.FLOAT32x3, offset := 4 * 3, shader_location := 1 } ],
      array_stride := 4 * 6,
      step_mode := GPUVertexStepMode.VERTEX }
  let target : GPUColorTargetState :=
    { format := surface.format, blend_enable := false, write_mask := dflt.color_write_mask }
  { layout := playout,
    primitive :=
      { cull_mode := GPUCullMode.NONE,
        topology := GPUPrimitiveTopology.TRIANGLE_LIST,
        front_face := GPUFrontFace.CCW,
        strip_index_format := GPUIndexFormat.UINT32 },
    depth_stencil :=
      { dflt.depth_stencil with
        depth_compare := GPUCompareFunction.ALWAYS,
        depth_write_enabled := false },
    multisample := { alpha_to_coverage_enabled := false, count := 1 },
    vertex := { module := vshader, buffers := [layout] },
    fragment := { module := fshader, targets := [target] } }

def setup_pipeline (dflt : Defaults) (surface : Surface) (g : Globals) (d : Device) :
    Globals × Device :=
  let (vshader, d) := d.create_shader_module
    { label := "vertex_shader", code := { entry := "vsmain" } }
  let (fshader, d) := d.create_shader_module
    { label := "fragment_shader", code := { entry := "fsmain" } }
  let (blayout, d) := d.create_bind_group_layout
    { entries :=
        [ { type := GPUBindingResourceType.BUFFER,
            binding := 0,
            count := dflt.layout_entry_count,
            visibility := GPUShaderStage.VERTEX,
            buffer := { type := GPUBufferBindingType.UNIFORM, has_dynamic_offset := false } } ] }
  let (playout, d) := d.create_pipeline_layout { bind_group_layouts := [blayout] }
  let (pipeline, d) := d.create_render_pipeline
    (pipeline_descriptor dflt surface playout vshader fshader)
  ({ g with
     vshader := vshader, fshader := fshader, blayout := blayout, playout := playout,
     pipeline := pipeline }, d)

def setup_buffers (g : Globals) (d : Device) : Globals × Device :=
  let (vbuffer, d) := d.create_buffer
    { label := "vertex_buffer", size := 24 * 3,
      usage := [GPUBufferUsage.VERTEX, GPUBufferUsage.MAP_WRITE], mapped_at_creation := true }
  let (ibuffer, d) := d.create_buffer
    { label := "index_buffer", size := 4 * 3,
      usage := [GPUBufferUsage.INDEX, GPUBufferUsage.MAP_WRITE], mapped_at_creation := true }
  let (ubuffer, d) := d.create_buffer
    { label := "uniform_buffer", size := 64,
      usage := [GPUBufferUsage.UNIFORM, GPUBufferUsage.MAP_WRITE], mapped_at_creation := true }
  let d := vbuffer.write 24 0 "position" (Value.vec3 0 0 0) d
  let d := vbuffer.write 24 1 "position" (Value.vec3 1 0 0) d
  let d := vbuffer.write 24 2 "position" (Value.vec3 0 1 0) d
  let d := vbuffer.write 24 0 "color" (Value.vec3 1 0 0) d
  let d := vbuffer.write 24 1 "color" (Value.vec3 0 1 0) d
  let d := vbuffer.write 24 2 "color" (Value.vec3 0 0 1) d
  let d := ibuffer.write 4 0 "" (Value.u32 0) d
  let d := ibuffer.write 4 1 "" (Value.u32 1) d
  let d := ibuffer.write 4 2 "" (Value.u32 2) d
  let d := ubuffer.write 64 0 "" (Value.computed "projection * modelview") d
  ({ g with vbuffer := vbuffer, ibuffer := ibuffer, ubuffer := ubuffer }, d)

def cleanup (g : Globals) (d : Device) : Device :=
  let d := d.wait
  let d := d.emit (Call.destroy g.ibuffer.handle)
  let d := d.emit (Call.destroy g.vbuffer.handle)
  let d := d.emit (Call.destroy g.vshader.handle)
  let d := d.emit (Call.destroy g.fshader.handle)
  let d := d.emit (Call.destroy g.blayout.handle)
  let d := d.emit (Call.destroy g.playout.handle)
  let d := d.emit (Call.destroy g.pipeline.handle)
  d

/-- The render pass descriptor `render` builds. -/
def frame_pass (texture : GPUSurfaceTexture) : GPURenderPassDescriptor :=
  let color_attachment : GPURenderPassColorAttachment :=
    { clear_value := { r := 0, g := 0, b := 0, a := 0 },
      load_op := GPULoadOp.CLEAR,
      store_op := GPUStoreOp.STORE,
      view := texture.view }
  { color_attachments := [color_attachment],
    depth_stencil_attachment := none }

/-- The handler bound to `WindowEvent::RENDER`; `texture` is what
`surface.get_current_texture()` returned for this invocation. -/
def render (dflt : Defaults) (g : Globals) (surface : Surface) (texture : GPUSurfaceTexture)
    (d : Device) : Device :=
  if texture.suboptimal then d else
  let (command, d) := d.create_command_buffer { queue := GPUQueueType.DEFAULT }
  let (bind_group, d) := d.create_bind_group
    { layout := g.blayout,
      entries :=
        [ { type := GPUBindingResourceType.BUFFER,
            binding := 0,
            index := dflt.bind_entry_index,
            buffer := { buffer := g.ubuffer, offset := 0, size := 0 } } ] }
  let render_pass := frame_pass texture
  let extent := surface.extent
  let d := command.record (Command.wait texture.available GPUBarrierSync.PIXEL_SHADING) d
  let d := command.record (Command.resource_barrier
    (state_transition texture.texture undefined_state color_attachment_state)) d
  let d := command.record (Command.begin_render_pass render_pass) d
  let d := command.record (Command.set_viewport 0 0 extent.width extent.height) d
  let d := command.record (Command.set_scissor_rect 0 0 extent.width extent.height) d
  let d := command.record (Command.set_pipeline g.pipeline) d
  let d := command.record (Command.set_vertex_buffer 0 g.vbuffer) d
  let d := command.record (Command.set_index_buffer g.ibuffer GPUIndexFormat.UINT32) d
  let d := command.record (Command.set_bind_group 0 bind_group) d
  let d := command.record (Command.draw_indexed 3 1 0 0 0) d
  let d := command.record Command.end_render_pass d
  let d := command.record (Command.resource_barrier
    (state_transition texture.texture color_attachment_state present_src_state)) d
  let d := command.record (Command.signal texture.complete GPUBarrierSync.RENDER_TARGET) d
  let d := command.submit d
  texture.present d

end Triangle

/-! ## Sample `Window` (`src/Samples/Window/main.cpp`) -/

namespace Window

inductive KeyButton where
  | W
  | S
  | A
  | D
  deriving DecidableEq, Repr, Inhabited

/-- The payload of `WindowEvent::UPDATE`. -/
structure WindowInput where
  keys_down : List KeyButton
  delta_time : ℚ
  deriving DecidableEq, Repr, Inhabited

/-- The payload of `WindowEvent::RESIZE`. -/
structure WindowInfo where
  width : Nat
  height : Nat
  deriving DecidableEq, Repr, Inhabited

/-- The module-level handles of the sample.  The global `camera` holds floats
only and reaches the RHI through the values `update` stores, which are kept as
text, so it is not part of the state here. -/
structure Globals where
  vshader : GPUShaderModule
  fshader : GPUShaderModule
  blayout : GPUBindGroupLayout
  playout : GPUPipelineLayout
  pipeline : GPURenderPipeline
  ubuffer : GPUBuffer
  deriving DecidableEq, Repr, Inhabited

/-- The size `sizeof(InverseTransform)`: a `glm::mat4` (64 bytes), a
`glm::vec3` (12 bytes) and a `glm::vec2` (8 bytes), all of alignment 4. -/
def sizeof_InverseTransform : Nat := 64 + 12 + 8

/-- The descriptor from which `setup_pipeline` creates `pipeline`: no vertex
buffer is declared. -/
def pipeline_descriptor (dflt : Defaults) (surface : Surface) (playout : GPUPipelineLayout)
    (vshader fshader : GPUShaderModule) : GPURenderPipelineDescriptor :=
  let target : GPUColorTargetState :=
    { format := surface.format, blend_enable := false, write_mask := dflt.color_write_mask }
  { layout := playout,
    primitive :=
      { cull_mode := GPUCullMode.NONE,
        topology := GPUPrimitiveTopology.TRIANGLE_LIST,
        front_face := GPUFrontFace.CCW,
        strip_index_format := GPUIndexFormat.UINT32 },
    depth_stencil :=
      { dflt.depth_stencil with
        depth_compare := GPUCompareFunction.ALWAYS,
        depth_write_enabled := false },
    multisample := { alpha_to_coverage_enabled := false, count := 1 },
    vertex := { module := vshader, buffers := [] },
    fragment := { module := fshader, targets := [target] } }

def setup_pipeline (dflt : Defaults) (surface : Surface) (g : Globals) (d : Device) :
    Globals × Device :=
  let (vshader, d) := d.create_shader_module
    { label := "vertex_shader", code := { entry := "vsmain" } }
  let (fshader, d) := d.create_shader_module
    { label := "fragment_shader", code := { entry := "fsmain" } }
  let (blayout, d) := d.create_bind_group_layout
    { entries :=
        [ { type := GPUBindingResourceType.BUFFER,
            binding := 0,
            count := 1,
            visibility := GPUShaderStage.FRAGMENT,
            buffer := { type := GPUBufferBindingType.UNIFORM, has_dynamic_offset := false } } ] }
  let (playout, d) := d.create_pipeline_layout { bind_group_layouts := [blayout] }
  let (pipeline, d) := d.create_render_pipeline
    (pipeline_descriptor dflt surface playout vshader fshader)
  ({ g with
     vshader := vshader, fshader := fshader, blayout := blayout, playout := playout,
     pipeline := pipeline }, d)

def setup_buffers (g : Globals) (d : Device) : Globals × Device :=
  let (ubuffer, d) := d.create_buffer
    { label := "uniform_buffer", size := sizeof_InverseTransform,
      usage := [GPUBufferUsage.UNIFORM, GPUBufferUsage.MAP_WRITE], mapped_at_creation := true }
  ({ g with ubuffer := ubuffer }, d)

/-- The handler `setup_camera` assigns floats to `camera` and calls nothing. -/
def setup_camera (g : Globals) (d : Device) : Globals × Device :=
  (g, d)

def cleanup (g : Globals) (d : Device) : Device :=
  let d := d.wait
  let d := d.emit (Call.destroy g.vshader.handle)
  let d := d.emit (Call.destroy g.fshader.handle)
  let d := d.emit (Call.destroy g.blayout.handle)
  let d := d.emit (Call.destroy g.playout.handle)
  let d := d.emit (Call.destroy g.pipeline.handle)
  d

/-- The handler bound to `WindowEvent::UPDATE`.  Its camera arithmetic is in
floating point and has no branch that skips the three stores at its end; the
stores are made on every invocation, whatever `input` holds. -/
def update (g : Globals) (_input : WindowInput) (d : Device) : Device :=
  let d := g.ubuffer.write sizeof_InverseTransform 0 "inv_view_proj"
    (Value.computed "glm::inverse(proj * view)") d
  let d := g.ubuffer.write sizeof_InverseTransform 0 "camera_pos"
    (Value.computed "camera.position") d
  let d := g.ubuffer.write sizeof_InverseTransform 0 "fade_range" (Value.vec2 5 10) d
  d

/-- The render pass descriptor `render` builds. -/
def frame_pass (texture : GPUSurfaceTexture) : GPURenderPassDescriptor :=
  let color_attachment : GPURenderPassColorAttachment :=
    { clear_value := { r := 0, g := 0, b := 0, a := 0 },
      load_op := GPULoadOp.CLEAR,
      store_op := GPUStoreOp.STORE,
      view := texture.view }
  { color_attachments := [color_attachment],
    depth_stencil_attachment := none }

/-- The handler bound to `WindowEvent::RENDER`; `texture` is what
`surface.get_current_texture()` returned for this invocation. -/
def render (g : Globals) (surface : Surface) (texture : GPUSurfaceTexture) (d : Device) :
    Device :=
  if texture.suboptimal then d else
  let (command, d) := d.create_command_buffer { queue := GPUQueueType.DEFAULT }
  let (bind_group, d) := d.create_bind_group
    { layout := g.blayout,
      entries :=
        [ { type := GPUBindingResourceType.BUFFER,
            binding := 0,
            index := 0,
            buffer := { buffer := g.ubuffer, offset := 0, size := 0 } } ] }
  let render_pass := frame_pass texture
  let extent := surface.extent
  let d := command.record (Command.wait texture.available GPUBarrierSync.PIXEL_SHADING) d
  let d := command.record (Command.resource_barrier
    (state_transition texture.texture undefined_state color_attachment_state)) d
  let d := command.record (Command.begin_render_pass render_pass) d
  let d := command.record (Command.set_viewport 0 0 extent.width extent.height) d
  let d := command.record (Command.set_scissor_rect 0 0 extent.width extent.height) d
  let d := command.record (Command.set_pipeline g.pipeline) d
  let d := command.record (Command.set_bind_group 0 bind_group) d
  let d := command.record (Command.draw 3 1 0 0) d
  let d := command.record Command.end_render_pass d
  let d := command.record (Command.resource_barrier
    (state_transition texture.texture color_attachment_state present_src_state)) d
  let d := command.record (Command.signal texture.complete GPUBarrierSync.RENDER_TARGET) d
  let d := command.submit d
  texture.present d

/-- The handler `resize` prints the new extent and calls nothing on the RHI. -/
def resize (_info : WindowInfo) (d : Device) : Device :=
  d

end Window

/-! ## The event loop

`win->loop()` belongs to the windowing collaborator: the handlers bound to
`START` run once, in the order they were bound, then the loop delivers
`UPDATE`, `RENDER` and `RESIZE` events until the window closes.  A run of a
sample is its `START` handlers on a fresh device followed by any sequence of
loop events. -/

/-- A device on which nothing has been created yet; handle `0` is what a
value-initialised module-level handle holds. -/
def Device.fresh : Device :=
  { next_handle := 1, trace := [] }

/-- One event the loop delivers after `START`. -/
inductive LoopEvent where
  | UPDATE (input : Window.WindowInput)
  | RENDER (texture : GPUSurfaceTexture)
  | RESIZE (info : Window.WindowInfo)
  deriving DecidableEq, Repr, Inhabited

namespace StencilTest

/-- The `START` handlers in the order `main` binds them. -/
def start (dflt : Defaults) (surface : Surface) (d : Device) : Globals × Device :=
  let g : Globals := default
  let (g, d) := setup_pipelines dflt surface g d
  let (g, d) := setup_mask_geometry g d
  let (g, d) := setup_draw_geometry g d
  let (g, d) := setup_uniform_buffer g d
  let (g, d) := setup_stencil_buffer surface g d
  (g, d)

/-- Only `RENDER` has a handler in this sample. -/
def dispatch (dflt : Defaults) (g : Globals) (surface : Surface) (e : LoopEvent) (d : Device) :
    Device :=
  match e with
  | LoopEvent.RENDER texture => render dflt g surface texture d
  | _ => d

def loop (dflt : Defaults) (g : Globals) (surface : Surface) (events : List LoopEvent)
    (d : Device) : Device :=
  events.foldl (fun d e => dispatch dflt g surface e d) d

def run (dflt : Defaults) (surface : Surface) (events : List LoopEvent) : Device :=
  let (g, d) := start dflt surface Device.fresh
  loop dflt g surface events d

end StencilTest

namespace Triangle

/-- The `START` handlers in the order `main` binds them. -/
def start (dflt : Defaults) (surface : Surface) (d : Device) : Globals × Device :=
  let g : Globals := default
  let (g, d) := setup_pipeline dflt surface g d
  let (g, d) := setup_buffers g d
  (g, d)

/-- Only `RENDER` has a handler in this sample. -/
def dispatch (dflt : Defaults) (g : Globals) (surface : Surface) (e : LoopEvent) (d : Device) :
    Device :=
  match e with
  | LoopEvent.RENDER texture => render dflt g surface texture d
  | _ => d

def loop (dflt : Defaults) (g : Globals) (surface : Surface) (events : List LoopEvent)
    (d : Device) : Device :=
  events.foldl (fun d e => dispatch dflt g surface e d) d

def run (dflt : Defaults) (surface : Surface) (events : List LoopEvent) : Device :=
  let (g, d) := start dflt surface Device.fresh
  loop dflt g surface events d

end Triangle

namespace Window

/-- The `START` handlers in the order `main` binds them. -/
def start (dflt : Defaults) (surface : Surface) (d : Device) : Globals × Device :=
  let g : Globals := default
  let (g, d) := setup_pipeline dflt surface g d
  let (g, d) := setup_buffers g d
  let (g, d) := setup_camera g d
  (g, d)

def dispatch (g : Globals) (surface : Surface) (e : LoopEvent) (d : Device) : Device :=
  match e with
  | LoopEvent.UPDATE input => update g input d
  | LoopEvent.RENDER texture => render g surface texture d
  | LoopEvent.RESIZE info => resize info d

def loop (g : Globals) (surface : Surface) (events : List LoopEvent) (d : Device) : Device :=
  events.foldl (fun d e => dispatch g surface e d) d

def run (dflt : Defaults) (surface : Surface) (events : List LoopEvent) : Device :=
  let (g, d) := start dflt surface Device.fresh
  loop g surface events d

end Window

/-! ## Reading a trace -/

/-- The calls a handler `f` adds to the trace of `d`. -/
def calls_of (f : Device → Device) (d : Device) : List Call :=
  (f d).trace.drop d.trace.length

def Call.command? : Call → Option Command
  | Call.record _ c => some c
  | _ => none

/-- The commands recorded in a stretch of calls, in recording order. -/
def commands_of (calls : List Call) : List Command :=
  calls.filterMap Call.command?

/-- The commands recorded on the command buffer `command` in a stretch of calls. -/
def recorded_on (command : GPUCommandBuffer) (calls : List Call) : List Command :=
  calls.filterMap (fun c =>
    match c with
    | Call.record c' cmd => if c' = command then some cmd else none
    | _ => none)

def Command.pass? : Command → Option GPURenderPassDescriptor
  | Command.begin_render_pass desc => some desc
  | _ => none

def Command.pipeline? : Command → Option GPURenderPipeline
  | Command.set_pipeline p => some p
  | _ => none

def Command.stencil_reference? : Command → Option Nat
  | Command.set_stencil_reference r => some r
  | _ => none

/-- Whether a command names the texture `t`: a barrier on it, or a render
pass with an attachment that is a view of it. -/
def Command.uses_texture (t : GPUTexture) : Command → Bool
  | Command.resource_barrier tr => decide (tr.texture = t)
  | Command.begin_render_pass desc =>
      desc.color_attachments.any (fun a => decide (a.view.texture = t)) ||
      (match desc.depth_stencil_attachment with
       | some a => decide (a.view.texture = t)
       | none => false)
  | _ => false

/-- The handles of the buffers a command refers to, directly or through the
entries of a bind group. -/
def Command.buffers : Command → List Nat
  | Command.set_vertex_buffer _ b => [b.handle]
  | Command.set_index_buffer b _ => [b.handle]
  | Command.set_bind_group _ g => g.desc.entries.map (fun e => e.buffer.buffer.handle)
  | _ => []

/-- The state of a scan along a trace: the commands recorded so far, each with
the handle of its command buffer; the handles of the buffers that submitted
command buffers refer to; and the mapped writes found to store into such a
buffer after the submission. -/
structure Scan where
  recorded : List (Nat × Command)
  in_flight : List Nat
  late : List MappedWrite
  deriving DecidableEq, Repr, Inhabited

def Scan.init : Scan :=
  { recorded := [], in_flight := [], late := [] }

def Scan.step (s : Scan) : Call → Scan
  | Call.record c cmd => { s with recorded := s.recorded ++ [(c.handle, cmd)] }
  | Call.submit c =>
      { s with in_flight := s.in_flight ++
          ((s.recorded.filter (fun r => r.1 == c.handle)).map (fun r => r.2.buffers)).flatten }
  | Call.mapped_write w =>
      if w.buffer.handle ∈ s.in_flight then { s with late := s.late ++ [w] } else s
  | _ => s

def Scan.run (s : Scan) (calls : List Call) : Scan :=
  calls.foldl Scan.step s

/-- The mapped writes of a trace that come after a submission which refers to
the written buffer. -/
def writes_after_submit (trace : List Call) : List MappedWrite :=
  (Scan.init.run trace).late

def LoopEvent.is_update : LoopEvent → Bool
  | LoopEvent.UPDATE _ => true
  | _ => false

/-- Whether some `UPDATE` event is delivered after a `RENDER` event whose
acquired texture is not suboptimal. -/
def update_after_render : List LoopEvent → Bool
  | [] => false
  | LoopEvent.RENDER texture :: rest =>
      if texture.suboptimal then update_after_render rest else rest.any LoopEvent.is_update
  | _ :: rest => update_after_render rest

/-! ## The resource state tracker -/

/-- Modelled from the spec: the Resource State Tracker of the RHI (section
4.4), which is not among the sources: a ledger from resource identity, here
the handle, to the current state of the resource. -/
def Tracker : Type := Nat → Option ResourceState

namespace Tracker

/-- Modelled from the spec: a ledger that tracks nothing yet. -/
def empty : Tracker :=
  fun _ => none

/-- Modelled from the spec: creation registers the resource with state
`Undefined` (section 4.1). -/
def register (t : Tracker) (handle : Nat) : Tracker :=
  fun k => if k = handle then some ResourceState.Undefined else t k

/-- Modelled from the spec: `resource_barrier` validates that the declared
"from" state is the tracked state, a mismatch being fatal, then updates the
tracked state to "to" (section 4.4). -/
def resource_barrier (t : Tracker) (tr : GPUStateTransition) : Option Tracker :=
  if t tr.texture.handle = some tr.from_state then
    some (fun k => if k = tr.texture.handle then some tr.to_state else t k)
  else
    none

/-- Modelled from the spec: replaying recorded commands in order; no
operation other than `resource_barrier` changes the ledger (section 4.4).
The result is `none` when some barrier fails validation. -/
def replay (t : Tracker) : List Command → Option Tracker
  | [] => some t
  | Command.resource_barrier tr :: rest =>
      match t.resource_barrier tr with
      | some t' => replay t' rest
      | none => none
  | _ :: rest => replay t rest

/-- Whether the textures behind the attachments of a pass are tracked in the
states the pass requires (invariant (a) of the spec). -/
def attachments_ready (t : Tracker) (desc : GPURenderPassDescriptor) : Bool :=
  desc.color_attachments.all
    (fun a => decide (t a.view.texture.handle = some ResourceState.ColorAttachment)) &&
  (match desc.depth_stencil_attachment with
   | some a => decide (t a.view.texture.handle = some ResourceState.DepthStencilAttachment)
   | none => true)

/-- Replays the commands and checks every `begin_render_pass` on the way:
`true` when every barrier validates and every pass begins with its
attachments ready. -/
def check_passes (t : Tracker) : List Command → Bool
  | [] => true
  | Command.resource_barrier tr :: rest =>
      match t.resource_barrier tr with
      | some t' => check_passes t' rest
      | none => false
  | Command.begin_render_pass desc :: rest =>
      t.attachments_ready desc && check_passes t rest
  | _ :: rest => check_passes t rest

/-- Replaying `cmds` from the ledger `t`: at every `begin_render_pass` the
replay of the commands before it succeeds and leaves the attachments of the
pass ready, and the replay of all of `cmds`, after which `submit()` is called,
succeeds and leaves `frame` tracked as `PresentSource`. -/
def states_in_order (t : Tracker) (cmds : List Command) (frame : GPUTexture) : Prop :=
  (∀ pre desc post, cmds = pre ++ Command.begin_render_pass desc :: post →
      ∃ t', t.replay pre = some t' ∧ t'.attachments_ready desc = true) ∧
  (∃ t', t.replay cmds = some t' ∧ t' frame.handle = some ResourceState.PresentSource)

end Tracker

/-! ## The device queue -/

/-- A step of the system: the thread of the handlers makes its next call, or
the device queue executes its next command. -/
inductive Tick where
  | host
  | queue
  deriving DecidableEq, Repr, Inhabited

/-- What is known of one `present()` call: the texture, the calls made before
it, and whether the `complete` fence of the texture had been signaled by the
queue when the call was made. -/
structure Presentation where
  texture : GPUSurfaceTexture
  made : List Call
  complete_signaled : Bool
  deriving DecidableEq, Repr, Inhabited

/-- Modelled from the spec: the asynchronous device queue (section 5), which
is not among the sources.  `submit()` returns once the commands are enqueued;
the queue executes them on its own, and `signal` is the one command whose
execution the host can observe. -/
structure Machine where
  todo : List Call
  made : List Call
  queue : List Command
  signaled : List GPUFence
  presented : List Presentation
  deriving DecidableEq, Repr, Inhabited

namespace Machine

/-- The machine about to make the calls `program`, with an idle queue. -/
def load (program : List Call) : Machine :=
  { todo := program, made := [], queue := [], signaled := [], presented := [] }

/-- One step.  A host step makes the next call: `submit` appends the commands
recorded on the command buffer to the queue and returns, `present` is logged
with the state of the `complete` fence at that moment.  A queue step executes
the oldest command in the queue; executing `signal` sets the fence. -/
def step (m : Machine) : Tick → Machine
  | Tick.host =>
      match m.todo with
      | [] => m
      | c :: rest =>
          let m' := { m with todo := rest, made := m.made ++ [c] }
          match c with
          | Call.submit command =>
              { m' with queue := m.queue ++ recorded_on command m.made }
          | Call.present texture =>
              { m' with presented := m.presented ++
                  [ { texture := texture, made := m.made,
                      complete_signaled := decide (texture.complete ∈ m.signaled) } ] }
          | _ => m'
  | Tick.queue =>
      match m.queue with
      | [] => m
      | Command.signal fence _ :: rest =>
          { m with queue := rest, signaled := m.signaled ++ [fence] }
      | _ :: rest => { m with queue := rest }

def run (schedule : List Tick) (m : Machine) : Machine :=
  schedule.foldl step m

end Machine

/-! ## Fixed-function semantics -/

/-- The comparison a compare function makes between an incoming value and the
stored one. -/
def GPUCompareFunction.passes {α : Type} [LinearOrder α] (f : GPUCompareFunction)
    (incoming stored : α) : Bool :=
  match f with
  | GPUCompareFunction.NEVER => false
  | GPUCompareFunction.LESS => decide (incoming < stored)
  | GPUCompareFunction.EQUAL => decide (incoming = stored)
  | GPUCompareFunction.LESS_EQUAL => decide (incoming ≤ stored)
  | GPUCompareFunction.GREATER => decide (stored < incoming)
  | GPUCompareFunction.NOT_EQUAL => decide (incoming ≠ stored)
  | GPUCompareFunction.GREATER_EQUAL => decide (stored ≤ incoming)
  | GPUCompareFunction.ALWAYS => true

/-- Modelled from the spec: the store policy of an attachment plane (section
4.3): what a pass that wrote `written` leaves in the plane, `none` standing
for discarded content. -/
def GPUStoreOp.leave {α : Type} (op : GPUStoreOp) (written : α) : Option α :=
  match op with
  | GPUStoreOp.STORE => some written
  | GPUStoreOp.DISCARD => none

/-- Modelled from the spec: the load policy of an attachment plane (section
4.3): what a pass finds in the plane when it begins. -/
def GPULoadOp.enter {α : Type} (op : GPULoadOp) (clear_value : α) (content : Option α) :
    Option α :=
  match op with
  | GPULoadOp.LOAD => content
  | GPULoadOp.CLEAR => some clear_value

/-! ## Inputs used for concrete evaluation -/

def sample_defaults : Defaults :=
  { color_write_mask := 0xF,
    depth_stencil :=
      { format := GPUTextureFormat.other 0,
        depth_compare := GPUCompareFunction.ALWAYS,
        depth_write_enabled := false,
        stencil_read_mask := 0xFFFFFFFF,
        stencil_write_mask := 0xFFFFFFFF,
        stencil_front :=
          { compare := GPUCompareFunction.ALWAYS,
            fail_op := GPUStencilOperation.KEEP,
            depth_fail_op := GPUStencilOperation.KEEP,
            pass_op := GPUStencilOperation.KEEP },
        stencil_back :=
          { compare := GPUCompareFunction.ALWAYS,
            fail_op := GPUStencilOperation.KEEP,
            depth_fail_op := GPUStencilOperation.KEEP,
            pass_op := GPUStencilOperation.KEEP } },
    layout_entry_count := 1,
    bind_entry_index := 0 }

/-- A surface of the size of the window `main` opens. -/
def sample_surface : Surface :=
  { format := GPUTextureFormat.other 1, extent := { width := 1920, height := 1080 } }

/-- The swapchain image number `i` and its view, with handles apart from
those the device hands out in the runs below. -/
def sample_frame (i : Nat) (suboptimal : Bool) : GPUSurfaceTexture :=
  let texture : GPUTexture :=
    { handle := 1000 + 10 * i,
      desc :=
        { format := GPUTextureFormat.other 1,
          size := { width := 1920, height := 1080, depth := 1 },
          array_layers := 1,
          mip_level_count := 1,
          usage := [GPUTextureUsage.RENDER_ATTACHMENT],
          label := "backbuffer" } }
  { texture := texture,
    view := { handle := 1001 + 10 * i, texture := texture },
    available := { handle := 1002 + 10 * i },
    complete := { handle := 1003 + 10 * i },
    suboptimal := suboptimal }


/-! ## The depth and stencil test at one pixel -/

/-- One fragment a draw produces at a pixel. -/
structure Fragment where
  front_facing : Bool
  depth : ℚ
  deriving DecidableEq, Repr, Inhabited

/-- What the depth-stencil attachment holds at one pixel, and whether a
fragment has written the colour plane there since the pass began (the load
operation of the colour attachment is not counted). -/
structure Pixel where
  stencil : Nat
  depth : ℚ
  color_written : Bool
  deriving DecidableEq, Repr, Inhabited

/-- The value a stencil operation computes for an 8-bit stencil plane from
the reference and the stored value. -/
def GPUStencilOperation.apply (op : GPUStencilOperation) (reference stored : Nat) : Nat :=
  match op with
  | GPUStencilOperation.KEEP => stored
  | GPUStencilOperation.ZERO => 0
  | GPUStencilOperation.REPLACE => reference
  | GPUStencilOperation.INVERT => stored ^^^ 255
  | GPUStencilOperation.INCREMENT_CLAMP => if stored < 255 then stored + 1 else 255
  | GPUStencilOperation.DECREMENT_CLAMP => stored - 1
  | GPUStencilOperation.INCREMENT_WRAP => (stored + 1) % 256
  | GPUStencilOperation.DECREMENT_WRAP => (stored + 255) % 256

/-- Writing `value` over `stored` through a write mask: the bits of the mask
come from `value`, the others stay. -/
def stencil_select (write_mask stored value : Nat) : Nat :=
  stored ^^^ ((stored ^^^ value) &&& write_mask)

/-- The fixed-function treatment of one fragment under a depth-stencil state:
the stencil test compares the masked reference with the masked stored value;
a fragment that fails it, or passes it and fails the depth test, is dropped
after the matching stencil operation; a fragment that passes both has the
pass operation applied, its depth written when depth write is enabled, and
its colour written when some colour channel is enabled. -/
def shade (ds : GPUDepthStencilState) (color_write_mask reference : Nat) (px : Pixel)
    (f : Fragment) : Pixel :=
  let face := if f.front_facing then ds.stencil_front else ds.stencil_back
  let put := fun (op : GPUStencilOperation) =>
    stencil_select ds.stencil_write_mask px.stencil (op.apply reference px.stencil)
  if face.compare.passes (reference &&& ds.stencil_read_mask)
      (px.stencil &&& ds.stencil_read_mask) then
    if ds.depth_compare.passes f.depth px.depth then
      { stencil := put face.pass_op,
        depth := if ds.depth_write_enabled then f.depth else px.depth,
        color_written := px.color_written || decide (color_write_mask ≠ GPUColorWrite.NONE) }
    else
      { px with stencil := put face.depth_fail_op }
  else
    { px with stencil := put face.fail_op }

/-- The treatment of one fragment under a pipeline: its depth-stencil state,
and colour written when some target of the pipeline has a channel enabled. -/
def GPURenderPipeline.shade (p : GPURenderPipeline) (reference : Nat) (px : Pixel)
    (f : Fragment) : Pixel :=
  Lyra.shade p.desc.depth_stencil
    ((p.desc.fragment.targets.map (fun t => t.write_mask)).foldl (fun a b => a ||| b) 0)
    reference px f

/-- The state of one pixel while recorded commands are replayed: the pixel,
the pipeline bound and the stencil reference set. -/
structure Raster where
  pixel : Pixel
  pipeline : Option GPURenderPipeline
  reference : Nat
  deriving DecidableEq, Repr, Inhabited

/-- The raster state before any command of a pass, over the pixel `px`. -/
def Raster.on (px : Pixel) : Raster :=
  { pixel := px, pipeline := none, reference := 0 }

/-- One recorded command at one pixel; `fragments` are the fragments every
draw of the replayed commands produces at this pixel.  `begin_render_pass`
applies the load operations of the depth-stencil attachment, a draw shades
the fragments in order under the pipeline bound. -/
def Raster.step (fragments : List Fragment) (r : Raster) : Command → Raster
  | Command.begin_render_pass desc =>
      match desc.depth_stencil_attachment with
      | some a =>
          { r with pixel :=
              { stencil :=
                  (match a.stencil_load_op with
                   | GPULoadOp.CLEAR => a.stencil_clear_value
                   | GPULoadOp.LOAD => r.pixel.stencil),
                depth :=
                  (match a.depth_load_op with
                   | GPULoadOp.CLEAR => a.depth_clear_value
                   | GPULoadOp.LOAD => r.pixel.depth),
                color_written := false } }
      | none => { r with pixel := { r.pixel with color_written := false } }
  | Command.set_pipeline p => { r with pipeline := some p }
  | Command.set_stencil_reference v => { r with reference := v }
  | Command.draw _ _ _ _ =>
      match r.pipeline with
      | some p => { r with pixel := fragments.foldl (p.shade r.reference) r.pixel }
      | none => r
  | Command.draw_indexed _ _ _ _ _ =>
      match r.pipeline with
      | some p => { r with pixel := fragments.foldl (p.shade r.reference) r.pixel }
      | none => r
  | _ => r

def Raster.run (fragments : List Fragment) (r : Raster) (cmds : List Command) : Raster :=
  cmds.foldl (Raster.step fragments) r

/-! ## Well-formedness of what a frame records -/

/-- The commands the recorder accepts inside an open render pass only. -/
def Command.pass_only : Command → Bool
  | Command.set_viewport _ _ _ _ => true
  | Command.set_scissor_rect _ _ _ _ => true
  | Command.set_pipeline _ => true
  | Command.set_vertex_buffer _ _ => true
  | Command.set_index_buffer _ _ => true
  | Command.set_bind_group _ _ => true
  | Command.set_stencil_reference _ => true
  | Command.draw _ _ _ _ => true
  | Command.draw_indexed _ _ _ _ _ => true
  | _ => false

/-- Whether a stretch of calls nests its render passes well, `inside` telling
whether a pass is open before the first call: `begin_render_pass` comes only
while no pass is open, `end_render_pass` only while one is, the pass-only
commands only while one is, and no pass is open at `submit()` nor at the end. -/
def well_nested (inside : Bool) : List Call → Bool
  | [] => !inside
  | Call.record _ (Command.begin_render_pass _) :: rest => !inside && well_nested true rest
  | Call.record _ Command.end_render_pass :: rest => inside && well_nested false rest
  | Call.record _ c :: rest => (!c.pass_only || inside) && well_nested inside rest
  | Call.submit _ :: rest => !inside && well_nested inside rest
  | _ :: rest => well_nested inside rest

/-- The render passes of a command list, each with the pipelines bound
between its `begin_render_pass` and the next one. -/
def passes_with_pipelines : List Command → List (GPURenderPassDescriptor × List GPURenderPipeline)
  | [] => []
  | Command.begin_render_pass desc :: rest =>
      (desc, (rest.takeWhile (fun c => c.pass?.isNone)).filterMap Command.pipeline?) ::
        passes_with_pipelines rest
  | _ :: rest => passes_with_pipelines rest

/-- Modelled from the spec: the rule of bind group creation (section 8):
creation succeeds iff entry count, binding indices and resource kinds of the
descriptor match those of its layout exactly, slot for slot. -/
def GPUBindGroupDescriptor.conforms (desc : GPUBindGroupDescriptor) : Bool :=
  desc.entries.map (fun e => (e.binding, e.type)) ==
    desc.layout.desc.entries.map (fun e => (e.binding, e.type))

def Call.bind_group? : Call → Option GPUBindGroup
  | Call.create_bind_group g => some g
  | _ => none

def GPUStencilFaceState.keeps (face : GPUStencilFaceState) : Bool :=
  face.pass_op == GPUStencilOperation.KEEP && face.fail_op == GPUStencilOperation.KEEP &&
    face.depth_fail_op == GPUStencilOperation.KEEP

/-- Whether nothing writes the planes that the attachment `a` marks read-only
in a pass that binds a pipeline of depth-stencil state `ds`: for the depth
plane, depth write is disabled and the load operation keeps the content; for
the stencil plane, the write mask is 0 or every stencil operation is KEEP,
and the load operation keeps the content. -/
def read_only_respected (a : GPURenderPassDepthStencilAttachment) (ds : GPUDepthStencilState) :
    Bool :=
  (!a.depth_read_only ||
    (!ds.depth_write_enabled && a.depth_load_op == GPULoadOp.LOAD)) &&
  (!a.stencil_read_only ||
    ((ds.stencil_write_mask == 0 || (ds.stencil_front.keeps && ds.stencil_back.keeps)) &&
      a.stencil_load_op == GPULoadOp.LOAD))

def Call.is_submit : Call → Bool
  | Call.submit _ => true
  | _ => false

/-! ## Buffer contents and resource lifetime -/

def Call.mapped_write? : Call → Option MappedWrite
  | Call.mapped_write w => some w
  | _ => none

/-- The mapped writes of a stretch of calls, in program order. -/
def mapped_writes (calls : List Call) : List MappedWrite :=
  calls.filterMap Call.mapped_write?

/-- What a stretch of calls stores into the buffer `b` through its mapped
range: element index, member and value of each store, in program order. -/
def writes_to (b : GPUBuffer) (calls : List Call) : List (Nat × String × Value) :=
  ((mapped_writes calls).filter (fun w => decide (w.buffer = b))).map
    (fun w => (w.index, w.field, w.value))

/-- Whether the element a mapped write stores into lies inside the buffer as
its descriptor sized it: the index is below the number of whole elements. -/
def MappedWrite.in_bounds (w : MappedWrite) : Bool :=
  decide (w.index < w.buffer.desc.size / w.elem_size)

def Command.is_draw : Command → Bool
  | Command.draw _ _ _ _ => true
  | Command.draw_indexed _ _ _ _ _ => true
  | _ => false

/-- The handle a call creates, when it creates one. -/
def Call.created? : Call → Option Nat
  | Call.create_shader_module m => some m.handle
  | Call.create_bind_group_layout l => some l.handle
  | Call.create_pipeline_layout l => some l.handle
  | Call.create_render_pipeline p => some p.handle
  | Call.create_buffer b => some b.handle
  | Call.create_texture t => some t.handle
  | Call.create_view v => some v.handle
  | Call.create_command_buffer c => some c.handle
  | Call.create_bind_group g => some g.handle
  | _ => none

def Call.destroyed? : Call → Option Nat
  | Call.destroy handle => some handle
  | _ => none

/-- Modelled from the spec: the registry of the device (sections 4.1 and 9),
which is not among the sources: the handles that are live, and the log of the
releases made so far. -/
structure Registry where
  live : List Nat
  released : List Nat
  deriving DecidableEq, Repr, Inhabited

namespace Registry

def init : Registry :=
  { live := [], released := [] }

/-- Modelled from the spec: a creation records the new handle as live;
`destroy` releases a live handle and does nothing to a handle that is not
live (sections 4.1 and 8). -/
def step (r : Registry) (c : Call) : Registry :=
  match c with
  | Call.destroy handle =>
      if handle ∈ r.live then
        { live := r.live.erase handle, released := r.released ++ [handle] }
      else r
  | _ =>
      match c.created? with
      | some handle => { r with live := r.live ++ [handle] }
      | none => r

def run (r : Registry) (calls : List Call) : Registry :=
  calls.foldl step r

/-- Modelled from the spec: device teardown releases every handle that is
still live (sections 3 and 9). -/
def teardown (r : Registry) : Registry :=
  { live := [], released := r.released ++ r.live }

end Registry

/-- A whole session of StencilTest: the `START` handlers on a fresh device,
the loop events, then the `CLOSE` handler `cleanup`. -/
def StencilTest.session (dflt : Defaults) (surface : Surface) (events : List LoopEvent) :
    Device :=
  let (g, d) := StencilTest.start dflt surface Device.fresh
  StencilTest.cleanup g (StencilTest.loop dflt g surface events d)

/-- A whole session of Triangle. -/
def Triangle.session (dflt : Defaults) (surface : Surface) (events : List LoopEvent) :
    Device :=
  let (g, d) := Triangle.start dflt surface Device.fresh
  Triangle.cleanup g (Triangle.loop dflt g surface events d)

/-- A whole session of Window. -/
def Window.session (dflt : Defaults) (surface : Surface) (events : List LoopEvent) :
    Device :=
  let (g, d) := Window.start dflt surface Device.fresh
  Window.cleanup g (Window.loop g surface events d)

/-! ## Draws and the bindings in force -/

/-- What is bound inside a render pass: the pipeline, the vertex buffers by
slot, the index buffer with its format, the bind groups by index; the most
recent binding of a slot or index comes first. -/
structure Bindings where
  pipeline : Option GPURenderPipeline
  vertex_buffers : List (Nat × GPUBuffer)
  index_buffer : Option (GPUBuffer × GPUIndexFormat)
  bind_groups : List (Nat × GPUBindGroup)
  deriving DecidableEq, Repr, Inhabited

/-- Nothing bound, as when a render pass begins. -/
def Bindings.unbound : Bindings :=
  { pipeline := none, vertex_buffers := [], index_buffer := none, bind_groups := [] }

/-- A draw command with the bindings made before it in its render pass. -/
structure DrawCall where
  command : Command
  bound : Bindings
  deriving DecidableEq, Repr, Inhabited

/-- The draws of a command list, each with what the commands before it have
bound since its render pass began. -/
def draw_calls_from (b : Bindings) : List Command → List DrawCall
  | [] => []
  | Command.begin_render_pass _ :: rest => draw_calls_from Bindings.unbound rest
  | Command.end_render_pass :: rest => draw_calls_from Bindings.unbound rest
  | Command.set_pipeline p :: rest => draw_calls_from { b with pipeline := some p } rest
  | Command.set_vertex_buffer slot buffer :: rest =>
      draw_calls_from { b with vertex_buffers := (slot, buffer) :: b.vertex_buffers } rest
  | Command.set_index_buffer buffer format :: rest =>
      draw_calls_from { b with index_buffer := some (buffer, format) } rest
  | Command.set_bind_group index group :: rest =>
      draw_calls_from { b with bind_groups := (index, group) :: b.bind_groups } rest
  | Command.draw n i v f :: rest =>
      { command := Command.draw n i v f, bound := b } :: draw_calls_from b rest
  | Command.draw_indexed n i f v s :: rest =>
      { command := Command.draw_indexed n i f v s, bound := b } :: draw_calls_from b rest
  | _ :: rest => draw_calls_from b rest

def draw_calls (cmds : List Command) : List DrawCall :=
  draw_calls_from Bindings.unbound cmds

/-- The size in bytes of one index of a format. -/
def GPUIndexFormat.size : GPUIndexFormat → Nat
  | GPUIndexFormat.UINT16 => 2
  | GPUIndexFormat.UINT32 => 4

/-- Whether a draw has all it needs bound: a pipeline; a bind group for every
bind group layout of the layout of that pipeline; a vertex buffer for exactly
the slots the pipeline declares; and, for `draw_indexed`, an index buffer of
format UINT32. -/
def DrawCall.fully_bound (dc : DrawCall) : Bool :=
  match dc.bound.pipeline with
  | none => false
  | some p =>
      (List.range p.desc.layout.desc.bind_group_layouts.length).all
        (fun i => dc.bound.bind_groups.any (fun g => g.1 == i)) &&
      (List.range p.desc.vertex.buffers.length).all
        (fun s => dc.bound.vertex_buffers.any (fun v => v.1 == s)) &&
      dc.bound.vertex_buffers.all (fun v => decide (v.1 < p.desc.vertex.buffers.length)) &&
      (match dc.command with
       | Command.draw_indexed _ _ _ _ _ =>
           (match dc.bound.index_buffer with
            | some (_, format) => format == GPUIndexFormat.UINT32
            | none => false)
       | _ => true)

/-- The index stored last into element `i` of the buffer `b`, when an index
was stored there. -/
def stored_index (b : GPUBuffer) (calls : List Call) (i : Nat) : Option Nat :=
  match (writes_to b calls).reverse.find? (fun w => w.1 == i) with
  | some (_, _, Value.u32 n) => some n
  | _ => none

/-- The indices stored in the elements `i`, `i + 1`, ... of `b`, as far as
they were written and for `fuel` elements at most. -/
def stored_indices_from (b : GPUBuffer) (calls : List Call) : Nat → Nat → List Nat
  | 0, _ => []
  | fuel + 1, i =>
      match stored_index b calls i with
      | some v => v :: stored_indices_from b calls fuel (i + 1)
      | none => []

/-- The indices written into the index buffer `b`, element by element from
element 0, within the `size / 4` elements of 4 bytes the buffer has room for. -/
def stored_indices (b : GPUBuffer) (calls : List Call) : List Nat :=
  stored_indices_from b calls (b.desc.size / 4) 0

/-- The number of consecutive elements of `b` from element `i` on that were
written, for `fuel` elements at most. -/
def written_from (b : GPUBuffer) (calls : List Call) : Nat → Nat → Nat
  | 0, _ => 0
  | fuel + 1, i =>
      if (writes_to b calls).any (fun w => w.1 == i) then
        written_from b calls fuel (i + 1) + 1
      else 0

/-- The number of vertices the vertex buffer `b` holds: the elements written
from element 0 on, within the `size / stride` vertices the buffer has room
for. -/
def vertices_held (b : GPUBuffer) (calls : List Call) (stride : Nat) : Nat :=
  written_from b calls (b.desc.size / stride) 0

/-- Whether an indexed draw stays inside what `setup` wrote: the indices it
reads, `index_count` of them from `first_index` on, were written into the
index buffer bound, and each of them, moved by `base_vertex`, is below the
number of vertices held by the vertex buffer bound to slot 0, the stride being
the one the pipeline bound declares for that slot.  A draw that is not
indexed reads no index. -/
def DrawCall.indices_in_range (setup : List Call) (dc : DrawCall) : Bool :=
  match dc.command with
  | Command.draw_indexed index_count _ first_index base_vertex _ =>
      match dc.bound.index_buffer, dc.bound.vertex_buffers.lookup 0, dc.bound.pipeline with
      | some (ib, _), some vb, some p =>
          match p.desc.vertex.buffers.head? with
          | some layout =>
              decide (first_index + index_count ≤ (stored_indices ib setup).length) &&
              (((stored_indices ib setup).drop first_index).take index_count).all
                (fun v => decide (v + base_vertex < vertices_held vb setup layout.array_stride))
          | none => false
      | _, _, _ => false
  | _ => true

/-- The render passes of a command list, each with the draws recorded between
its `begin_render_pass` and its `end_render_pass` and the bindings in force at
each of them. -/
def passes_with_draws : List Command → List (GPURenderPassDescriptor × List DrawCall)
  | [] => []
  | Command.begin_render_pass desc :: rest =>
      (desc, draw_calls (rest.takeWhile
        (fun c => c.pass?.isNone && decide (c ≠ Command.end_render_pass)))) ::
        passes_with_draws rest
  | _ :: rest => passes_with_draws rest
/-! ## Theorems -/

set_option maxRecDepth 100000

/-! ### What one `render()` records -/

theorem StencilTest.stencil_render_commands (dflt : Defaults) (g : StencilTest.Globals)
    (surface : Surface) (texture : GPUSurfaceTexture) (d : Device)
    (hsub : texture.suboptimal = false) :
    commands_of (calls_of (StencilTest.render dflt g surface texture) d) =
      [ Command.wait texture.available GPUBarrierSync.PIXEL_SHADING,
        Command.resource_barrier
          (state_transition texture.texture undefined_state color_attachment_state),
        Command.resource_barrier
          (state_transition g.dsbuffer undefined_state depth_stencil_attachment_state),
        Command.begin_render_pass (StencilTest.mask_pass g texture),
        Command.set_viewport 0 0 surface.extent.width surface.extent.height,
        Command.set_scissor_rect 0 0 surface.extent.width surface.extent.height,
        Command.set_pipeline g.pipeline_mask,
        Command.set_vertex_buffer 0 g.vbuffer_mask,
        Command.set_index_buffer g.ibuffer_mask GPUIndexFormat.UINT32,
        Command.set_bind_group 0
          { handle := d.next_handle + 1,
            desc :=
              { layout := g.blayout,
                entries :=
                  [ { type := GPUBindingResourceType.BUFFER,
                      binding := 0,
                      index := dflt.bind_entry_index,
                      buffer := { buffer := g.ubuffer, offset := 0, size := 0 } } ] } },
        Command.set_stencil_reference 1,
        Command.draw_indexed 3 1 0 0 0,
        Command.end_render_pass,
        Command.begin_render_pass (StencilTest.color_pass g texture),
        Command.set_viewport 0 0 surface.extent.width surface.extent.height,
        Command.set_scissor_rect 0 0 surface.extent.width surface.extent.height,
        Command.set_pipeline g.pipeline_draw,
        Command.set_vertex_buffer 0 g.vbuffer_draw,
        Command.set_index_buffer g.ibuffer_draw GPUIndexFormat.UINT32,
        Command.set_bind_group 0
          { handle := d.next_handle + 1,
            desc :=
              { layout := g.blayout,
                entries :=
                  [ { type := GPUBindingResourceType.BUFFER,
                      binding := 0,
                      index := dflt.bind_entry_index,
                      buffer := { buffer := g.ubuffer, offset := 0, size := 0 } } ] } },
        Command.set_stencil_reference 1,
        Command.draw_indexed 6 1 0 0 0,
        Command.end_render_pass,
        Command.resource_barrier
          (state_transition texture.texture color_attachment_state present_src_state),
        Command.signal texture.complete GPUBarrierSync.RENDER_TARGET ] := by
  simp [StencilTest.render, StencilTest.render_mask, StencilTest.render_color, calls_of,
    commands_of, Call.command?, Device.create_command_buffer, Device.create_bind_group,
    GPUCommandBuffer.record, GPUCommandBuffer.submit, GPUSurfaceTexture.present, Device.emit,
    hsub]

theorem Triangle.triangle_render_commands (dflt : Defaults) (g : Triangle.Globals)
    (surface : Surface) (texture : GPUSurfaceTexture) (d : Device)
    (hsub : texture.suboptimal = false) :
    commands_of (calls_of (Triangle.render dflt g surface texture) d) =
      [ Command.wait texture.available GPUBarrierSync.PIXEL_SHADING,
        Command.resource_barrier
          (state_transition texture.texture undefined_state color_attachment_state),
        Command.begin_render_pass (Triangle.frame_pass texture),
        Command.set_viewport 0 0 surface.extent.width surface.extent.height,
        Command.set_scissor_rect 0 0 surface.extent.width surface.extent.height,
        Command.set_pipeline g.pipeline,
        Command.set_vertex_buffer 0 g.vbuffer,
        Command.set_index_buffer g.ibuffer GPUIndexFormat.UINT32,
        Command.set_bind_group 0
          { handle := d.next_handle + 1,
            desc :=
              { layout := g.blayout,
                entries :=
                  [ { type := GPUBindingResourceType.BUFFER,
                      binding := 0,
                      index := dflt.bind_entry_index,
                      buffer := { buffer := g.ubuffer, offset := 0, size := 0 } } ] } },
        Command.draw_indexed 3 1 0 0 0,
        Command.end_render_pass,
        Command.resource_barrier
          (state_transition texture.texture color_attachment_state present_src_state),
        Command.signal texture.complete GPUBarrierSync.RENDER_TARGET ] := by
  simp [Triangle.render, calls_of, commands_of, Call.command?, Device.create_command_buffer,
    Device.create_bind_group, GPUCommandBuffer.record, GPUCommandBuffer.submit,
    GPUSurfaceTexture.present, Device.emit, hsub]

theorem Window.window_render_commands (g : Window.Globals) (surface : Surface)
    (texture : GPUSurfaceTexture) (d : Device) (hsub : texture.suboptimal = false) :
    commands_of (calls_of (Window.render g surface texture) d) =
      [ Command.wait texture.available GPUBarrierSync.PIXEL_SHADING,
        Command.resource_barrier
          (state_transition texture.texture undefined_state color_attachment_state),
        Command.begin_render_pass (Window.frame_pass texture),
        Command.set_viewport 0 0 surface.extent.width surface.extent.height,
        Command.set_scissor_rect 0 0 surface.extent.width surface.extent.height,
        Command.set_pipeline g.pipeline,
        Command.set_bind_group 0
          { handle := d.next_handle + 1,
            desc :=
              { layout := g.blayout,
                entries :=
                  [ { type := GPUBindingResourceType.BUFFER,
                      binding := 0,
                      index := 0,
                      buffer := { buffer := g.ubuffer, offset := 0, size := 0 } } ] } },
        Command.draw 3 1 0 0,
        Command.end_render_pass,
        Command.resource_barrier
          (state_transition texture.texture color_attachment_state present_src_state),
        Command.signal texture.complete GPUBarrierSync.RENDER_TARGET ] := by
  simp [Window.render, calls_of, commands_of, Call.command?, Device.create_command_buffer,
    Device.create_bind_group, GPUCommandBuffer.record, GPUCommandBuffer.submit,
    GPUSurfaceTexture.present, Device.emit, hsub]

/-- The view `setup_stencil_buffer` stores in `dsview` is a view of `dsbuffer`. -/
theorem StencilTest.start_dsview (dflt : Defaults) (surface : Surface) (d0 : Device) :
    (StencilTest.start dflt surface d0).1.dsview.texture =
      (StencilTest.start dflt surface d0).1.dsbuffer := by
  simp [StencilTest.start, StencilTest.setup_pipelines, StencilTest.setup_mask_geometry,
    StencilTest.setup_draw_geometry, StencilTest.setup_uniform_buffer,
    StencilTest.setup_stencil_buffer, GPUTexture.create_view]

/-! ### The tracker -/

/-- The check made while replaying is sound: when it succeeds, the commands
before any `begin_render_pass` replay to a ledger in which the attachments of
that pass are ready. -/
theorem Tracker.check_passes_sound (cmds : List Command) :
    ∀ t : Tracker, t.check_passes cmds = true →
      ∀ pre desc post, cmds = pre ++ Command.begin_render_pass desc :: post →
        ∃ t', t.replay pre = some t' ∧ t'.attachments_ready desc = true := by
  induction cmds with
  | nil =>
      intro t _ pre desc post h
      simp at h
  | cons c rest ih =>
      intro t hc pre desc post h
      cases pre with
      | nil =>
          simp at h
          obtain ⟨rfl, rfl⟩ := h
          simp [Tracker.check_passes] at hc
          exact ⟨t, rfl, hc.1⟩
      | cons p pre' =>
          simp at h
          obtain ⟨rfl, rfl⟩ := h
          cases c <;> simp [Tracker.check_passes, Tracker.replay] at hc ⊢
          case resource_barrier tr =>
            cases hb : t.resource_barrier tr with
            | none => simp [hb] at hc
            | some t1 =>
                simp [hb] at hc ⊢
                exact ih t1 hc pre' desc post rfl
          case begin_render_pass desc' =>
            exact ih t hc.2 pre' desc post rfl
          all_goals exact ih t hc pre' desc post rfl

/-! ### The device queue -/

/-- A step keeps the calls made and the calls still to make together equal to
the program, and every `present()` logged was the call right after the calls
logged with it. -/
theorem Machine.step_keeps_program (program : List Call) (m : Machine) (tick : Tick)
    (hsplit : m.made ++ m.todo = program)
    (hlog : ∀ p ∈ m.presented, ∃ rest, program = p.made ++ Call.present p.texture :: rest) :
    (m.step tick).made ++ (m.step tick).todo = program ∧
    ∀ p ∈ (m.step tick).presented,
      ∃ rest, program = p.made ++ Call.present p.texture :: rest := by
  cases tick with
  | host =>
      cases htodo : m.todo with
      | nil =>
          simp only [Machine.step, htodo]
          exact ⟨by rw [← hsplit, htodo], hlog⟩
      | cons c rest =>
          have hprog : (m.made ++ [c]) ++ rest = program := by
            rw [← hsplit, htodo]
            simp
          cases c <;> simp only [Machine.step, htodo] <;> refine ⟨hprog, ?_⟩ <;>
            try exact hlog
          intro p hp
          rw [List.mem_append] at hp
          rcases hp with hp | hp
          · exact hlog p hp
          · simp only [List.mem_singleton] at hp
            subst hp
            exact ⟨rest, by rw [← hsplit, htodo]⟩
  | queue =>
      cases hq : m.queue with
      | nil =>
          simp only [Machine.step, hq]
          exact ⟨hsplit, hlog⟩
      | cons c rest =>
          cases c <;> simp only [Machine.step, hq] <;> exact ⟨hsplit, hlog⟩

theorem Machine.run_keeps_program (program : List Call) (schedule : List Tick) :
    ∀ m : Machine, m.made ++ m.todo = program →
      (∀ p ∈ m.presented, ∃ rest, program = p.made ++ Call.present p.texture :: rest) →
      ∀ p ∈ (Machine.run schedule m).presented,
        ∃ rest, program = p.made ++ Call.present p.texture :: rest := by
  induction schedule with
  | nil =>
      intro m _ hlog
      exact hlog
  | cons tick rest ih =>
      intro m hsplit hlog
      have h := Machine.step_keeps_program program m tick hsplit hlog
      exact ih (m.step tick) h.1 h.2

/-- In every schedule, every `present()` the machine logs is a call of the
program, logged with the calls the program makes before it. -/
theorem Machine.presented_in_program (program : List Call) (schedule : List Tick) :
    ∀ p ∈ (Machine.run schedule (Machine.load program)).presented,
      ∃ rest, program = p.made ++ Call.present p.texture :: rest :=
  Machine.run_keeps_program program schedule (Machine.load program) (by simp [Machine.load])
    (by simp [Machine.load])

/-- A program whose only `present()` is its last call splits at a `present()`
in one way only. -/
theorem split_at_last_present (t0 : GPUSurfaceTexture) (calls : List Call)
    (hcalls : ∀ c ∈ calls, ∀ t, c ≠ Call.present t) :
    ∀ (pre : List Call) (t : GPUSurfaceTexture) (rest : List Call),
      calls ++ [Call.present t0] = pre ++ Call.present t :: rest →
      pre = calls ∧ t = t0 ∧ rest = [] := by
  induction calls with
  | nil =>
      intro pre t rest h
      cases pre with
      | nil =>
          simp at h
          exact ⟨rfl, h.1.symm, h.2⟩
      | cons p pre' =>
          simp at h
  | cons c calls' ih =>
      intro pre t rest h
      cases pre with
      | nil =>
          simp at h
          exact absurd h.1 (hcalls c (by simp) t)
      | cons p pre' =>
          simp at h
          obtain ⟨rfl, h'⟩ := h
          have := ih (fun c hc => hcalls c (by simp [hc])) pre' t rest (by simpa using h')
          exact ⟨by rw [this.1], this.2⟩

/-! ### Mapped writes along the loops -/

theorem mapped_writes_append (a b : List Call) :
    mapped_writes (a ++ b) = mapped_writes a ++ mapped_writes b := by
  simp [mapped_writes, List.filterMap_append]

theorem mapped_writes_eq_nil (calls : List Call)
    (h : ∀ c ∈ calls, ∀ w, c ≠ Call.mapped_write w) : mapped_writes calls = [] := by
  induction calls with
  | nil => rfl
  | cons c rest ih =>
      have hc := h c (by simp)
      have hrest := ih (fun c hc => h c (by simp [hc]))
      cases c <;> simp_all [mapped_writes, Call.mapped_write?]

/-! ### The registry along a session -/

theorem Registry.replay_append (r : Registry) (a b : List Call) :
    r.run (a ++ b) = (r.run a).run b := by
  simp [Registry.run, List.foldl_append]

theorem Registry.replay_cons (r : Registry) (c : Call) (rest : List Call) :
    r.run (c :: rest) = (r.step c).run rest := rfl

/-- Calls that destroy nothing add the handles they create to the live ones and release
nothing. -/
theorem Registry.run_creates (calls : List Call)
    (h : calls.filterMap Call.destroyed? = []) :
    ∀ r : Registry, r.run calls =
      { live := r.live ++ calls.filterMap Call.created?, released := r.released } := by
  induction calls with
  | nil =>
      intro r
      simp [Registry.run]
  | cons c rest ih =>
      intro r
      have hc : c.destroyed? = none := by
        cases hd : c.destroyed? with
        | none => rfl
        | some x => simp [List.filterMap_cons, hd] at h
      have hrest : rest.filterMap Call.destroyed? = [] := by
        simpa [List.filterMap_cons, hc] using h
      rw [Registry.replay_cons, ih hrest]
      cases c <;> simp [Registry.step, Call.created?, Call.destroyed?] at hc ⊢

/-- Destroying distinct live handles releases each of them, in order. -/
theorem Registry.run_destroys (handles : List Nat) :
    ∀ live released : List Nat, handles.Nodup → (∀ h ∈ handles, h ∈ live) →
      Registry.run { live := live, released := released } (handles.map Call.destroy) =
        { live := live.diff handles, released := released ++ handles } := by
  induction handles with
  | nil =>
      intro live released _ _
      simp [Registry.run]
  | cons h rest ih =>
      intro live released hnd hmem
      have hh : h ∈ live := hmem h (by simp)
      have hnd' := List.nodup_cons.mp hnd
      have hrest : ∀ x ∈ rest, x ∈ live.erase h := by
        intro x hx
        have hne : x ≠ h := fun e => hnd'.1 (e ▸ hx)
        exact (List.mem_erase_of_ne hne).mpr (hmem x (by simp [hx]))
      simp only [List.map_cons, Registry.replay_cons, Registry.step, hh, if_true]
      rw [ih _ _ hnd'.2 hrest]
      simp

theorem created_of_destroys (handles : List Nat) :
    (handles.map Call.destroy).filterMap Call.created? = [] := by
  induction handles with
  | nil => rfl
  | cons h rest _ => simp [Call.created?]

theorem destroyed_of_destroys (handles : List Nat) :
    (handles.map Call.destroy).filterMap Call.destroyed? = handles := by
  induction handles with
  | nil => rfl
  | cons h rest ih => simpa [Call.destroyed?] using ih

/-- A session that creates the handles `1 .. m` without destroying any, then waits for the
device and destroys distinct handles among them, and is then torn down: nothing stays live,
every handle created is released exactly once, and nothing else is released. -/
theorem Registry.session_exactly_once (pre : List Call) (handles : List Nat) (m : Nat)
    (hpre_d : pre.filterMap Call.destroyed? = [])
    (hpre_c : pre.filterMap Call.created? = List.range' 1 m)
    (hnd : handles.Nodup) (hin : ∀ h ∈ handles, 1 ≤ h ∧ h < 1 + m) :
    ((Registry.init.run (pre ++ Call.device_wait :: handles.map Call.destroy)).teardown).live
      = [] ∧
    (∀ h ∈ (pre ++ Call.device_wait :: handles.map Call.destroy).filterMap Call.created?,
      ((Registry.init.run
        (pre ++ Call.device_wait :: handles.map Call.destroy)).teardown).released.count h
          = 1) ∧
    (∀ h ∈ ((Registry.init.run
        (pre ++ Call.device_wait :: handles.map Call.destroy)).teardown).released,
      h ∈ (pre ++ Call.device_wait :: handles.map Call.destroy).filterMap Call.created?) ∧
    ((pre ++ Call.device_wait :: handles.map Call.destroy).filterMap Call.created?).Nodup ∧
    (pre ++ Call.device_wait :: handles.map Call.destroy).filterMap Call.destroyed?
      = handles := by
  have hcreated : (pre ++ Call.device_wait :: handles.map Call.destroy).filterMap
      Call.created? = List.range' 1 m := by
    simp [List.filterMap_append, List.filterMap_cons, hpre_c, Call.created?,
      created_of_destroys]
  have hmem : ∀ h ∈ handles, h ∈ List.range' 1 m := by
    intro h hh
    exact List.mem_range'_1.mpr (hin h hh)
  have hrun : Registry.init.run (pre ++ Call.device_wait :: handles.map Call.destroy) =
      { live := (List.range' 1 m).diff handles, released := handles } := by
    rw [Registry.replay_append, Registry.run_creates pre hpre_d, Registry.replay_cons]
    simp only [Registry.step, Call.created?, Registry.init, List.nil_append, hpre_c]
    rw [Registry.run_destroys handles _ _ hnd hmem]
    simp
  have hperm : (handles ++ (List.range' 1 m).diff handles).Perm (List.range' 1 m) := by
    apply List.subperm_append_diff_self_of_count_le
    intro x hx
    have h1 : List.count x handles ≤ 1 := List.nodup_iff_count_le_one.mp hnd x
    have h2 : 0 < List.count x (List.range' 1 m) := List.count_pos_iff.mpr (hmem x hx)
    omega
  rw [hcreated, hrun]
  refine ⟨rfl, ?_, ?_, List.nodup_range' 1 m, ?_⟩
  · intro h hh
    simp only [Registry.teardown]
    rw [hperm.count_eq]
    exact List.count_eq_one_of_mem (List.nodup_range' 1 m) hh
  · intro h hh
    simp only [Registry.teardown] at hh
    exact hperm.subset hh
  · simp only [List.filterMap_append, hpre_d, List.nil_append, List.filterMap_cons,
      Call.destroyed?]
    exact destroyed_of_destroys handles

/-- A loop of handlers that each extend the trace, allocate consecutive handles for what
they create and destroy nothing, does so as a whole. -/
theorem foldl_allocates {ε : Type} (f : Device → ε → Device)
    (hf : ∀ d e, ∃ k seg, (f d e).trace = d.trace ++ seg ∧
      (f d e).next_handle = d.next_handle + k ∧
      seg.filterMap Call.created? = List.range' d.next_handle k ∧
      seg.filterMap Call.destroyed? = []) (events : List ε) :
    ∀ d, ∃ k seg, (events.foldl f d).trace = d.trace ++ seg ∧
      (events.foldl f d).next_handle = d.next_handle + k ∧
      seg.filterMap Call.created? = List.range' d.next_handle k ∧
      seg.filterMap Call.destroyed? = [] := by
  induction events with
  | nil =>
      intro d
      exact ⟨0, [], by simp, by simp, by simp, by simp⟩
  | cons e rest ih =>
      intro d
      obtain ⟨k1, seg1, ht1, hn1, hc1, hd1⟩ := hf d e
      obtain ⟨k2, seg2, ht2, hn2, hc2, hd2⟩ := ih (f d e)
      refine ⟨k2 + k1, seg1 ++ seg2, ?_, ?_, ?_, ?_⟩
      · rw [List.foldl_cons, ht2, ht1, List.append_assoc]
      · rw [List.foldl_cons, hn2, hn1]
        omega
      · rw [List.filterMap_append, hc1, hc2, hn1, List.range'_append_1]
      · rw [List.filterMap_append, hd1, hd2]
        rfl

/-! ### Scanning a trace for late writes -/

theorem Scan.run_append (s : Scan) (a b : List Call) :
    s.run (a ++ b) = (s.run a).run b := by
  simp [Scan.run, List.foldl_append]

theorem Scan.run_nil (s : Scan) : s.run [] = s := rfl

theorem Scan.run_cons (s : Scan) (c : Call) (rest : List Call) :
    s.run (c :: rest) = (s.step c).run rest := by
  simp [Scan.run]

/-- Calls other than mapped writes add no late write. -/
theorem Scan.run_no_write (calls : List Call)
    (h : ∀ c ∈ calls, ∀ w, c ≠ Call.mapped_write w) :
    ∀ s : Scan, (s.run calls).late = s.late := by
  induction calls with
  | nil =>
      intro s
      rfl
  | cons c rest ih =>
      intro s
      rw [Scan.run_cons, ih (fun c hc => h c (by simp [hc]))]
      have hc := h c (by simp)
      cases c <;> simp [Scan.step] at hc ⊢

/-- A buffer that a submitted command buffer refers to stays in flight. -/
theorem Scan.run_in_flight (handle : Nat) (calls : List Call) :
    ∀ s : Scan, handle ∈ s.in_flight → handle ∈ (s.run calls).in_flight := by
  induction calls with
  | nil =>
      intro s h
      exact h
  | cons c rest ih =>
      intro s h
      rw [Scan.run_cons]
      apply ih
      cases c <;> simp [Scan.step, h]
      case mapped_write w =>
        split <;> exact h

/-- A late write, once found, stays found. -/
theorem Scan.run_late_ne_nil (calls : List Call) :
    ∀ s : Scan, s.late ≠ [] → (s.run calls).late ≠ [] := by
  induction calls with
  | nil =>
      intro s h
      exact h
  | cons c rest ih =>
      intro s h
      rw [Scan.run_cons]
      apply ih
      cases c <;> simp [Scan.step, h]
      case mapped_write w =>
        split <;> simp [h]

/-! ### The loops of the samples -/

theorem StencilTest.stencil_dispatch_trace (dflt : Defaults) (g : StencilTest.Globals)
    (surface : Surface) (e : LoopEvent) (d : Device) :
    (StencilTest.dispatch dflt g surface e d).trace =
      d.trace ++ calls_of (StencilTest.dispatch dflt g surface e) d ∧
    ∀ c ∈ calls_of (StencilTest.dispatch dflt g surface e) d,
      ∀ w, c ≠ Call.mapped_write w := by
  cases e with
  | UPDATE input => simp [StencilTest.dispatch, calls_of]
  | RESIZE info => simp [StencilTest.dispatch, calls_of]
  | RENDER texture =>
      cases hsub : texture.suboptimal <;>
        simp [StencilTest.dispatch, StencilTest.render, StencilTest.render_mask,
          StencilTest.render_color, calls_of, Device.create_command_buffer,
          Device.create_bind_group, GPUCommandBuffer.record, GPUCommandBuffer.submit,
          GPUSurfaceTexture.present, Device.emit, hsub]

theorem StencilTest.stencil_loop_late (dflt : Defaults) (g : StencilTest.Globals) (surface : Surface)
    (events : List LoopEvent) :
    ∀ d : Device, (Scan.init.run (StencilTest.loop dflt g surface events d).trace).late =
      (Scan.init.run d.trace).late := by
  induction events with
  | nil =>
      intro d
      rfl
  | cons e rest ih =>
      intro d
      have h := StencilTest.stencil_dispatch_trace dflt g surface e d
      have hloop : StencilTest.loop dflt g surface (e :: rest) d =
          StencilTest.loop dflt g surface rest (StencilTest.dispatch dflt g surface e d) := rfl
      rw [hloop, ih, h.1, Scan.run_append, Scan.run_no_write _ h.2]

theorem Triangle.triangle_dispatch_trace (dflt : Defaults) (g : Triangle.Globals)
    (surface : Surface) (e : LoopEvent) (d : Device) :
    (Triangle.dispatch dflt g surface e d).trace =
      d.trace ++ calls_of (Triangle.dispatch dflt g surface e) d ∧
    ∀ c ∈ calls_of (Triangle.dispatch dflt g surface e) d,
      ∀ w, c ≠ Call.mapped_write w := by
  cases e with
  | UPDATE input => simp [Triangle.dispatch, calls_of]
  | RESIZE info => simp [Triangle.dispatch, calls_of]
  | RENDER texture =>
      cases hsub : texture.suboptimal <;>
        simp [Triangle.dispatch, Triangle.render, calls_of, Device.create_command_buffer,
          Device.create_bind_group, GPUCommandBuffer.record, GPUCommandBuffer.submit,
          GPUSurfaceTexture.present, Device.emit, hsub]

theorem Triangle.triangle_loop_late (dflt : Defaults) (g : Triangle.Globals) (surface : Surface)
    (events : List LoopEvent) :
    ∀ d : Device, (Scan.init.run (Triangle.loop dflt g surface events d).trace).late =
      (Scan.init.run d.trace).late := by
  induction events with
  | nil =>
      intro d
      rfl
  | cons e rest ih =>
      intro d
      have h := Triangle.triangle_dispatch_trace dflt g surface e d
      have hloop : Triangle.loop dflt g surface (e :: rest) d =
          Triangle.loop dflt g surface rest (Triangle.dispatch dflt g surface e d) := rfl
      rw [hloop, ih, h.1, Scan.run_append, Scan.run_no_write _ h.2]

theorem Window.window_dispatch_trace (g : Window.Globals) (surface : Surface) (e : LoopEvent)
    (d : Device) :
    (Window.dispatch g surface e d).trace =
      d.trace ++ calls_of (Window.dispatch g surface e) d := by
  cases e with
  | UPDATE input =>
      simp [Window.dispatch, Window.update, calls_of, GPUBuffer.write, Device.emit]
  | RESIZE info => simp [Window.dispatch, Window.resize, calls_of]
  | RENDER texture =>
      cases hsub : texture.suboptimal <;>
        simp [Window.dispatch, Window.render, calls_of, Device.create_command_buffer,
          Device.create_bind_group, GPUCommandBuffer.record, GPUCommandBuffer.submit,
          GPUSurfaceTexture.present, Device.emit, hsub]

/-- Once a submitted command buffer refers to `ubuffer`, a run of the Window loop is free of
late writes exactly when it was so before and delivers no `UPDATE`. -/
theorem Window.loop_in_flight (g : Window.Globals) (surface : Surface)
    (events : List LoopEvent) :
    ∀ d : Device, g.ubuffer.handle ∈ (Scan.init.run d.trace).in_flight →
      ((Scan.init.run (Window.loop g surface events d).trace).late = [] ↔
        (Scan.init.run d.trace).late = [] ∧ events.any LoopEvent.is_update = false) := by
  induction events with
  | nil =>
      intro d _
      simp [Window.loop]
  | cons e rest ih =>
      intro d hin
      have htrace := Window.window_dispatch_trace g surface e d
      have hloop : Window.loop g surface (e :: rest) d =
          Window.loop g surface rest (Window.dispatch g surface e d) := rfl
      have hin' : g.ubuffer.handle ∈
          (Scan.init.run (Window.dispatch g surface e d).trace).in_flight := by
        rw [htrace, Scan.run_append]
        exact Scan.run_in_flight _ _ _ hin
      rw [hloop, ih _ hin']
      cases e with
      | UPDATE input =>
          have hlate : (Scan.init.run (Window.dispatch g surface
              (LoopEvent.UPDATE input) d).trace).late ≠ [] := by
            rw [htrace, Scan.run_append]
            simp [Window.dispatch, Window.update, calls_of, GPUBuffer.write, Device.emit,
              Scan.run_cons, Scan.run_nil, Scan.step, hin]
          simp [hlate, LoopEvent.is_update]
      | RESIZE info =>
          simp [Window.dispatch, Window.resize, LoopEvent.is_update]
      | RENDER texture =>
          have hsame : (Scan.init.run (Window.dispatch g surface
              (LoopEvent.RENDER texture) d).trace).late = (Scan.init.run d.trace).late := by
            rw [htrace, Scan.run_append]
            apply Scan.run_no_write
            cases hsub : texture.suboptimal <;>
              simp [Window.dispatch, Window.render, calls_of, Device.create_command_buffer,
                Device.create_bind_group, GPUCommandBuffer.record, GPUCommandBuffer.submit,
                GPUSurfaceTexture.present, Device.emit, hsub]
          rw [hsame]
          simp [LoopEvent.is_update]

/-- While no command buffer has been submitted, a run of the Window loop is free of late
writes exactly when no `UPDATE` is delivered after a `RENDER` that submits. -/
theorem Window.loop_idle (g : Window.Globals) (surface : Surface) (events : List LoopEvent) :
    ∀ d : Device, Scan.init.run d.trace = Scan.init →
      ((Scan.init.run (Window.loop g surface events d).trace).late = [] ↔
        update_after_render events = false) := by
  induction events with
  | nil =>
      intro d hidle
      simp only [Window.loop, List.foldl_nil, hidle, update_after_render]
      simp [Scan.init]
  | cons e rest ih =>
      intro d hidle
      have htrace := Window.window_dispatch_trace g surface e d
      have hloop : Window.loop g surface (e :: rest) d =
          Window.loop g surface rest (Window.dispatch g surface e d) := rfl
      rw [hloop]
      cases e with
      | UPDATE input =>
          have hidle' : Scan.init.run (Window.dispatch g surface
              (LoopEvent.UPDATE input) d).trace = Scan.init := by
            rw [htrace, Scan.run_append, hidle]
            simp [Window.dispatch, Window.update, calls_of, GPUBuffer.write, Device.emit,
              Scan.run, Scan.step, Scan.init]
          rw [ih _ hidle']
          simp [update_after_render]
      | RESIZE info =>
          have hidle' : Scan.init.run (Window.dispatch g surface
              (LoopEvent.RESIZE info) d).trace = Scan.init := by
            simpa [Window.dispatch, Window.resize] using hidle
          rw [ih _ hidle']
          simp [update_after_render]
      | RENDER texture =>
          cases hsub : texture.suboptimal with
          | true =>
              have hidle' : Scan.init.run (Window.dispatch g surface
                  (LoopEvent.RENDER texture) d).trace = Scan.init := by
                simpa [Window.dispatch, Window.render, hsub] using hidle
              rw [ih _ hidle']
              simp [update_after_render, hsub]
          | false =>
              have hscan : (Scan.init.run (Window.dispatch g surface
                  (LoopEvent.RENDER texture) d).trace).in_flight = [g.ubuffer.handle] ∧
                  (Scan.init.run (Window.dispatch g surface
                  (LoopEvent.RENDER texture) d).trace).late = [] := by
                rw [htrace, Scan.run_append, hidle]
                simp [Window.dispatch, Window.render, calls_of, Device.create_command_buffer,
                  Device.create_bind_group, GPUCommandBuffer.record, GPUCommandBuffer.submit,
                  GPUSurfaceTexture.present, Device.emit, hsub, Scan.run, Scan.step, Scan.init,
                  Command.buffers]
              rw [Window.loop_in_flight g surface rest _ (by simp [hscan.1]), hscan.2]
              simp [update_after_render, hsub]

theorem StencilTest.stencil_loop_writes (dflt : Defaults) (g : StencilTest.Globals)
    (surface : Surface) (events : List LoopEvent) :
    ∀ d : Device, mapped_writes (StencilTest.loop dflt g surface events d).trace =
      mapped_writes d.trace := by
  induction events with
  | nil =>
      intro d
      rfl
  | cons e rest ih =>
      intro d
      have h := StencilTest.stencil_dispatch_trace dflt g surface e d
      have hloop : StencilTest.loop dflt g surface (e :: rest) d =
          StencilTest.loop dflt g surface rest (StencilTest.dispatch dflt g surface e d) := rfl
      rw [hloop, ih, h.1, mapped_writes_append, mapped_writes_eq_nil _ h.2, List.append_nil]

theorem Triangle.triangle_loop_writes (dflt : Defaults) (g : Triangle.Globals)
    (surface : Surface) (events : List LoopEvent) :
    ∀ d : Device, mapped_writes (Triangle.loop dflt g surface events d).trace =
      mapped_writes d.trace := by
  induction events with
  | nil =>
      intro d
      rfl
  | cons e rest ih =>
      intro d
      have h := Triangle.triangle_dispatch_trace dflt g surface e d
      have hloop : Triangle.loop dflt g surface (e :: rest) d =
          Triangle.loop dflt g surface rest (Triangle.dispatch dflt g surface e d) := rfl
      rw [hloop, ih, h.1, mapped_writes_append, mapped_writes_eq_nil _ h.2, List.append_nil]

/-- Every mapped write of the Window loop stores into element 0 of `ubuffer`, read as an
`InverseTransform`. -/
theorem Window.window_loop_writes (g : Window.Globals) (surface : Surface)
    (events : List LoopEvent) :
    ∀ d : Device, ∀ w ∈ mapped_writes (Window.loop g surface events d).trace,
      w ∈ mapped_writes d.trace ∨
        (w.buffer = g.ubuffer ∧ w.elem_size = Window.sizeof_InverseTransform ∧
          w.index = 0) := by
  induction events with
  | nil =>
      intro d w hw
      exact Or.inl hw
  | cons e rest ih =>
      intro d w hw
      have htrace := Window.window_dispatch_trace g surface e d
      have hloop : Window.loop g surface (e :: rest) d =
          Window.loop g surface rest (Window.dispatch g surface e d) := rfl
      rw [hloop] at hw
      rcases ih _ w hw with h | h
      · rw [htrace, mapped_writes_append, List.mem_append] at h
        rcases h with h | h
        · exact Or.inl h
        · right
          cases e with
          | UPDATE input =>
              simp [Window.dispatch, Window.update, calls_of, GPUBuffer.write, Device.emit,
                mapped_writes, Call.mapped_write?] at h
              rcases h with h | h | h <;> simp [h]
          | RESIZE info =>
              simp [Window.dispatch, Window.resize, calls_of, mapped_writes] at h
          | RENDER texture =>
              cases hsub : texture.suboptimal <;>
                simp [Window.dispatch, Window.render, calls_of, Device.create_command_buffer,
                  Device.create_bind_group, GPUCommandBuffer.record, GPUCommandBuffer.submit,
                  GPUSurfaceTexture.present, Device.emit, mapped_writes, Call.mapped_write?,
                  hsub] at h
      · exact Or.inr h

/-! ### Handles along the loops -/

theorem StencilTest.stencil_dispatch_allocates (dflt : Defaults) (g : StencilTest.Globals)
    (surface : Surface) (d : Device) (e : LoopEvent) :
    ∃ k seg, (StencilTest.dispatch dflt g surface e d).trace = d.trace ++ seg ∧
      (StencilTest.dispatch dflt g surface e d).next_handle = d.next_handle + k ∧
      seg.filterMap Call.created? = List.range' d.next_handle k ∧
      seg.filterMap Call.destroyed? = [] := by
  cases e with
  | UPDATE input => exact ⟨0, [], by simp [StencilTest.dispatch]⟩
  | RESIZE info => exact ⟨0, [], by simp [StencilTest.dispatch]⟩
  | RENDER texture =>
      cases hsub : texture.suboptimal with
      | true => exact ⟨0, [], by simp [StencilTest.dispatch, StencilTest.render, hsub]⟩
      | false =>
          refine ⟨2, calls_of (StencilTest.render dflt g surface texture) d, ?_⟩
          simp [StencilTest.dispatch, StencilTest.render, StencilTest.render_mask,
            StencilTest.render_color, calls_of, Device.create_command_buffer,
            Device.create_bind_group, GPUCommandBuffer.record, GPUCommandBuffer.submit,
            GPUSurfaceTexture.present, Device.emit, Call.created?, Call.destroyed?, hsub,
            List.range']

theorem Triangle.triangle_dispatch_allocates (dflt : Defaults) (g : Triangle.Globals)
    (surface : Surface) (d : Device) (e : LoopEvent) :
    ∃ k seg, (Triangle.dispatch dflt g surface e d).trace = d.trace ++ seg ∧
      (Triangle.dispatch dflt g surface e d).next_handle = d.next_handle + k ∧
      seg.filterMap Call.created? = List.range' d.next_handle k ∧
      seg.filterMap Call.destroyed? = [] := by
  cases e with
  | UPDATE input => exact ⟨0, [], by simp [Triangle.dispatch]⟩
  | RESIZE info => exact ⟨0, [], by simp [Triangle.dispatch]⟩
  | RENDER texture =>
      cases hsub : texture.suboptimal with
      | true => exact ⟨0, [], by simp [Triangle.dispatch, Triangle.render, hsub]⟩
      | false =>
          refine ⟨2, calls_of (Triangle.render dflt g surface texture) d, ?_⟩
          simp [Triangle.dispatch, Triangle.render, calls_of, Device.create_command_buffer,
            Device.create_bind_group, GPUCommandBuffer.record, GPUCommandBuffer.submit,
            GPUSurfaceTexture.present, Device.emit, Call.created?, Call.destroyed?, hsub,
            List.range']

theorem Window.window_dispatch_allocates (g : Window.Globals) (surface : Surface)
    (d : Device) (e : LoopEvent) :
    ∃ k seg, (Window.dispatch g surface e d).trace = d.trace ++ seg ∧
      (Window.dispatch g surface e d).next_handle = d.next_handle + k ∧
      seg.filterMap Call.created? = List.range' d.next_handle k ∧
      seg.filterMap Call.destroyed? = [] := by
  cases e with
  | UPDATE input =>
      refine ⟨0, calls_of (Window.update g input) d, ?_⟩
      simp [Window.dispatch, Window.update, calls_of, GPUBuffer.write, Device.emit,
        Call.created?, Call.destroyed?]
  | RESIZE info => exact ⟨0, [], by simp [Window.dispatch, Window.resize]⟩
  | RENDER texture =>
      cases hsub : texture.suboptimal with
      | true => exact ⟨0, [], by simp [Window.dispatch, Window.render, hsub]⟩
      | false =>
          refine ⟨2, calls_of (Window.render g surface texture) d, ?_⟩
          simp [Window.dispatch, Window.render, calls_of, Device.create_command_buffer,
            Device.create_bind_group, GPUCommandBuffer.record, GPUCommandBuffer.submit,
            GPUSurfaceTexture.present, Device.emit, Call.created?, Call.destroyed?, hsub,
            List.range']

/-! ### The shape of a whole session -/

/-- A StencilTest session creates the handles `1 .. 13 + k` (13 in the `START` handlers, the
rest in the frames) without destroying any, and ends with the calls of `cleanup()`. -/
theorem StencilTest.stencil_session_shape (dflt : Defaults) (surface : Surface)
    (events : List LoopEvent) :
    ∃ k pre, (StencilTest.session dflt surface events).trace =
        pre ++ Call.device_wait :: List.map Call.destroy [12, 8, 7, 10, 9, 5, 6, 1, 2, 3, 4] ∧
      pre.filterMap Call.destroyed? = [] ∧
      pre.filterMap Call.created? = List.range' 1 (k + 13) ∧
      (StencilTest.start dflt surface Device.fresh).1.ubuffer.handle = 11 ∧
      (StencilTest.start dflt surface Device.fresh).1.dsview.handle = 13 := by
  obtain ⟨k, seg, ht, _, hc, hd⟩ := foldl_allocates
    (fun d e => StencilTest.dispatch dflt (StencilTest.start dflt surface Device.fresh).1
      surface e d)
    (fun d e => StencilTest.stencil_dispatch_allocates dflt _ surface d e) events
    (StencilTest.start dflt surface Device.fresh).2
  have hstart : (StencilTest.start dflt surface Device.fresh).2.next_handle = 14 ∧
      (StencilTest.start dflt surface Device.fresh).2.trace.filterMap Call.created? =
        List.range' 1 13 ∧
      (StencilTest.start dflt surface Device.fresh).2.trace.filterMap Call.destroyed? = [] := by
    simp [StencilTest.start, StencilTest.setup_pipelines, StencilTest.setup_mask_geometry,
      StencilTest.setup_draw_geometry, StencilTest.setup_uniform_buffer,
      StencilTest.setup_stencil_buffer, Device.create_shader_module,
      Device.create_bind_group_layout, Device.create_pipeline_layout,
      Device.create_render_pipeline, Device.create_buffer, Device.create_texture,
      GPUTexture.create_view, GPUBuffer.write, Device.emit, Device.fresh, Call.created?,
      Call.destroyed?, List.range']
  refine ⟨k, (StencilTest.start dflt surface Device.fresh).2.trace ++ seg, ?_, ?_, ?_, ?_, ?_⟩
  · have hsession : (StencilTest.session dflt surface events).trace =
        (StencilTest.cleanup (StencilTest.start dflt surface Device.fresh).1
          (events.foldl (fun d e => StencilTest.dispatch dflt
            (StencilTest.start dflt surface Device.fresh).1 surface e d)
            (StencilTest.start dflt surface Device.fresh).2)).trace := rfl
    rw [hsession]
    simp only [StencilTest.cleanup, Device.wait, Device.emit, ht]
    simp [StencilTest.start, StencilTest.setup_pipelines, StencilTest.setup_mask_geometry,
      StencilTest.setup_draw_geometry, StencilTest.setup_uniform_buffer,
      StencilTest.setup_stencil_buffer, Device.create_shader_module,
      Device.create_bind_group_layout, Device.create_pipeline_layout,
      Device.create_render_pipeline, Device.create_buffer, Device.create_texture,
      GPUTexture.create_view, GPUBuffer.write, Device.emit, Device.fresh]
  · rw [List.filterMap_append, hstart.2.2, hd]
    rfl
  · rw [List.filterMap_append, hstart.2.1, hc, hstart.1]
    exact List.range'_append_1 1 13 k
  · simp [StencilTest.start, StencilTest.setup_pipelines, StencilTest.setup_mask_geometry,
      StencilTest.setup_draw_geometry, StencilTest.setup_uniform_buffer,
      StencilTest.setup_stencil_buffer, Device.create_shader_module,
      Device.create_bind_group_layout, Device.create_pipeline_layout,
      Device.create_render_pipeline, Device.create_buffer, Device.create_texture,
      GPUTexture.create_view, GPUBuffer.write, Device.emit, Device.fresh]
  · simp [StencilTest.start, StencilTest.setup_pipelines, StencilTest.setup_mask_geometry,
      StencilTest.setup_draw_geometry, StencilTest.setup_uniform_buffer,
      StencilTest.setup_stencil_buffer, Device.create_shader_module,
      Device.create_bind_group_layout, Device.create_pipeline_layout,
      Device.create_render_pipeline, Device.create_buffer, Device.create_texture,
      GPUTexture.create_view, GPUBuffer.write, Device.emit, Device.fresh]

/-- A Triangle session creates the handles `1 .. 8 + k` without destroying any, and ends with
the calls of `cleanup()`. -/
theorem Triangle.triangle_session_shape (dflt : Defaults) (surface : Surface)
    (events : List LoopEvent) :
    ∃ k pre, (Triangle.session dflt surface events).trace =
        pre ++ Call.device_wait :: List.map Call.destroy [7, 6, 1, 2, 3, 4, 5] ∧
      pre.filterMap Call.destroyed? = [] ∧
      pre.filterMap Call.created? = List.range' 1 (k + 8) ∧
      (Triangle.start dflt surface Device.fresh).1.ubuffer.handle = 8 := by
  obtain ⟨k, seg, ht, _, hc, hd⟩ := foldl_allocates
    (fun d e => Triangle.dispatch dflt (Triangle.start dflt surface Device.fresh).1
      surface e d)
    (fun d e => Triangle.triangle_dispatch_allocates dflt _ surface d e) events
    (Triangle.start dflt surface Device.fresh).2
  have hstart : (Triangle.start dflt surface Device.fresh).2.next_handle = 9 ∧
      (Triangle.start dflt surface Device.fresh).2.trace.filterMap Call.created? =
        List.range' 1 8 ∧
      (Triangle.start dflt surface Device.fresh).2.trace.filterMap Call.destroyed? = [] := by
    simp [Triangle.start, Triangle.setup_pipeline, Triangle.setup_buffers,
      Device.create_shader_module, Device.create_bind_group_layout,
      Device.create_pipeline_layout, Device.create_render_pipeline, Device.create_buffer,
      GPUBuffer.write, Device.emit, Device.fresh, Call.created?, Call.destroyed?, List.range']
  refine ⟨k, (Triangle.start dflt surface Device.fresh).2.trace ++ seg, ?_, ?_, ?_, ?_⟩
  · have hsession : (Triangle.session dflt surface events).trace =
        (Triangle.cleanup (Triangle.start dflt surface Device.fresh).1
          (events.foldl (fun d e => Triangle.dispatch dflt
            (Triangle.start dflt surface Device.fresh).1 surface e d)
            (Triangle.start dflt surface Device.fresh).2)).trace := rfl
    rw [hsession]
    simp only [Triangle.cleanup, Device.wait, Device.emit, ht]
    simp [Triangle.start, Triangle.setup_pipeline, Triangle.setup_buffers,
      Device.create_shader_module, Device.create_bind_group_layout,
      Device.create_pipeline_layout, Device.create_render_pipeline, Device.create_buffer,
      GPUBuffer.write, Device.emit, Device.fresh]
  · rw [List.filterMap_append, hstart.2.2, hd]
    rfl
  · rw [List.filterMap_append, hstart.2.1, hc, hstart.1]
    exact List.range'_append_1 1 8 k
  · simp [Triangle.start, Triangle.setup_pipeline, Triangle.setup_buffers,
      Device.create_shader_module, Device.create_bind_group_layout,
      Device.create_pipeline_layout, Device.create_render_pipeline, Device.create_buffer,
      GPUBuffer.write, Device.emit, Device.fresh]

/-- A Window session creates the handles `1 .. 6 + k` without destroying any, and ends with
the calls of `cleanup()`. -/
theorem Window.window_session_shape (dflt : Defaults) (surface : Surface)
    (events : List LoopEvent) :
    ∃ k pre, (Window.session dflt surface events).trace =
        pre ++ Call.device_wait :: List.map Call.destroy [1, 2, 3, 4, 5] ∧
      pre.filterMap Call.destroyed? = [] ∧
      pre.filterMap Call.created? = List.range' 1 (k + 6) ∧
      (Window.start dflt surface Device.fresh).1.ubuffer.handle = 6 := by
  obtain ⟨k, seg, ht, _, hc, hd⟩ := foldl_allocates
    (fun d e => Window.dispatch (Window.start dflt surface Device.fresh).1 surface e d)
    (fun d e => Window.window_dispatch_allocates _ surface d e) events
    (Window.start dflt surface Device.fresh).2
  have hstart : (Window.start dflt surface Device.fresh).2.next_handle = 7 ∧
      (Window.start dflt surface Device.fresh).2.trace.filterMap Call.created? =
        List.range' 1 6 ∧
      (Window.start dflt surface Device.fresh).2.trace.filterMap Call.destroyed? = [] := by
    simp [Window.start, Window.setup_pipeline, Window.setup_buffers, Window.setup_camera,
      Device.create_shader_module, Device.create_bind_group_layout,
      Device.create_pipeline_layout, Device.create_render_pipeline, Device.create_buffer,
      Device.emit, Device.fresh, Call.created?, Call.destroyed?, List.range']
  refine ⟨k, (Window.start dflt surface Device.fresh).2.trace ++ seg, ?_, ?_, ?_, ?_⟩
  · have hsession : (Window.session dflt surface events).trace =
        (Window.cleanup (Window.start dflt surface Device.fresh).1
          (events.foldl (fun d e => Window.dispatch
            (Window.start dflt surface Device.fresh).1 surface e d)
            (Window.start dflt surface Device.fresh).2)).trace := rfl
    rw [hsession]
    simp only [Window.cleanup, Device.wait, Device.emit, ht]
    simp [Window.start, Window.setup_pipeline, Window.setup_buffers, Window.setup_camera,
      Device.create_shader_module, Device.create_bind_group_layout,
      Device.create_pipeline_layout, Device.create_render_pipeline, Device.create_buffer,
      Device.emit, Device.fresh]
  · rw [List.filterMap_append, hstart.2.2, hd]
    rfl
  · rw [List.filterMap_append, hstart.2.1, hc, hstart.1]
    exact List.range'_append_1 1 6 k
  · simp [Window.start, Window.setup_pipeline, Window.setup_buffers, Window.setup_camera,
      Device.create_shader_module, Device.create_bind_group_layout,
      Device.create_pipeline_layout, Device.create_render_pipeline, Device.create_buffer,
      Device.emit, Device.fresh]

/-! ### The stencil test under the two pipelines of StencilTest -/

theorem StencilTest.start_pipelines (dflt : Defaults) (surface : Surface) (d0 : Device) :
    (StencilTest.start dflt surface d0).1.pipeline_mask.desc =
      StencilTest.pipeline_mask_descriptor dflt surface
        (StencilTest.start dflt surface d0).1.playout
        (StencilTest.start dflt surface d0).1.vshader
        (StencilTest.start dflt surface d0).1.fshader ∧
    (StencilTest.start dflt surface d0).1.pipeline_draw.desc =
      StencilTest.pipeline_draw_descriptor dflt surface
        (StencilTest.start dflt surface d0).1.playout
        (StencilTest.start dflt surface d0).1.vshader
        (StencilTest.start dflt surface d0).1.fshader := by
  simp [StencilTest.start, StencilTest.setup_pipelines, StencilTest.setup_mask_geometry,
    StencilTest.setup_draw_geometry, StencilTest.setup_uniform_buffer,
    StencilTest.setup_stencil_buffer, Device.create_shader_module,
    Device.create_bind_group_layout, Device.create_pipeline_layout,
    Device.create_render_pipeline, Device.create_buffer, Device.create_texture,
    GPUTexture.create_view, GPUBuffer.write, Device.emit]

/-- Under the mask pipeline with reference 1, a fragment at a pixel whose stencil value is 0
or 1 leaves the stencil value 1 and writes no colour. -/
theorem StencilTest.mask_shade (dflt : Defaults) (surface : Surface)
    (playout : GPUPipelineLayout) (vshader fshader : GPUShaderModule) (p : GPURenderPipeline)
    (hp : p.desc = StencilTest.pipeline_mask_descriptor dflt surface playout vshader fshader)
    (px : Pixel) (f : Fragment) (hpx : px.stencil ≤ 1) :
    (p.shade 1 px f).stencil = 1 ∧ (p.shade 1 px f).color_written = px.color_written := by
  have h01 : px.stencil = 0 ∨ px.stencil = 1 := by omega
  rcases h01 with h | h <;>
    simp [GPURenderPipeline.shade, shade, hp, StencilTest.pipeline_mask_descriptor,
      GPUCompareFunction.passes, GPUStencilOperation.apply, stencil_select, GPUColorWrite.NONE,
      h]

theorem StencilTest.mask_shade_all (dflt : Defaults) (surface : Surface)
    (playout : GPUPipelineLayout) (vshader fshader : GPUShaderModule) (p : GPURenderPipeline)
    (hp : p.desc = StencilTest.pipeline_mask_descriptor dflt surface playout vshader fshader)
    (fragments : List Fragment) :
    ∀ px : Pixel, px.stencil ≤ 1 →
      (fragments.foldl (p.shade 1) px).stencil = (if fragments = [] then px.stencil else 1) ∧
      (fragments.foldl (p.shade 1) px).color_written = px.color_written := by
  induction fragments with
  | nil =>
      intro px _
      simp
  | cons f rest ih =>
      intro px hpx
      have h1 := StencilTest.mask_shade dflt surface playout vshader fshader p hp px f hpx
      have h2 := ih (p.shade 1 px f) (by rw [h1.1])
      simp only [List.foldl_cons]
      refine ⟨?_, by rw [h2.2, h1.2]⟩
      rw [h2.1, h1.1]
      simp

/-- Under the draw pipeline with reference 1, a fragment leaves the stencil value as it
was, and writes colour only where the lowest stencil bit is set. -/
theorem StencilTest.draw_shade (dflt : Defaults) (surface : Surface)
    (playout : GPUPipelineLayout) (vshader fshader : GPUShaderModule) (p : GPURenderPipeline)
    (hp : p.desc = StencilTest.pipeline_draw_descriptor dflt surface playout vshader fshader)
    (px : Pixel) (f : Fragment) :
    (p.shade 1 px f).stencil = px.stencil ∧
    ((p.shade 1 px f).color_written = true →
      px.color_written = true ∨ px.stencil &&& 1 = 1) := by
  rw [Nat.and_one_is_mod]
  by_cases h : 1 = px.stencil % 2
  · simp [GPURenderPipeline.shade, shade, hp, StencilTest.pipeline_draw_descriptor,
      GPUCompareFunction.passes, GPUStencilOperation.apply, stencil_select, ← h]
  · simp [GPURenderPipeline.shade, shade, hp, StencilTest.pipeline_draw_descriptor,
      GPUCompareFunction.passes, GPUStencilOperation.apply, stencil_select, h]
    intro hc
    exact Or.inl hc

theorem StencilTest.draw_shade_all (dflt : Defaults) (surface : Surface)
    (playout : GPUPipelineLayout) (vshader fshader : GPUShaderModule) (p : GPURenderPipeline)
    (hp : p.desc = StencilTest.pipeline_draw_descriptor dflt surface playout vshader fshader)
    (fragments : List Fragment) :
    ∀ px : Pixel,
      (fragments.foldl (p.shade 1) px).stencil = px.stencil ∧
      ((fragments.foldl (p.shade 1) px).color_written = true →
        px.color_written = true ∨ (fragments ≠ [] ∧ px.stencil &&& 1 = 1)) := by
  induction fragments with
  | nil =>
      intro px
      simp
  | cons f rest ih =>
      intro px
      have h1 := StencilTest.draw_shade dflt surface playout vshader fshader p hp px f
      have h2 := ih (p.shade 1 px f)
      simp only [List.foldl_cons]
      refine ⟨by rw [h2.1, h1.1], ?_⟩
      intro hc
      rcases h2.2 hc with h | h
      · rcases h1.2 h with h' | h'
        · exact Or.inl h'
        · exact Or.inr ⟨by simp, h'⟩
      · exact Or.inr ⟨by simp, by rw [← h1.1]; exact h.2⟩

/-- What the commands of `render_mask` leave at a pixel. -/
theorem StencilTest.mask_pass_pixel (g : StencilTest.Globals) (surface : Surface)
    (command : GPUCommandBuffer) (backbuffer : GPUSurfaceTexture) (bind_group : GPUBindGroup)
    (d : Device) (fragments : List Fragment) (before : Pixel) :
    (Raster.run fragments (Raster.on before) (commands_of (calls_of
      (StencilTest.render_mask g surface command backbuffer bind_group) d))).pixel =
    fragments.foldl (g.pipeline_mask.shade 1)
      { stencil := 0, depth := 1, color_written := false } := by
  simp [StencilTest.render_mask, StencilTest.mask_pass, calls_of, commands_of, Call.command?,
    GPUCommandBuffer.record, Device.emit, Raster.run, Raster.step, Raster.on]

/-- What the commands of `render_color` leave at a pixel. -/
theorem StencilTest.color_pass_pixel (g : StencilTest.Globals) (surface : Surface)
    (command : GPUCommandBuffer) (backbuffer : GPUSurfaceTexture) (bind_group : GPUBindGroup)
    (d : Device) (fragments : List Fragment) (before : Pixel) :
    (Raster.run fragments (Raster.on before) (commands_of (calls_of
      (StencilTest.render_color g surface command backbuffer bind_group) d))).pixel =
    fragments.foldl (g.pipeline_draw.shade 1)
      { stencil := before.stencil, depth := 1, color_written := false } := by
  simp [StencilTest.render_color, StencilTest.color_pass, calls_of, commands_of, Call.command?,
    GPUCommandBuffer.record, Device.emit, Raster.run, Raster.step, Raster.on]

/-- C1: in each of the three samples, an invocation of `render()` whose acquired texture is
suboptimal returns the device as it found it, so no handle was allocated (no command buffer,
no bind group), and the calls it made are none: no command recorded, no `submit()`, no
`present()`. -/
theorem C1_suboptimal_frame_is_skipped (dflt : Defaults) (surface : Surface)
    (texture : GPUSurfaceTexture) (d : Device) (gs : StencilTest.Globals)
    (gt : Triangle.Globals) (gw : Window.Globals) (h : texture.suboptimal = true) :
    (StencilTest.render dflt gs surface texture d = d ∧
      calls_of (StencilTest.render dflt gs surface texture) d = []) ∧
    (Triangle.render dflt gt surface texture d = d ∧
      calls_of (Triangle.render dflt gt surface texture) d = []) ∧
    (Window.render gw surface texture d = d ∧
      calls_of (Window.render gw surface texture) d = []) := by
  simp [StencilTest.render, Triangle.render, Window.render, calls_of, h]

theorem C1_suboptimal_frame_is_skipped_witness :
    (sample_frame 0 true).suboptimal = true ∧
    ((StencilTest.render sample_defaults default sample_surface (sample_frame 0 true)
        Device.fresh = Device.fresh ∧
      calls_of (StencilTest.render sample_defaults default sample_surface (sample_frame 0 true))
        Device.fresh = []) ∧
    (Triangle.render sample_defaults default sample_surface (sample_frame 0 true)
        Device.fresh = Device.fresh ∧
      calls_of (Triangle.render sample_defaults default sample_surface (sample_frame 0 true))
        Device.fresh = []) ∧
    (Window.render default sample_surface (sample_frame 0 true) Device.fresh = Device.fresh ∧
      calls_of (Window.render default sample_surface (sample_frame 0 true))
        Device.fresh = [])) :=
  ⟨rfl, C1_suboptimal_frame_is_skipped sample_defaults sample_surface (sample_frame 0 true)
    Device.fresh default default default rfl⟩

/-- C2 (as stated) fails at n = 2: with `dsbuffer` and two distinct swapchain textures all
registered as `Undefined`, the barriers of two consecutive non-suboptimal `render()` calls of
StencilTest do not all validate: the replay ends in a validation failure. -/
theorem C2_second_frame_barrier_mismatch :
    (((Tracker.empty.register
          (StencilTest.start sample_defaults sample_surface Device.fresh).1.dsbuffer.handle).register
          (sample_frame 0 false).texture.handle).register
          (sample_frame 1 false).texture.handle).replay
        (commands_of (StencilTest.run sample_defaults sample_surface
          [LoopEvent.RENDER (sample_frame 0 false),
           LoopEvent.RENDER (sample_frame 1 false)]).trace) = none := by
  rfl

/-- C2 (amended): in a non-suboptimal `render()` of StencilTest that starts with the frame
texture and `dsbuffer` both tracked as `Undefined` (the first invocation after setup), every
barrier validates, and the replay leaves the frame texture tracked as `PresentSource` and
`dsbuffer` as `DepthStencilAttachment`; in any invocation that starts with `dsbuffer` tracked
as `DepthStencilAttachment` (every later one), the barriers of `render()` do not all validate,
because `render()` declares `Undefined` for `dsbuffer` on every frame. -/
theorem C2_first_frame_barriers_validate (dflt : Defaults) (surface : Surface) (d0 d : Device)
    (texture : GPUSurfaceTexture) (t : Tracker)
    (hsub : texture.suboptimal = false)
    (hne : texture.texture.handle ≠ (StencilTest.start dflt surface d0).1.dsbuffer.handle)
    (hframe : t texture.texture.handle = some ResourceState.Undefined) :
    (t (StencilTest.start dflt surface d0).1.dsbuffer.handle = some ResourceState.Undefined →
      ∃ t', t.replay (commands_of (calls_of
          (StencilTest.render dflt (StencilTest.start dflt surface d0).1 surface texture) d))
            = some t' ∧
        t' texture.texture.handle = some ResourceState.PresentSource ∧
        t' (StencilTest.start dflt surface d0).1.dsbuffer.handle =
          some ResourceState.DepthStencilAttachment) ∧
    (t (StencilTest.start dflt surface d0).1.dsbuffer.handle =
        some ResourceState.DepthStencilAttachment →
      t.replay (commands_of (calls_of
          (StencilTest.render dflt (StencilTest.start dflt surface d0).1 surface texture) d))
            = none) := by
  rw [StencilTest.stencil_render_commands dflt _ surface texture d hsub]
  constructor
  · intro hds
    simp [Tracker.replay, Tracker.resource_barrier, state_transition, undefined_state,
      color_attachment_state, depth_stencil_attachment_state, present_src_state, hframe, hds,
      hne, Ne.symm hne]
  · intro hds
    simp [Tracker.replay, Tracker.resource_barrier, state_transition, undefined_state,
      color_attachment_state, depth_stencil_attachment_state, present_src_state, hframe, hds,
      hne, Ne.symm hne]

theorem C2_first_frame_barriers_validate_witness :
    (sample_frame 0 false).suboptimal = false ∧
    (sample_frame 0 false).texture.handle ≠
      (StencilTest.start sample_defaults sample_surface Device.fresh).1.dsbuffer.handle ∧
    ((Tracker.empty.register 12).register 1000) (sample_frame 0 false).texture.handle =
      some ResourceState.Undefined ∧
    ((Tracker.empty.register 12).register 1000)
      (StencilTest.start sample_defaults sample_surface Device.fresh).1.dsbuffer.handle =
        some ResourceState.Undefined ∧
    ∃ t', ((Tracker.empty.register 12).register 1000).replay (commands_of (calls_of
        (StencilTest.render sample_defaults
          (StencilTest.start sample_defaults sample_surface Device.fresh).1 sample_surface
          (sample_frame 0 false)) Device.fresh)) = some t' ∧
      t' (sample_frame 0 false).texture.handle = some ResourceState.PresentSource ∧
      t' (StencilTest.start sample_defaults sample_surface Device.fresh).1.dsbuffer.handle =
        some ResourceState.DepthStencilAttachment :=
  ⟨rfl, by decide, rfl, rfl,
    (C2_first_frame_barriers_validate sample_defaults sample_surface Device.fresh Device.fresh
      (sample_frame 0 false) ((Tracker.empty.register 12).register 1000) rfl (by decide)
      rfl).1 rfl⟩

/-- C3: in each sample, for a non-suboptimal `render()` whose acquired texture (with its own
view) starts tracked as `Undefined`, replaying the recorded commands in order succeeds; at
every `begin_render_pass` the texture behind each colour attachment is tracked as
`ColorAttachment` and the texture behind the depth-stencil attachment, when present, as
`DepthStencilAttachment`; and after the last command, where `submit()` is called, the frame
texture is tracked as `PresentSource`.  For StencilTest, and for it alone, `dsbuffer` is to
start tracked as `Undefined` too and to be a resource other than the frame texture.
StencilTest records two passes, the others one. -/
theorem C3_states_at_passes_and_submit (dflt : Defaults) (surface : Surface) (d0 d : Device)
    (gt : Triangle.Globals) (gw : Window.Globals) (texture : GPUSurfaceTexture) (t : Tracker)
    (hsub : texture.suboptimal = false)
    (hview : texture.view.texture = texture.texture)
    (hframe : t texture.texture.handle = some ResourceState.Undefined) :
    (texture.texture.handle ≠ (StencilTest.start dflt surface d0).1.dsbuffer.handle →
      t (StencilTest.start dflt surface d0).1.dsbuffer.handle = some ResourceState.Undefined →
      (t.states_in_order (commands_of (calls_of
          (StencilTest.render dflt (StencilTest.start dflt surface d0).1 surface texture) d))
          texture.texture ∧
        ((commands_of (calls_of
          (StencilTest.render dflt (StencilTest.start dflt surface d0).1 surface texture)
            d)).filterMap Command.pass?).length = 2)) ∧
    (t.states_in_order (commands_of (calls_of (Triangle.render dflt gt surface texture) d))
        texture.texture ∧
      ((commands_of (calls_of (Triangle.render dflt gt surface texture) d)).filterMap
        Command.pass?).length = 1) ∧
    (t.states_in_order (commands_of (calls_of (Window.render gw surface texture) d))
        texture.texture ∧
      ((commands_of (calls_of (Window.render gw surface texture) d)).filterMap
        Command.pass?).length = 1) := by
  have hdsview := StencilTest.start_dsview dflt surface d0
  rw [StencilTest.stencil_render_commands dflt _ surface texture d hsub,
    Triangle.triangle_render_commands dflt gt surface texture d hsub,
    Window.window_render_commands gw surface texture d hsub]
  refine ⟨fun hne hds => ⟨⟨?_, ?_⟩, ?_⟩, ⟨⟨?_, ?_⟩, ?_⟩, ⟨⟨?_, ?_⟩, ?_⟩⟩
  · apply Tracker.check_passes_sound
    simp [Tracker.check_passes, Tracker.resource_barrier, Tracker.attachments_ready,
      StencilTest.mask_pass, StencilTest.color_pass, state_transition, undefined_state,
      color_attachment_state, depth_stencil_attachment_state, present_src_state, hview,
      hframe, hds, hne, Ne.symm hne, hdsview]
  · simp [Tracker.replay, Tracker.resource_barrier, state_transition, undefined_state,
      color_attachment_state, depth_stencil_attachment_state, present_src_state, hframe, hds,
      hne, Ne.symm hne]
  · simp [Command.pass?]
  · apply Tracker.check_passes_sound
    simp [Tracker.check_passes, Tracker.resource_barrier, Tracker.attachments_ready,
      Triangle.frame_pass, state_transition, undefined_state, color_attachment_state,
      present_src_state, hview, hframe]
  · simp [Tracker.replay, Tracker.resource_barrier, state_transition, undefined_state,
      color_attachment_state, present_src_state, hframe]
  · simp [Command.pass?]
  · apply Tracker.check_passes_sound
    simp [Tracker.check_passes, Tracker.resource_barrier, Tracker.attachments_ready,
      Window.frame_pass, state_transition, undefined_state, color_attachment_state,
      present_src_state, hview, hframe]
  · simp [Tracker.replay, Tracker.resource_barrier, state_transition, undefined_state,
      color_attachment_state, present_src_state, hframe]
  · simp [Command.pass?]

theorem C3_states_at_passes_and_submit_witness :
    (sample_frame 0 false).suboptimal = false ∧
    (sample_frame 0 false).view.texture = (sample_frame 0 false).texture ∧
    ((Tracker.empty.register 12).register 1000) (sample_frame 0 false).texture.handle =
      some ResourceState.Undefined ∧
    (Tracker.empty.register 1000) (sample_frame 0 false).texture.handle =
      some ResourceState.Undefined ∧
    (sample_frame 0 false).texture.handle ≠
      (StencilTest.start sample_defaults sample_surface Device.fresh).1.dsbuffer.handle ∧
    ((Tracker.empty.register 12).register 1000)
      (StencilTest.start sample_defaults sample_surface Device.fresh).1.dsbuffer.handle =
        some ResourceState.Undefined ∧
    ((Tracker.empty.register 12).register 1000).states_in_order (commands_of (calls_of
        (StencilTest.render sample_defaults
          (StencilTest.start sample_defaults sample_surface Device.fresh).1 sample_surface
          (sample_frame 0 false)) Device.fresh)) (sample_frame 0 false).texture ∧
    (Tracker.empty.register 1000).states_in_order (commands_of (calls_of
        (Triangle.render sample_defaults
          (Triangle.start sample_defaults sample_surface Device.fresh).1 sample_surface
          (sample_frame 0 false)) Device.fresh)) (sample_frame 0 false).texture ∧
    (Tracker.empty.register 1000).states_in_order (commands_of (calls_of
        (Window.render (Window.start sample_defaults sample_surface Device.fresh).1
          sample_surface (sample_frame 0 false)) Device.fresh))
        (sample_frame 0 false).texture :=
  have h := C3_states_at_passes_and_submit sample_defaults sample_surface Device.fresh
    Device.fresh (Triangle.start sample_defaults sample_surface Device.fresh).1
    (Window.start sample_defaults sample_surface Device.fresh).1 (sample_frame 0 false)
    ((Tracker.empty.register 12).register 1000) rfl rfl rfl
  have h' := C3_states_at_passes_and_submit sample_defaults sample_surface Device.fresh
    Device.fresh (Triangle.start sample_defaults sample_surface Device.fresh).1
    (Window.start sample_defaults sample_surface Device.fresh).1 (sample_frame 0 false)
    (Tracker.empty.register 1000) rfl rfl rfl
  ⟨rfl, rfl, rfl, rfl, by decide, rfl, (h.1 (by decide) rfl).1, h'.2.1.1, h'.2.2.1⟩

/-- C4: in each sample, the calls of a non-suboptimal `render()` are: the creation of a
command buffer and of a bind group; then the recorded commands, of which the first is `wait`
on the `available` fence of the acquired texture and the last two are the barrier of the
frame texture to the present state followed by `signal` on the `complete` fence of the same
acquired texture; then `submit()` and `present()`.  So `signal(complete)` comes after the
final barrier, no command follows it, and `submit()` is the next call. -/
theorem C4_wait_first_signal_last (dflt : Defaults) (surface : Surface) (d : Device)
    (gs : StencilTest.Globals) (gt : Triangle.Globals) (gw : Window.Globals)
    (texture : GPUSurfaceTexture) (hsub : texture.suboptimal = false) :
    (∃ command bind_group body,
      calls_of (StencilTest.render dflt gs surface texture) d =
        [Call.create_command_buffer command, Call.create_bind_group bind_group] ++
        List.map (Call.record command)
          (Command.wait texture.available GPUBarrierSync.PIXEL_SHADING :: body ++
            [ Command.resource_barrier
                (state_transition texture.texture color_attachment_state present_src_state),
              Command.signal texture.complete GPUBarrierSync.RENDER_TARGET ]) ++
        [Call.submit command, Call.present texture]) ∧
    (∃ command bind_group body,
      calls_of (Triangle.render dflt gt surface texture) d =
        [Call.create_command_buffer command, Call.create_bind_group bind_group] ++
        List.map (Call.record command)
          (Command.wait texture.available GPUBarrierSync.PIXEL_SHADING :: body ++
            [ Command.resource_barrier
                (state_transition texture.texture color_attachment_state present_src_state),
              Command.signal texture.complete GPUBarrierSync.RENDER_TARGET ]) ++
        [Call.submit command, Call.present texture]) ∧
    (∃ command bind_group body,
      calls_of (Window.render gw surface texture) d =
        [Call.create_command_buffer command, Call.create_bind_group bind_group] ++
        List.map (Call.record command)
          (Command.wait texture.available GPUBarrierSync.PIXEL_SHADING :: body ++
            [ Command.resource_barrier
                (state_transition texture.texture color_attachment_state present_src_state),
              Command.signal texture.complete GPUBarrierSync.RENDER_TARGET ]) ++
        [Call.submit command, Call.present texture]) := by
  refine ⟨⟨{ handle := d.next_handle, desc := { queue := GPUQueueType.DEFAULT } },
      { handle := d.next_handle + 1,
        desc :=
          { layout := gs.blayout,
            entries :=
              [ { type := GPUBindingResourceType.BUFFER,
                  binding := 0,
                  index := dflt.bind_entry_index,
                  buffer := { buffer := gs.ubuffer, offset := 0, size := 0 } } ] } },
      (((commands_of (calls_of (StencilTest.render dflt gs surface texture)
        d)).drop 1).dropLast).dropLast, ?_⟩,
    ⟨{ handle := d.next_handle, desc := { queue := GPUQueueType.DEFAULT } },
      { handle := d.next_handle + 1,
        desc :=
          { layout := gt.blayout,
            entries :=
              [ { type := GPUBindingResourceType.BUFFER,
                  binding := 0,
                  index := dflt.bind_entry_index,
                  buffer := { buffer := gt.ubuffer, offset := 0, size := 0 } } ] } },
      (((commands_of (calls_of (Triangle.render dflt gt surface texture)
        d)).drop 1).dropLast).dropLast, ?_⟩,
    ⟨{ handle := d.next_handle, desc := { queue := GPUQueueType.DEFAULT } },
      { handle := d.next_handle + 1,
        desc :=
          { layout := gw.blayout,
            entries :=
              [ { type := GPUBindingResourceType.BUFFER,
                  binding := 0,
                  index := 0,
                  buffer := { buffer := gw.ubuffer, offset := 0, size := 0 } } ] } },
      (((commands_of (calls_of (Window.render gw surface texture)
        d)).drop 1).dropLast).dropLast, ?_⟩⟩
  · rw [StencilTest.stencil_render_commands dflt gs surface texture d hsub]
    simp [StencilTest.render, StencilTest.render_mask, StencilTest.render_color, calls_of,
      Device.create_command_buffer, Device.create_bind_group, GPUCommandBuffer.record,
      GPUCommandBuffer.submit, GPUSurfaceTexture.present, Device.emit, hsub]
  · rw [Triangle.triangle_render_commands dflt gt surface texture d hsub]
    simp [Triangle.render, calls_of, Device.create_command_buffer, Device.create_bind_group,
      GPUCommandBuffer.record, GPUCommandBuffer.submit, GPUSurfaceTexture.present,
      Device.emit, hsub]
  · rw [Window.window_render_commands gw surface texture d hsub]
    simp [Window.render, calls_of, Device.create_command_buffer, Device.create_bind_group,
      GPUCommandBuffer.record, GPUCommandBuffer.submit, GPUSurfaceTexture.present,
      Device.emit, hsub]

theorem C4_wait_first_signal_last_witness :
    (sample_frame 0 false).suboptimal = false ∧
    ∃ command bind_group body,
      calls_of (Window.render (Window.start sample_defaults sample_surface Device.fresh).1
          sample_surface (sample_frame 0 false)) Device.fresh =
        [Call.create_command_buffer command, Call.create_bind_group bind_group] ++
        List.map (Call.record command)
          (Command.wait (sample_frame 0 false).available GPUBarrierSync.PIXEL_SHADING :: body ++
            [ Command.resource_barrier
                (state_transition (sample_frame 0 false).texture color_attachment_state
                  present_src_state),
              Command.signal (sample_frame 0 false).complete GPUBarrierSync.RENDER_TARGET ]) ++
        [Call.submit command, Call.present (sample_frame 0 false)] :=
  ⟨rfl, (C4_wait_first_signal_last sample_defaults sample_surface Device.fresh default default
    (Window.start sample_defaults sample_surface Device.fresh).1 (sample_frame 0 false)
    rfl).2.2⟩

/-- C5 (as stated) fails: on the schedule in which the host makes all the calls of one
non-suboptimal Triangle `render()` before the queue executes anything, `present()` is called
while the `complete` fence of the frame has not been signaled. -/
theorem C5_present_before_complete_signaled :
    ((Machine.run (List.replicate 17 Tick.host)
        (Machine.load (calls_of (Triangle.render sample_defaults
          (Triangle.start sample_defaults sample_surface Device.fresh).1 sample_surface
          (sample_frame 0 false)) Device.fresh))).presented.map
      (fun p => (p.texture, p.complete_signaled))) = [(sample_frame 0 false, false)] := by
  rfl

/-- C5 (amended): in each sample and on every schedule of host and queue, whenever
`texture.present()` is called it is the acquired texture that is presented, and the two calls
the host made last before it are the recording of `signal` on the `complete` fence of that
texture and the `submit()` of the command buffer it was recorded on: `present()` is called
once the signal has been enqueued, with no wait for the queue to have executed it. -/
theorem C5_present_follows_submit_of_signal (dflt : Defaults) (surface : Surface) (d : Device)
    (gs : StencilTest.Globals) (gt : Triangle.Globals) (gw : Window.Globals)
    (texture : GPUSurfaceTexture) (schedule : List Tick) :
    (∀ p ∈ (Machine.run schedule
        (Machine.load (calls_of (StencilTest.render dflt gs surface texture) d))).presented,
      p.texture = texture ∧ ∃ command earlier, p.made = earlier ++
        [ Call.record command (Command.signal texture.complete GPUBarrierSync.RENDER_TARGET),
          Call.submit command ]) ∧
    (∀ p ∈ (Machine.run schedule
        (Machine.load (calls_of (Triangle.render dflt gt surface texture) d))).presented,
      p.texture = texture ∧ ∃ command earlier, p.made = earlier ++
        [ Call.record command (Command.signal texture.complete GPUBarrierSync.RENDER_TARGET),
          Call.submit command ]) ∧
    (∀ p ∈ (Machine.run schedule
        (Machine.load (calls_of (Window.render gw surface texture) d))).presented,
      p.texture = texture ∧ ∃ command earlier, p.made = earlier ++
        [ Call.record command (Command.signal texture.complete GPUBarrierSync.RENDER_TARGET),
          Call.submit command ]) := by
  refine ⟨?_, ?_, ?_⟩
  · intro p hp
    obtain ⟨rest, hrest⟩ := Machine.presented_in_program _ schedule p hp
    cases hsub : texture.suboptimal with
    | true => simp [StencilTest.render, calls_of, hsub] at hrest
    | false =>
        have hcalls : calls_of (StencilTest.render dflt gs surface texture) d =
            (calls_of (StencilTest.render dflt gs surface texture) d).dropLast ++
              [Call.present texture] := by
          simp [StencilTest.render, StencilTest.render_mask, StencilTest.render_color, calls_of,
            Device.create_command_buffer, Device.create_bind_group, GPUCommandBuffer.record,
            GPUCommandBuffer.submit, GPUSurfaceTexture.present, Device.emit, hsub]
        rw [hcalls] at hrest
        have h := split_at_last_present texture _ (by
          simp [StencilTest.render, StencilTest.render_mask, StencilTest.render_color, calls_of,
            Device.create_command_buffer, Device.create_bind_group, GPUCommandBuffer.record,
            GPUCommandBuffer.submit, GPUSurfaceTexture.present, Device.emit, hsub])
          p.made p.texture rest hrest
        refine ⟨h.2.1, { handle := d.next_handle, desc := { queue := GPUQueueType.DEFAULT } },
          ((calls_of (StencilTest.render dflt gs surface texture)
            d).dropLast.dropLast).dropLast, ?_⟩
        rw [h.1]
        simp [StencilTest.render, StencilTest.render_mask, StencilTest.render_color, calls_of,
          Device.create_command_buffer, Device.create_bind_group, GPUCommandBuffer.record,
          GPUCommandBuffer.submit, GPUSurfaceTexture.present, Device.emit, hsub]
  · intro p hp
    obtain ⟨rest, hrest⟩ := Machine.presented_in_program _ schedule p hp
    cases hsub : texture.suboptimal with
    | true => simp [Triangle.render, calls_of, hsub] at hrest
    | false =>
        have hcalls : calls_of (Triangle.render dflt gt surface texture) d =
            (calls_of (Triangle.render dflt gt surface texture) d).dropLast ++
              [Call.present texture] := by
          simp [Triangle.render, calls_of,
            Device.create_command_buffer, Device.create_bind_group, GPUCommandBuffer.record,
            GPUCommandBuffer.submit, GPUSurfaceTexture.present, Device.emit, hsub]
        rw [hcalls] at hrest
        have h := split_at_last_present texture _ (by
          simp [Triangle.render, calls_of,
            Device.create_command_buffer, Device.create_bind_group, GPUCommandBuffer.record,
            GPUCommandBuffer.submit, GPUSurfaceTexture.present, Device.emit, hsub])
          p.made p.texture rest hrest
        refine ⟨h.2.1, { handle := d.next_handle, desc := { queue := GPUQueueType.DEFAULT } },
          ((calls_of (Triangle.render dflt gt surface texture)
            d).dropLast.dropLast).dropLast, ?_⟩
        rw [h.1]
        simp [Triangle.render, calls_of,
          Device.create_command_buffer, Device.create_bind_group, GPUCommandBuffer.record,
          GPUCommandBuffer.submit, GPUSurfaceTexture.present, Device.emit, hsub]
  · intro p hp
    obtain ⟨rest, hrest⟩ := Machine.presented_in_program _ schedule p hp
    cases hsub : texture.suboptimal with
    | true => simp [Window.render, calls_of, hsub] at hrest
    | false =>
        have hcalls : calls_of (Window.render gw surface texture) d =
            (calls_of (Window.render gw surface texture) d).dropLast ++
              [Call.present texture] := by
          simp [Window.render, calls_of,
            Device.create_command_buffer, Device.create_bind_group, GPUCommandBuffer.record,
            GPUCommandBuffer.submit, GPUSurfaceTexture.present, Device.emit, hsub]
        rw [hcalls] at hrest
        have h := split_at_last_present texture _ (by
          simp [Window.render, calls_of,
            Device.create_command_buffer, Device.create_bind_group, GPUCommandBuffer.record,
            GPUCommandBuffer.submit, GPUSurfaceTexture.present, Device.emit, hsub])
          p.made p.texture rest hrest
        refine ⟨h.2.1, { handle := d.next_handle, desc := { queue := GPUQueueType.DEFAULT } },
          ((calls_of (Window.render gw surface texture)
            d).dropLast.dropLast).dropLast, ?_⟩
        rw [h.1]
        simp [Window.render, calls_of,
          Device.create_command_buffer, Device.create_bind_group, GPUCommandBuffer.record,
          GPUCommandBuffer.submit, GPUSurfaceTexture.present, Device.emit, hsub]

/-- C6 (as stated) fails in the Window sample: in the run that delivers `UPDATE`, a
non-suboptimal `RENDER`, then `UPDATE` again, the second `update()` stores three times into
the mapped range of `ubuffer` after the `render()` that binds `ubuffer` has submitted. -/
theorem C6_window_update_writes_after_submit :
    (writes_after_submit (Window.run sample_defaults sample_surface
      [ LoopEvent.UPDATE { keys_down := [], delta_time := 0 },
        LoopEvent.RENDER (sample_frame 0 false),
        LoopEvent.UPDATE { keys_down := [], delta_time := 0 } ]).trace).map
      (fun w => (w.buffer.handle, w.index, w.field)) =
    [ ((Window.start sample_defaults sample_surface Device.fresh).1.ubuffer.handle, 0,
        "inv_view_proj"),
      ((Window.start sample_defaults sample_surface Device.fresh).1.ubuffer.handle, 0,
        "camera_pos"),
      ((Window.start sample_defaults sample_surface Device.fresh).1.ubuffer.handle, 0,
        "fade_range") ] := by
  rfl

/-- C6 (amended): in StencilTest and Triangle, in every run (the `START` handlers, then any
sequence of loop events), no mapped write comes after a submission that refers to the written
buffer; in Window, a run is free of such writes exactly when no `UPDATE` is delivered after a
`RENDER` whose texture is not suboptimal, because `update()` stores into the mapped range of
`ubuffer` on every `UPDATE` and every submitting `render()` binds `ubuffer`. -/
theorem C6_mapped_writes_and_submissions (dflt : Defaults) (surface : Surface)
    (events : List LoopEvent) :
    writes_after_submit (StencilTest.run dflt surface events).trace = [] ∧
    writes_after_submit (Triangle.run dflt surface events).trace = [] ∧
    (writes_after_submit (Window.run dflt surface events).trace = [] ↔
      update_after_render events = false) := by
  refine ⟨?_, ?_, ?_⟩
  · have h := StencilTest.stencil_loop_late dflt (StencilTest.start dflt surface Device.fresh).1
      surface events (StencilTest.start dflt surface Device.fresh).2
    simp only [writes_after_submit, StencilTest.run]
    rw [h]
    simp [StencilTest.start, StencilTest.setup_pipelines, StencilTest.setup_mask_geometry,
      StencilTest.setup_draw_geometry, StencilTest.setup_uniform_buffer,
      StencilTest.setup_stencil_buffer, Device.create_shader_module,
      Device.create_bind_group_layout, Device.create_pipeline_layout,
      Device.create_render_pipeline, Device.create_buffer, Device.create_texture,
      GPUTexture.create_view, GPUBuffer.write, Device.emit, Device.fresh, Scan.run, Scan.step,
      Scan.init]
  · have h := Triangle.triangle_loop_late dflt (Triangle.start dflt surface Device.fresh).1
      surface events (Triangle.start dflt surface Device.fresh).2
    simp only [writes_after_submit, Triangle.run]
    rw [h]
    simp [Triangle.start, Triangle.setup_pipeline, Triangle.setup_buffers,
      Device.create_shader_module, Device.create_bind_group_layout,
      Device.create_pipeline_layout, Device.create_render_pipeline, Device.create_buffer,
      GPUBuffer.write, Device.emit, Device.fresh, Scan.run, Scan.step, Scan.init]
  · simp only [writes_after_submit, Window.run]
    apply Window.loop_idle
    simp [Window.start, Window.setup_pipeline, Window.setup_buffers, Window.setup_camera,
      Device.create_shader_module, Device.create_bind_group_layout,
      Device.create_pipeline_layout, Device.create_render_pipeline, Device.create_buffer,
      Device.emit, Device.fresh, Scan.run, Scan.step, Scan.init]

/-- C7: the pipeline that `render_mask` binds is the `pipeline_mask` that `setup_pipelines`
created, and it is configured with colour write mask NONE, depth compare ALWAYS, depth write
disabled, stencil compare ALWAYS on both faces, stencil write mask 0x1, stencil read mask 0x0
and stencil pass operation REPLACE on both faces; the one stencil reference recorded in the
pass is 1. -/
theorem C7_mask_pass_configuration (dflt : Defaults) (surface : Surface) (d0 d : Device)
    (command : GPUCommandBuffer) (backbuffer : GPUSurfaceTexture) (bind_group : GPUBindGroup) :
    let g := (StencilTest.start dflt surface d0).1
    let cmds := commands_of
      (calls_of (StencilTest.render_mask g surface command backbuffer bind_group) d)
    cmds.filterMap Command.pipeline? = [g.pipeline_mask] ∧
    g.pipeline_mask.desc.fragment.targets.map (fun t => t.write_mask) = [GPUColorWrite.NONE] ∧
    g.pipeline_mask.desc.depth_stencil.depth_compare = GPUCompareFunction.ALWAYS ∧
    g.pipeline_mask.desc.depth_stencil.depth_write_enabled = false ∧
    g.pipeline_mask.desc.depth_stencil.stencil_front.compare = GPUCompareFunction.ALWAYS ∧
    g.pipeline_mask.desc.depth_stencil.stencil_back.compare = GPUCompareFunction.ALWAYS ∧
    g.pipeline_mask.desc.depth_stencil.stencil_write_mask = 0x1 ∧
    g.pipeline_mask.desc.depth_stencil.stencil_read_mask = 0x0 ∧
    g.pipeline_mask.desc.depth_stencil.stencil_front.pass_op = GPUStencilOperation.REPLACE ∧
    g.pipeline_mask.desc.depth_stencil.stencil_back.pass_op = GPUStencilOperation.REPLACE ∧
    cmds.filterMap Command.stencil_reference? = [1] := by
  simp [StencilTest.start, StencilTest.setup_pipelines, StencilTest.setup_mask_geometry,
    StencilTest.setup_draw_geometry, StencilTest.setup_uniform_buffer,
    StencilTest.setup_stencil_buffer, StencilTest.render_mask,
    StencilTest.pipeline_mask_descriptor, calls_of, commands_of, Call.command?,
    Command.pipeline?, Command.stencil_reference?,
    Device.create_shader_module, Device.create_bind_group_layout, Device.create_pipeline_layout,
    Device.create_render_pipeline, Device.create_buffer, Device.create_texture,
    GPUTexture.create_view, GPUBuffer.write, GPUCommandBuffer.record, Device.emit]

/-- C9 (as stated) fails: the depth compare function of `pipeline_draw` passes a fragment of
depth 0 against a stored depth of 1, which EQUAL rejects, so the depth test is not EQUAL or
stricter. -/
theorem C9_depth_test_not_equal_or_stricter :
    ¬ ((∀ incoming stored : ℚ,
          (StencilTest.start sample_defaults sample_surface
            Device.fresh).1.pipeline_draw.desc.depth_stencil.depth_compare.passes
              incoming stored = true →
          GPUCompareFunction.EQUAL.passes incoming stored = true) ∧
        (StencilTest.start sample_defaults sample_surface
          Device.fresh).1.pipeline_draw.desc.depth_stencil.depth_write_enabled = true) := by
  intro h
  have h01 := h.1 0 1 (by
    simp [StencilTest.start, StencilTest.setup_pipelines, StencilTest.setup_mask_geometry,
      StencilTest.setup_draw_geometry, StencilTest.setup_uniform_buffer,
      StencilTest.setup_stencil_buffer, StencilTest.pipeline_draw_descriptor,
      Device.create_shader_module, Device.create_bind_group_layout,
      Device.create_pipeline_layout, Device.create_render_pipeline, Device.create_buffer,
      Device.create_texture, GPUTexture.create_view, GPUBuffer.write, Device.emit,
      GPUCompareFunction.passes])
  simp [GPUCompareFunction.passes] at h01

/-- C9 (amended): the depth compare function of `pipeline_draw` is ALWAYS, which passes every
fragment whatever depth is stored, and depth write is enabled. -/
theorem C9_depth_test_always_write_enabled (dflt : Defaults) (surface : Surface)
    (d0 : Device) :
    let ds := (StencilTest.start dflt surface d0).1.pipeline_draw.desc.depth_stencil
    ds.depth_compare = GPUCompareFunction.ALWAYS ∧
    (∀ incoming stored : ℚ, ds.depth_compare.passes incoming stored = true) ∧
    ds.depth_write_enabled = true := by
  simp [StencilTest.start, StencilTest.setup_pipelines, StencilTest.setup_mask_geometry,
    StencilTest.setup_draw_geometry, StencilTest.setup_uniform_buffer,
    StencilTest.setup_stencil_buffer, StencilTest.pipeline_draw_descriptor,
    Device.create_shader_module, Device.create_bind_group_layout, Device.create_pipeline_layout,
    Device.create_render_pipeline, Device.create_buffer, Device.create_texture,
    GPUTexture.create_view, GPUBuffer.write, Device.emit, GPUCompareFunction.passes]

/-- C10: `render_mask` and `render_color` each record one pass, both with the depth-stencil
view `dsview`; pass 1 has stencil store op STORE and depth store op DISCARD, pass 2 has
stencil load op LOAD; so whatever stencil content pass 1 wrote is what pass 2 finds in the
stencil plane when it begins. -/
theorem C10_stencil_persists_between_passes (dflt : Defaults) (surface : Surface)
    (d0 d : Device) (command : GPUCommandBuffer) (backbuffer : GPUSurfaceTexture)
    (bind_group : GPUBindGroup) :
    let g := (StencilTest.start dflt surface d0).1
    let pass1 := commands_of
      (calls_of (StencilTest.render_mask g surface command backbuffer bind_group) d)
    let pass2 := commands_of
      (calls_of (StencilTest.render_color g surface command backbuffer bind_group) d)
    ∃ p1 p2 a1 a2,
      pass1.filterMap Command.pass? = [p1] ∧ pass2.filterMap Command.pass? = [p2] ∧
      p1.depth_stencil_attachment = some a1 ∧ p2.depth_stencil_attachment = some a2 ∧
      a1.view = g.dsview ∧ a2.view = g.dsview ∧
      a1.stencil_store_op = GPUStoreOp.STORE ∧
      a1.depth_store_op = GPUStoreOp.DISCARD ∧
      a2.stencil_load_op = GPULoadOp.LOAD ∧
      ∀ stencil : Nat → Nat,
        a2.stencil_load_op.enter (fun _ => a2.stencil_clear_value)
          (a1.stencil_store_op.leave stencil) = some stencil := by
  simp [StencilTest.render_mask, StencilTest.render_color, StencilTest.mask_pass,
    StencilTest.color_pass, calls_of, commands_of, Call.command?, Command.pass?,
    GPUCommandBuffer.record, Device.emit, GPUStoreOp.leave, GPULoadOp.enter]

/-- C11: replaying at one pixel the commands `render_mask` and `render_color` record, with
the pipelines `setup_pipelines` created, for any fragments the mask geometry and the draw
geometry produce there and whatever the attachments held before: after pass 1 the stencil
value is the reference 1 if the mask geometry covers the pixel and 0 otherwise, and pass 1
writes no colour; in pass 2 colour is written at the pixel only if the draw geometry covers
it and its stencil value equals the reference; and the draws of pass 2 leave the stencil
value as pass 1 left it. -/
theorem C11_stencil_gates_second_pass (dflt : Defaults) (surface : Surface) (d0 d : Device)
    (command : GPUCommandBuffer) (backbuffer : GPUSurfaceTexture) (bind_group : GPUBindGroup)
    (mask_fragments draw_fragments : List Fragment) (before : Pixel) :
    let g := (StencilTest.start dflt surface d0).1
    let after1 := (Raster.run mask_fragments (Raster.on before) (commands_of (calls_of
      (StencilTest.render_mask g surface command backbuffer bind_group) d))).pixel
    let after2 := (Raster.run draw_fragments (Raster.on after1) (commands_of (calls_of
      (StencilTest.render_color g surface command backbuffer bind_group) d))).pixel
    after1.stencil = (if mask_fragments = [] then 0 else 1) ∧
    after1.color_written = false ∧
    (after2.color_written = true → draw_fragments ≠ [] ∧ after1.stencil = 1) ∧
    after2.stencil = after1.stencil := by
  intro g after1 after2
  have hp := StencilTest.start_pipelines dflt surface d0
  have h1 := StencilTest.mask_shade_all dflt surface _ _ _ g.pipeline_mask hp.1 mask_fragments
    { stencil := 0, depth := 1, color_written := false } (by simp)
  have e1 : after1 = mask_fragments.foldl (g.pipeline_mask.shade 1)
      { stencil := 0, depth := 1, color_written := false } :=
    StencilTest.mask_pass_pixel g surface command backbuffer bind_group d mask_fragments before
  have h2 := StencilTest.draw_shade_all dflt surface _ _ _ g.pipeline_draw hp.2 draw_fragments
    { stencil := after1.stencil, depth := 1, color_written := false }
  have e2 : after2 = draw_fragments.foldl (g.pipeline_draw.shade 1)
      { stencil := after1.stencil, depth := 1, color_written := false } :=
    StencilTest.color_pass_pixel g surface command backbuffer bind_group d draw_fragments after1
  rw [← e1] at h1
  rw [← e2] at h2
  refine ⟨h1.1, h1.2, ?_, h2.1⟩
  intro hc
  rcases h2.2 hc with h | h
  · simp at h
  · refine ⟨h.1, ?_⟩
    have hs := h.2
    simp only at hs
    rw [h1.1] at hs ⊢
    by_cases hm : mask_fragments = []
    · simp [hm] at hs
    · simp [hm]

/-- C12: evaluation of the two StencilTest passes.  Pass 2 respects its read-only stencil
plane: `pipeline_draw` has stencil write mask 0 and KEEP for every stencil operation, and the
stencil load operation is LOAD.  Pass 1 marks the depth plane read-only and binds
`pipeline_mask`, whose depth write is disabled, but its depth load operation is CLEAR: when
the pass begins, the depth value of every pixel becomes the clear value 1 whatever it held,
so the read-only depth plane of pass 1 is written. -/
theorem C12_mask_pass_clears_read_only_depth (dflt : Defaults) (surface : Surface)
    (d0 d : Device) (command : GPUCommandBuffer) (backbuffer : GPUSurfaceTexture)
    (bind_group : GPUBindGroup) (before : Pixel) :
    let g := (StencilTest.start dflt surface d0).1
    let pass1 := commands_of
      (calls_of (StencilTest.render_mask g surface command backbuffer bind_group) d)
    let pass2 := commands_of
      (calls_of (StencilTest.render_color g surface command backbuffer bind_group) d)
    ∃ p1 p2 a1 a2,
      pass1.filterMap Command.pass? = [p1] ∧ pass2.filterMap Command.pass? = [p2] ∧
      p1.depth_stencil_attachment = some a1 ∧ p2.depth_stencil_attachment = some a2 ∧
      pass1.filterMap Command.pipeline? = [g.pipeline_mask] ∧
      pass2.filterMap Command.pipeline? = [g.pipeline_draw] ∧
      a2.stencil_read_only = true ∧ a2.depth_read_only = false ∧
      g.pipeline_draw.desc.depth_stencil.stencil_write_mask = 0 ∧
      g.pipeline_draw.desc.depth_stencil.stencil_front.keeps = true ∧
      g.pipeline_draw.desc.depth_stencil.stencil_back.keeps = true ∧
      a2.stencil_load_op = GPULoadOp.LOAD ∧
      read_only_respected a2 g.pipeline_draw.desc.depth_stencil = true ∧
      a1.depth_read_only = true ∧ a1.stencil_read_only = false ∧
      g.pipeline_mask.desc.depth_stencil.depth_write_enabled = false ∧
      a1.depth_load_op = GPULoadOp.CLEAR ∧
      (Raster.run [] (Raster.on before) pass1).pixel.depth = 1 ∧
      read_only_respected a1 g.pipeline_mask.desc.depth_stencil = false := by
  simp [StencilTest.start, StencilTest.setup_pipelines, StencilTest.setup_mask_geometry,
    StencilTest.setup_draw_geometry, StencilTest.setup_uniform_buffer,
    StencilTest.setup_stencil_buffer, StencilTest.render_mask, StencilTest.render_color,
    StencilTest.pipeline_mask_descriptor, StencilTest.pipeline_draw_descriptor,
    StencilTest.mask_pass, StencilTest.color_pass, calls_of, commands_of,
    Call.command?, Command.pipeline?, Command.pass?, read_only_respected,
    GPUStencilFaceState.keeps, Raster.run, Raster.step, Raster.on,
    Device.create_shader_module, Device.create_bind_group_layout, Device.create_pipeline_layout,
    Device.create_render_pipeline, Device.create_buffer, Device.create_texture,
    GPUTexture.create_view, GPUBuffer.write, GPUCommandBuffer.record, Device.emit]

/-- C13: in each sample, the calls of one `render()` nest their render passes well:
`begin_render_pass` and `end_render_pass` alternate starting with `begin_render_pass`, every
`set_viewport`, `set_scissor_rect`, `set_pipeline`, `set_bind_group`, `set_vertex_buffer`,
`set_index_buffer`, `set_stencil_reference`, `draw` and `draw_indexed` is recorded while a
pass is open, and no pass is open when `submit()` is called.  A non-suboptimal `render()`
records two passes in StencilTest and one in Triangle and in Window. -/
theorem C13_render_passes_well_nested (dflt : Defaults) (surface : Surface) (d : Device)
    (gs : StencilTest.Globals) (gt : Triangle.Globals) (gw : Window.Globals)
    (texture : GPUSurfaceTexture) :
    (well_nested false (calls_of (StencilTest.render dflt gs surface texture) d) = true ∧
      ((commands_of (calls_of (StencilTest.render dflt gs surface texture) d)).filterMap
        Command.pass?).length = (if texture.suboptimal then 0 else 2)) ∧
    (well_nested false (calls_of (Triangle.render dflt gt surface texture) d) = true ∧
      ((commands_of (calls_of (Triangle.render dflt gt surface texture) d)).filterMap
        Command.pass?).length = (if texture.suboptimal then 0 else 1)) ∧
    (well_nested false (calls_of (Window.render gw surface texture) d) = true ∧
      ((commands_of (calls_of (Window.render gw surface texture) d)).filterMap
        Command.pass?).length = (if texture.suboptimal then 0 else 1)) := by
  cases hsub : texture.suboptimal <;>
    simp [StencilTest.render, StencilTest.render_mask, StencilTest.render_color,
      Triangle.render, Window.render, calls_of, commands_of, Call.command?, Command.pass?,
      Device.create_command_buffer, Device.create_bind_group, GPUCommandBuffer.record,
      GPUCommandBuffer.submit, GPUSurfaceTexture.present, Device.emit, well_nested,
      Command.pass_only, hsub]

/-- C14: in each sample, a `render()` call that records commands (its texture is not
suboptimal) begins by creating a command buffer, whose handle the device had not handed out
before; every command of the call is recorded on that command buffer; the call submits
exactly once, and that command buffer; from the `submit()` on, its calls are `submit()` and
`present()` only, so nothing is recorded after `submit()`; and the device moves on by two
handles, so the next call gets another command buffer. -/
theorem C14_fresh_command_buffer_submitted_once (dflt : Defaults) (surface : Surface)
    (d : Device) (gs : StencilTest.Globals) (gt : Triangle.Globals) (gw : Window.Globals)
    (texture : GPUSurfaceTexture) (hsub : texture.suboptimal = false) :
    (∃ command : GPUCommandBuffer,
      command.handle = d.next_handle ∧
      (calls_of (StencilTest.render dflt gs surface texture) d).head? =
        some (Call.create_command_buffer command) ∧
      (∀ c cmd, Call.record c cmd ∈ calls_of (StencilTest.render dflt gs surface texture) d →
        c = command) ∧
      (calls_of (StencilTest.render dflt gs surface texture) d).filter Call.is_submit =
        [Call.submit command] ∧
      (calls_of (StencilTest.render dflt gs surface texture) d).dropWhile
        (fun c => !c.is_submit) = [Call.submit command, Call.present texture] ∧
      (StencilTest.render dflt gs surface texture d).next_handle = d.next_handle + 2) ∧
    (∃ command : GPUCommandBuffer,
      command.handle = d.next_handle ∧
      (calls_of (Triangle.render dflt gt surface texture) d).head? =
        some (Call.create_command_buffer command) ∧
      (∀ c cmd, Call.record c cmd ∈ calls_of (Triangle.render dflt gt surface texture) d →
        c = command) ∧
      (calls_of (Triangle.render dflt gt surface texture) d).filter Call.is_submit =
        [Call.submit command] ∧
      (calls_of (Triangle.render dflt gt surface texture) d).dropWhile
        (fun c => !c.is_submit) = [Call.submit command, Call.present texture] ∧
      (Triangle.render dflt gt surface texture d).next_handle = d.next_handle + 2) ∧
    (∃ command : GPUCommandBuffer,
      command.handle = d.next_handle ∧
      (calls_of (Window.render gw surface texture) d).head? =
        some (Call.create_command_buffer command) ∧
      (∀ c cmd, Call.record c cmd ∈ calls_of (Window.render gw surface texture) d →
        c = command) ∧
      (calls_of (Window.render gw surface texture) d).filter Call.is_submit =
        [Call.submit command] ∧
      (calls_of (Window.render gw surface texture) d).dropWhile
        (fun c => !c.is_submit) = [Call.submit command, Call.present texture] ∧
      (Window.render gw surface texture d).next_handle = d.next_handle + 2) := by
  refine ⟨⟨{ handle := d.next_handle, desc := { queue := GPUQueueType.DEFAULT } }, ?_⟩,
    ⟨{ handle := d.next_handle, desc := { queue := GPUQueueType.DEFAULT } }, ?_⟩,
    ⟨{ handle := d.next_handle, desc := { queue := GPUQueueType.DEFAULT } }, ?_⟩⟩
  · simp [StencilTest.render, StencilTest.render_mask, StencilTest.render_color, calls_of,
      Device.create_command_buffer, Device.create_bind_group, GPUCommandBuffer.record,
      GPUCommandBuffer.submit, GPUSurfaceTexture.present, Device.emit, Call.is_submit, hsub,
      List.filter, List.dropWhile]
    intro c cmd h
    repeat' (first | exact h.1 | rcases h with h | h)
  · simp [Triangle.render, calls_of, Device.create_command_buffer, Device.create_bind_group,
      GPUCommandBuffer.record, GPUCommandBuffer.submit, GPUSurfaceTexture.present,
      Device.emit, Call.is_submit, hsub, List.filter, List.dropWhile]
    intro c cmd h
    repeat' (first | exact h.1 | rcases h with h | h)
  · simp [Window.render, calls_of, Device.create_command_buffer, Device.create_bind_group,
      GPUCommandBuffer.record, GPUCommandBuffer.submit, GPUSurfaceTexture.present,
      Device.emit, Call.is_submit, hsub, List.filter, List.dropWhile]
    intro c cmd h
    repeat' (first | exact h.1 | rcases h with h | h)

theorem C14_fresh_command_buffer_submitted_once_witness :
    (sample_frame 0 false).suboptimal = false ∧
    ∃ command : GPUCommandBuffer,
      command.handle = Device.fresh.next_handle ∧
      (calls_of (Window.render default sample_surface (sample_frame 0 false))
        Device.fresh).head? = some (Call.create_command_buffer command) ∧
      (∀ c cmd, Call.record c cmd ∈
        calls_of (Window.render default sample_surface (sample_frame 0 false)) Device.fresh →
          c = command) ∧
      (calls_of (Window.render default sample_surface (sample_frame 0 false))
        Device.fresh).filter Call.is_submit = [Call.submit command] ∧
      (calls_of (Window.render default sample_surface (sample_frame 0 false))
        Device.fresh).dropWhile (fun c => !c.is_submit) =
          [Call.submit command, Call.present (sample_frame 0 false)] ∧
      (Window.render default sample_surface (sample_frame 0 false) Device.fresh).next_handle =
        Device.fresh.next_handle + 2 :=
  ⟨rfl, (C14_fresh_command_buffer_submitted_once sample_defaults sample_surface Device.fresh
    default default default (sample_frame 0 false) rfl).2.2⟩

/-- C15: in each sample, a non-suboptimal `render()` creates one bind group, from a
descriptor whose layout is the `blayout` the `START` handlers created; descriptor and layout
have one entry each, with binding index 0 and resource kind BUFFER in both, so the descriptor
conforms to its layout under the rule of bind group creation. -/
theorem C15_bind_group_conforms_to_layout (dflt : Defaults) (surface : Surface)
    (d0 d : Device) (texture : GPUSurfaceTexture) (hsub : texture.suboptimal = false) :
    (∃ group,
      (calls_of (StencilTest.render dflt (StencilTest.start dflt surface d0).1 surface texture)
        d).filterMap Call.bind_group? = [group] ∧
      group.desc.layout = (StencilTest.start dflt surface d0).1.blayout ∧
      group.desc.entries.map (fun e => (e.binding, e.type)) =
        [(0, GPUBindingResourceType.BUFFER)] ∧
      group.desc.layout.desc.entries.map (fun e => (e.binding, e.type)) =
        [(0, GPUBindingResourceType.BUFFER)] ∧
      group.desc.conforms = true) ∧
    (∃ group,
      (calls_of (Triangle.render dflt (Triangle.start dflt surface d0).1 surface texture)
        d).filterMap Call.bind_group? = [group] ∧
      group.desc.layout = (Triangle.start dflt surface d0).1.blayout ∧
      group.desc.entries.map (fun e => (e.binding, e.type)) =
        [(0, GPUBindingResourceType.BUFFER)] ∧
      group.desc.layout.desc.entries.map (fun e => (e.binding, e.type)) =
        [(0, GPUBindingResourceType.BUFFER)] ∧
      group.desc.conforms = true) ∧
    (∃ group,
      (calls_of (Window.render (Window.start dflt surface d0).1 surface texture)
        d).filterMap Call.bind_group? = [group] ∧
      group.desc.layout = (Window.start dflt surface d0).1.blayout ∧
      group.desc.entries.map (fun e => (e.binding, e.type)) =
        [(0, GPUBindingResourceType.BUFFER)] ∧
      group.desc.layout.desc.entries.map (fun e => (e.binding, e.type)) =
        [(0, GPUBindingResourceType.BUFFER)] ∧
      group.desc.conforms = true) := by
  refine ⟨?_, ?_, ?_⟩
  · simp [StencilTest.start, StencilTest.setup_pipelines, StencilTest.setup_mask_geometry,
      StencilTest.setup_draw_geometry, StencilTest.setup_uniform_buffer,
      StencilTest.setup_stencil_buffer, StencilTest.render, StencilTest.render_mask,
      StencilTest.render_color, calls_of, Call.bind_group?, GPUBindGroupDescriptor.conforms,
      Device.create_shader_module, Device.create_bind_group_layout,
      Device.create_pipeline_layout, Device.create_render_pipeline, Device.create_buffer,
      Device.create_texture, GPUTexture.create_view, GPUBuffer.write,
      Device.create_command_buffer, Device.create_bind_group, GPUCommandBuffer.record,
      GPUCommandBuffer.submit, GPUSurfaceTexture.present, Device.emit, hsub]
  · simp [Triangle.start, Triangle.setup_pipeline, Triangle.setup_buffers, Triangle.render,
      calls_of, Call.bind_group?, GPUBindGroupDescriptor.conforms,
      Device.create_shader_module, Device.create_bind_group_layout,
      Device.create_pipeline_layout, Device.create_render_pipeline, Device.create_buffer,
      GPUBuffer.write, Device.create_command_buffer, Device.create_bind_group,
      GPUCommandBuffer.record, GPUCommandBuffer.submit, GPUSurfaceTexture.present,
      Device.emit, hsub]
  · simp [Window.start, Window.setup_pipeline, Window.setup_buffers, Window.setup_camera,
      Window.render, calls_of, Call.bind_group?, GPUBindGroupDescriptor.conforms,
      Device.create_shader_module, Device.create_bind_group_layout,
      Device.create_pipeline_layout, Device.create_render_pipeline, Device.create_buffer,
      Device.create_command_buffer, Device.create_bind_group, GPUCommandBuffer.record,
      GPUCommandBuffer.submit, GPUSurfaceTexture.present, Device.emit, hsub]

theorem C15_bind_group_conforms_to_layout_witness :
    (sample_frame 0 false).suboptimal = false ∧
    ∃ group,
      (calls_of (Window.render (Window.start sample_defaults sample_surface Device.fresh).1
        sample_surface (sample_frame 0 false)) Device.fresh).filterMap Call.bind_group? =
          [group] ∧
      group.desc.layout = (Window.start sample_defaults sample_surface Device.fresh).1.blayout ∧
      group.desc.entries.map (fun e => (e.binding, e.type)) =
        [(0, GPUBindingResourceType.BUFFER)] ∧
      group.desc.layout.desc.entries.map (fun e => (e.binding, e.type)) =
        [(0, GPUBindingResourceType.BUFFER)] ∧
      group.desc.conforms = true :=
  ⟨rfl, (C15_bind_group_conforms_to_layout sample_defaults sample_surface Device.fresh
    Device.fresh (sample_frame 0 false) rfl).2.2⟩

/-- C16: the `START` handlers of StencilTest create `pipeline_mask` and `pipeline_draw`, each
declaring the depth-stencil format DEPTH24PLUS_STENCIL8, and the texture `dsbuffer` with that
format; a non-suboptimal `render()` records two render passes, the first binding
`pipeline_mask` and the second `pipeline_draw`; in each, the depth-stencil attachment is a
view of `dsbuffer`, and the depth-stencil format the bound pipeline declares is the format
`dsbuffer` was created with. -/
theorem C16_pipeline_format_matches_attachment (dflt : Defaults) (surface : Surface)
    (d0 d : Device) (texture : GPUSurfaceTexture) (hsub : texture.suboptimal = false) :
    let g := (StencilTest.start dflt surface d0).1
    let setup := calls_of (fun d => (StencilTest.start dflt surface d).2) d0
    let passes := passes_with_pipelines
      (commands_of (calls_of (StencilTest.render dflt g surface texture) d))
    Call.create_render_pipeline g.pipeline_mask ∈ setup ∧
    Call.create_render_pipeline g.pipeline_draw ∈ setup ∧
    Call.create_texture g.dsbuffer ∈ setup ∧
    setup.filterMap
        (fun c => match c with
          | Call.create_render_pipeline p => some p.desc.depth_stencil.format
          | _ => none) =
      [GPUTextureFormat.DEPTH24PLUS_STENCIL8, GPUTextureFormat.DEPTH24PLUS_STENCIL8] ∧
    setup.filterMap
        (fun c => match c with
          | Call.create_texture t => some t.desc.format
          | _ => none) =
      [GPUTextureFormat.DEPTH24PLUS_STENCIL8] ∧
    g.pipeline_mask.handle ≠ g.pipeline_draw.handle ∧
    passes.map (fun pp => pp.2) = [[g.pipeline_mask], [g.pipeline_draw]] ∧
    ∀ pp ∈ passes, ∀ p ∈ pp.2, ∃ a,
      pp.1.depth_stencil_attachment = some a ∧
      a.view.texture = g.dsbuffer ∧
      p.desc.depth_stencil.format = a.view.texture.desc.format ∧
      p.desc.depth_stencil.format = GPUTextureFormat.DEPTH24PLUS_STENCIL8 := by
  intro g setup passes
  have hcmds := StencilTest.stencil_render_commands dflt g surface texture d hsub
  simp only [passes, hcmds]
  simp [g, setup, calls_of, passes_with_pipelines, Command.pass?, Command.pipeline?,
    List.takeWhile, StencilTest.mask_pass, StencilTest.color_pass,
    StencilTest.start, StencilTest.setup_pipelines, StencilTest.setup_mask_geometry,
    StencilTest.setup_draw_geometry, StencilTest.setup_uniform_buffer,
    StencilTest.setup_stencil_buffer, StencilTest.pipeline_mask_descriptor,
    StencilTest.pipeline_draw_descriptor, Device.create_shader_module,
    Device.create_bind_group_layout, Device.create_pipeline_layout,
    Device.create_render_pipeline, Device.create_buffer, Device.create_texture,
    GPUTexture.create_view, GPUBuffer.write, Device.emit]

theorem C16_pipeline_format_matches_attachment_witness :
    (sample_frame 0 false).suboptimal = false ∧
    (passes_with_pipelines (commands_of (calls_of (StencilTest.render sample_defaults
      (StencilTest.start sample_defaults sample_surface Device.fresh).1 sample_surface
      (sample_frame 0 false)) Device.fresh))).map (fun pp => pp.2) =
      [ [(StencilTest.start sample_defaults sample_surface Device.fresh).1.pipeline_mask],
        [(StencilTest.start sample_defaults sample_surface Device.fresh).1.pipeline_draw] ] ∧
    Call.create_texture (StencilTest.start sample_defaults sample_surface
        Device.fresh).1.dsbuffer ∈
      calls_of (fun d => (StencilTest.start sample_defaults sample_surface d).2)
        Device.fresh :=
  have h := C16_pipeline_format_matches_attachment sample_defaults sample_surface Device.fresh
    Device.fresh (sample_frame 0 false) rfl
  ⟨rfl, h.2.2.2.2.2.2.1, h.2.2.1⟩

/-- C17: in every session of each sample (the `START` handlers on a fresh device, any loop
events, then `cleanup()`), followed by device teardown: no handle stays live; every handle
the session created, whatever its kind, has been released exactly once; nothing else has
been released; `cleanup()` destroys no handle twice; and `ubuffer` (in StencilTest also
`dsview`), which `cleanup()` never destroys, was created and is therefore among the handles
that teardown releases. -/
theorem C17_every_resource_released_once (dflt : Defaults) (surface : Surface)
    (events : List LoopEvent) :
    (((Registry.init.run (StencilTest.session dflt surface events).trace).teardown).live = [] ∧
      (∀ h ∈ (StencilTest.session dflt surface events).trace.filterMap Call.created?,
        ((Registry.init.run
          (StencilTest.session dflt surface events).trace).teardown).released.count h = 1) ∧
      (∀ h ∈ ((Registry.init.run
          (StencilTest.session dflt surface events).trace).teardown).released,
        h ∈ (StencilTest.session dflt surface events).trace.filterMap Call.created?) ∧
      ((StencilTest.session dflt surface events).trace.filterMap Call.destroyed?).Nodup ∧
      (StencilTest.start dflt surface Device.fresh).1.ubuffer.handle ∈
        (StencilTest.session dflt surface events).trace.filterMap Call.created? ∧
      (StencilTest.start dflt surface Device.fresh).1.ubuffer.handle ∉
        (StencilTest.session dflt surface events).trace.filterMap Call.destroyed? ∧
      (StencilTest.start dflt surface Device.fresh).1.dsview.handle ∈
        (StencilTest.session dflt surface events).trace.filterMap Call.created? ∧
      (StencilTest.start dflt surface Device.fresh).1.dsview.handle ∉
        (StencilTest.session dflt surface events).trace.filterMap Call.destroyed?) ∧
    (((Registry.init.run (Triangle.session dflt surface events).trace).teardown).live = [] ∧
      (∀ h ∈ (Triangle.session dflt surface events).trace.filterMap Call.created?,
        ((Registry.init.run
          (Triangle.session dflt surface events).trace).teardown).released.count h = 1) ∧
      (∀ h ∈ ((Registry.init.run
          (Triangle.session dflt surface events).trace).teardown).released,
        h ∈ (Triangle.session dflt surface events).trace.filterMap Call.created?) ∧
      ((Triangle.session dflt surface events).trace.filterMap Call.destroyed?).Nodup ∧
      (Triangle.start dflt surface Device.fresh).1.ubuffer.handle ∈
        (Triangle.session dflt surface events).trace.filterMap Call.created? ∧
      (Triangle.start dflt surface Device.fresh).1.ubuffer.handle ∉
        (Triangle.session dflt surface events).trace.filterMap Call.destroyed?) ∧
    (((Registry.init.run (Window.session dflt surface events).trace).teardown).live = [] ∧
      (∀ h ∈ (Window.session dflt surface events).trace.filterMap Call.created?,
        ((Registry.init.run
          (Window.session dflt surface events).trace).teardown).released.count h = 1) ∧
      (∀ h ∈ ((Registry.init.run
          (Window.session dflt surface events).trace).teardown).released,
        h ∈ (Window.session dflt surface events).trace.filterMap Call.created?) ∧
      ((Window.session dflt surface events).trace.filterMap Call.destroyed?).Nodup ∧
      (Window.start dflt surface Device.fresh).1.ubuffer.handle ∈
        (Window.session dflt surface events).trace.filterMap Call.created? ∧
      (Window.start dflt surface Device.fresh).1.ubuffer.handle ∉
        (Window.session dflt surface events).trace.filterMap Call.destroyed?) := by
  refine ⟨?_, ?_, ?_⟩
  · obtain ⟨k, pre, ht, hd, hc, hu, hv⟩ :=
      StencilTest.stencil_session_shape dflt surface events
    have h := Registry.session_exactly_once pre [12, 8, 7, 10, 9, 5, 6, 1, 2, 3, 4] (k + 13)
      hd hc (by decide) (by
        intro h hh
        simp at hh
        omega)
    rw [← ht] at h
    obtain ⟨h1, h2, h3, h4, h5⟩ := h
    have hcreated : (StencilTest.session dflt surface events).trace.filterMap Call.created? =
        List.range' 1 (k + 13) := by
      rw [ht]
      simp [List.filterMap_append, List.filterMap_cons, hc, Call.created?, created_of_destroys]
    refine ⟨h1, h2, h3, by rw [h5]; decide, ?_, ?_, ?_, ?_⟩
    · rw [hcreated, hu, List.mem_range'_1]
      omega
    · rw [h5, hu]
      decide
    · rw [hcreated, hv, List.mem_range'_1]
      omega
    · rw [h5, hv]
      decide
  · obtain ⟨k, pre, ht, hd, hc, hu⟩ := Triangle.triangle_session_shape dflt surface events
    have h := Registry.session_exactly_once pre [7, 6, 1, 2, 3, 4, 5] (k + 8)
      hd hc (by decide) (by
        intro h hh
        simp at hh
        omega)
    rw [← ht] at h
    obtain ⟨h1, h2, h3, h4, h5⟩ := h
    have hcreated : (Triangle.session dflt surface events).trace.filterMap Call.created? =
        List.range' 1 (k + 8) := by
      rw [ht]
      simp [List.filterMap_append, List.filterMap_cons, hc, Call.created?, created_of_destroys]
    refine ⟨h1, h2, h3, by rw [h5]; decide, ?_, ?_⟩
    · rw [hcreated, hu, List.mem_range'_1]
      omega
    · rw [h5, hu]
      decide
  · obtain ⟨k, pre, ht, hd, hc, hu⟩ := Window.window_session_shape dflt surface events
    have h := Registry.session_exactly_once pre [1, 2, 3, 4, 5] (k + 6)
      hd hc (by decide) (by
        intro h hh
        simp at hh
        omega)
    rw [← ht] at h
    obtain ⟨h1, h2, h3, h4, h5⟩ := h
    have hcreated : (Window.session dflt surface events).trace.filterMap Call.created? =
        List.range' 1 (k + 6) := by
      rw [ht]
      simp [List.filterMap_append, List.filterMap_cons, hc, Call.created?, created_of_destroys]
    refine ⟨h1, h2, h3, by rw [h5]; decide, ?_, ?_⟩
    · rw [hcreated, hu, List.mem_range'_1]
      omega
    · rw [h5, hu]
      decide

/-- C18: in each sample, the calls of `cleanup()` are `device.wait()` first and then `destroy()`
calls only, so every `destroy()` comes after the device-wide wait and nothing is submitted in
between. -/
theorem C18_device_wait_before_destroy (d : Device) (gs : StencilTest.Globals)
    (gt : Triangle.Globals) (gw : Window.Globals) :
    calls_of (StencilTest.cleanup gs) d =
      Call.device_wait :: List.map Call.destroy
        [ gs.dsbuffer.handle, gs.ibuffer_mask.handle, gs.vbuffer_mask.handle,
          gs.ibuffer_draw.handle, gs.vbuffer_draw.handle, gs.pipeline_mask.handle,
          gs.pipeline_draw.handle, gs.vshader.handle, gs.fshader.handle, gs.blayout.handle,
          gs.playout.handle ] ∧
    calls_of (Triangle.cleanup gt) d =
      Call.device_wait :: List.map Call.destroy
        [ gt.ibuffer.handle, gt.vbuffer.handle, gt.vshader.handle, gt.fshader.handle,
          gt.blayout.handle, gt.playout.handle, gt.pipeline.handle ] ∧
    calls_of (Window.cleanup gw) d =
      Call.device_wait :: List.map Call.destroy
        [ gw.vshader.handle, gw.fshader.handle, gw.blayout.handle, gw.playout.handle,
          gw.pipeline.handle ] := by
  simp [StencilTest.cleanup, Triangle.cleanup, Window.cleanup, calls_of, Device.wait,
    Device.emit]

/-- C19: in Triangle, the `START` handlers create a vertex buffer of 3 * 24 bytes and an index
buffer of 3 * 4 bytes; what they store into the vertex buffer is, for the vertices 0, 1, 2,
the positions (0,0,0), (1,0,0), (0,1,0) and the colours (1,0,0), (0,1,0), (0,0,1), and into the
index buffer the indices 0, 1, 2, so that the vertex buffer holds 3 vertices and the index
buffer the 3 indices 0, 1, 2; a non-suboptimal `render()` records one render pass, with one
colour attachment, the view of the frame, with clear value (0,0,0,0), load operation CLEAR and
store operation STORE, and no depth-stencil attachment; the only draw of `render()` is the one
draw of that pass, `draw_indexed(3, 1, 0, 0, 0)`, and at that draw the pipeline bound is the
one `START` created, the vertex buffers bound are that vertex buffer in slot 0 and no other,
and the index buffer bound is that index buffer as UINT32; the indices the draw reads, 3 from
index 0 on, are the 3 indices stored, each below the number of vertices held. -/
theorem C19_triangle_geometry_and_draw (dflt : Defaults) (surface : Surface) (d0 d : Device)
    (texture : GPUSurfaceTexture) (hsub : texture.suboptimal = false) :
    let g := (Triangle.start dflt surface d0).1
    let setup := calls_of (fun d => (Triangle.start dflt surface d).2) d0
    let cmds := commands_of (calls_of (Triangle.render dflt g surface texture) d)
    g.vbuffer.desc.size = 3 * 24 ∧ g.ibuffer.desc.size = 3 * 4 ∧
    writes_to g.vbuffer setup =
      [ (0, "position", Value.vec3 0 0 0), (1, "position", Value.vec3 1 0 0),
        (2, "position", Value.vec3 0 1 0), (0, "color", Value.vec3 1 0 0),
        (1, "color", Value.vec3 0 1 0), (2, "color", Value.vec3 0 0 1) ] ∧
    writes_to g.ibuffer setup =
      [ (0, "", Value.u32 0), (1, "", Value.u32 1), (2, "", Value.u32 2) ] ∧
    cmds.filter Command.is_draw = [Command.draw_indexed 3 1 0 0 0] ∧
    Command.set_vertex_buffer 0 g.vbuffer ∈ cmds ∧
    Command.set_index_buffer g.ibuffer GPUIndexFormat.UINT32 ∈ cmds ∧
    cmds.filterMap Command.pass? =
      [ { color_attachments :=
            [ { clear_value := { r := 0, g := 0, b := 0, a := 0 },
                load_op := GPULoadOp.CLEAR,
                store_op := GPUStoreOp.STORE,
                view := texture.view } ],
          depth_stencil_attachment := none } ] ∧
    Call.create_buffer g.vbuffer ∈ setup ∧
    Call.create_buffer g.ibuffer ∈ setup ∧
    Call.create_render_pipeline g.pipeline ∈ setup ∧
    vertices_held g.vbuffer setup 24 = 3 ∧
    stored_indices g.ibuffer setup = [0, 1, 2] ∧
    (passes_with_draws cmds).map
        (fun pd => (pd.1, pd.2.map (fun dc =>
          (dc.command, dc.bound.pipeline, dc.bound.vertex_buffers, dc.bound.index_buffer)))) =
      [ ({ color_attachments :=
             [ { clear_value := { r := 0, g := 0, b := 0, a := 0 },
                 load_op := GPULoadOp.CLEAR,
                 store_op := GPUStoreOp.STORE,
                 view := texture.view } ],
           depth_stencil_attachment := none },
         [ (Command.draw_indexed 3 1 0 0 0, some g.pipeline, [(0, g.vbuffer)],
            some (g.ibuffer, GPUIndexFormat.UINT32)) ]) ] ∧
    (draw_calls cmds).length = 1 ∧
    ∀ dc ∈ draw_calls cmds,
      dc.indices_in_range setup = true ∧
      (dc.bound.index_buffer.map (fun ib => stored_indices ib.1 setup)) = some [0, 1, 2] := by
  intro g setup cmds
  have hcmds := Triangle.triangle_render_commands dflt g surface texture d hsub
  refine ⟨?_, ?_, ?_, ?_, ?_, ?_, ?_, ?_, ?_, ?_, ?_, ?_, ?_, ?_, ?_, ?_⟩
  · simp [g, Triangle.start, Triangle.setup_pipeline, Triangle.setup_buffers,
      Device.create_shader_module, Device.create_bind_group_layout,
      Device.create_pipeline_layout, Device.create_render_pipeline, Device.create_buffer,
      GPUBuffer.write, Device.emit]
  · simp [g, Triangle.start, Triangle.setup_pipeline, Triangle.setup_buffers,
      Device.create_shader_module, Device.create_bind_group_layout,
      Device.create_pipeline_layout, Device.create_render_pipeline, Device.create_buffer,
      GPUBuffer.write, Device.emit]
  · simp [g, setup, writes_to, mapped_writes, Call.mapped_write?, calls_of, Triangle.start,
      Triangle.setup_pipeline, Triangle.setup_buffers, Device.create_shader_module,
      Device.create_bind_group_layout, Device.create_pipeline_layout,
      Device.create_render_pipeline, Device.create_buffer, GPUBuffer.write, Device.emit]
  · simp [g, setup, writes_to, mapped_writes, Call.mapped_write?, calls_of, Triangle.start,
      Triangle.setup_pipeline, Triangle.setup_buffers, Device.create_shader_module,
      Device.create_bind_group_layout, Device.create_pipeline_layout,
      Device.create_render_pipeline, Device.create_buffer, GPUBuffer.write, Device.emit]
  · simp [cmds, hcmds, Command.is_draw]
  · simp [cmds, hcmds]
  · simp [cmds, hcmds]
  · simp [cmds, hcmds, Command.pass?, Triangle.frame_pass]
  · simp [g, setup, calls_of, Triangle.start, Triangle.setup_pipeline, Triangle.setup_buffers,
      Device.create_shader_module, Device.create_bind_group_layout,
      Device.create_pipeline_layout, Device.create_render_pipeline, Device.create_buffer,
      GPUBuffer.write, Device.emit]
  · simp [g, setup, calls_of, Triangle.start, Triangle.setup_pipeline, Triangle.setup_buffers,
      Device.create_shader_module, Device.create_bind_group_layout,
      Device.create_pipeline_layout, Device.create_render_pipeline, Device.create_buffer,
      GPUBuffer.write, Device.emit]
  · simp [g, setup, calls_of, Triangle.start, Triangle.setup_pipeline, Triangle.setup_buffers,
      Device.create_shader_module, Device.create_bind_group_layout,
      Device.create_pipeline_layout, Device.create_render_pipeline, Device.create_buffer,
      GPUBuffer.write, Device.emit]
  · simp [g, setup, vertices_held, written_from, writes_to, mapped_writes,
      Call.mapped_write?, calls_of, Triangle.start, Triangle.setup_pipeline,
      Triangle.setup_buffers, Device.create_shader_module, Device.create_bind_group_layout,
      Device.create_pipeline_layout, Device.create_render_pipeline, Device.create_buffer,
      GPUBuffer.write, Device.emit]
  · simp [g, setup, stored_indices, stored_indices_from, stored_index, writes_to,
      mapped_writes, Call.mapped_write?, calls_of, Triangle.start, Triangle.setup_pipeline,
      Triangle.setup_buffers, Device.create_shader_module, Device.create_bind_group_layout,
      Device.create_pipeline_layout, Device.create_render_pipeline, Device.create_buffer,
      GPUBuffer.write, Device.emit]
  · simp [cmds, hcmds, passes_with_draws, draw_calls, draw_calls_from, Bindings.unbound,
      Command.pass?, List.takeWhile, Triangle.frame_pass]
  · simp [cmds, hcmds, draw_calls, draw_calls_from, Bindings.unbound]
  · simp only [cmds, hcmds]
    simp [g, setup, draw_calls, draw_calls_from, Bindings.unbound, DrawCall.indices_in_range,
      stored_indices, stored_indices_from, stored_index, vertices_held, written_from,
      writes_to, mapped_writes, Call.mapped_write?, calls_of, List.lookup,
      Triangle.start, Triangle.setup_pipeline, Triangle.setup_buffers,
      Triangle.pipeline_descriptor, Device.create_shader_module,
      Device.create_bind_group_layout, Device.create_pipeline_layout,
      Device.create_render_pipeline, Device.create_buffer, GPUBuffer.write, Device.emit]

theorem C19_triangle_geometry_and_draw_witness :
    (sample_frame 0 false).suboptimal = false ∧
    writes_to (Triangle.start sample_defaults sample_surface Device.fresh).1.vbuffer
      (calls_of (fun d => (Triangle.start sample_defaults sample_surface d).2) Device.fresh) =
      [ (0, "position", Value.vec3 0 0 0), (1, "position", Value.vec3 1 0 0),
        (2, "position", Value.vec3 0 1 0), (0, "color", Value.vec3 1 0 0),
        (1, "color", Value.vec3 0 1 0), (2, "color", Value.vec3 0 0 1) ] ∧
    (commands_of (calls_of (Triangle.render sample_defaults
      (Triangle.start sample_defaults sample_surface Device.fresh).1 sample_surface
      (sample_frame 0 false)) Device.fresh)).filter Command.is_draw =
      [Command.draw_indexed 3 1 0 0 0] ∧
    (draw_calls (commands_of (calls_of (Triangle.render sample_defaults
      (Triangle.start sample_defaults sample_surface Device.fresh).1 sample_surface
      (sample_frame 0 false)) Device.fresh))).length = 1 :=
  have h := C19_triangle_geometry_and_draw sample_defaults sample_surface Device.fresh
    Device.fresh (sample_frame 0 false) rfl
  ⟨rfl, h.2.2.1, h.2.2.2.2.1, h.2.2.2.2.2.2.2.2.2.2.2.2.2.2.1⟩

/-- C20: in every run of each sample (the `START` handlers on a fresh device, then any
sequence of loop events), every mapped write stores into an element whose index is below the
size of the buffer, as its descriptor gives it, divided by the size of the element type the
range was read as (24 for `Vertex`, 4 for `uint`, 64 for `glm::mat4`, 84 for
`InverseTransform`); StencilTest makes 28 such writes, Triangle 10, all in `START` handlers,
and all the writes of Window are those of `update()`. -/
theorem C20_mapped_writes_in_bounds (dflt : Defaults) (surface : Surface)
    (events : List LoopEvent) :
    ((∀ w ∈ mapped_writes (StencilTest.run dflt surface events).trace, w.in_bounds = true) ∧
      (mapped_writes (StencilTest.run dflt surface events).trace).length = 28) ∧
    ((∀ w ∈ mapped_writes (Triangle.run dflt surface events).trace, w.in_bounds = true) ∧
      (mapped_writes (Triangle.run dflt surface events).trace).length = 10) ∧
    (∀ w ∈ mapped_writes (Window.run dflt surface events).trace,
      w.in_bounds = true ∧ w.buffer = (Window.start dflt surface Device.fresh).1.ubuffer ∧
        w.buffer.desc.size = Window.sizeof_InverseTransform ∧
        w.elem_size = Window.sizeof_InverseTransform) := by
  refine ⟨?_, ?_, ?_⟩
  · simp only [StencilTest.run]
    rw [StencilTest.stencil_loop_writes]
    simp [StencilTest.start, StencilTest.setup_pipelines, StencilTest.setup_mask_geometry,
      StencilTest.setup_draw_geometry, StencilTest.setup_uniform_buffer,
      StencilTest.setup_stencil_buffer, Device.create_shader_module,
      Device.create_bind_group_layout, Device.create_pipeline_layout,
      Device.create_render_pipeline, Device.create_buffer, Device.create_texture,
      GPUTexture.create_view, GPUBuffer.write, Device.emit, Device.fresh, mapped_writes,
      Call.mapped_write?, MappedWrite.in_bounds]
  · simp only [Triangle.run]
    rw [Triangle.triangle_loop_writes]
    simp [Triangle.start, Triangle.setup_pipeline, Triangle.setup_buffers,
      Device.create_shader_module, Device.create_bind_group_layout,
      Device.create_pipeline_layout, Device.create_render_pipeline, Device.create_buffer,
      GPUBuffer.write, Device.emit, Device.fresh, mapped_writes, Call.mapped_write?,
      MappedWrite.in_bounds]
  · intro w hw
    simp only [Window.run] at hw
    have hsize : (Window.start dflt surface Device.fresh).1.ubuffer.desc.size =
        Window.sizeof_InverseTransform := by
      simp [Window.start, Window.setup_pipeline, Window.setup_buffers, Window.setup_camera,
        Device.create_shader_module, Device.create_bind_group_layout,
        Device.create_pipeline_layout, Device.create_render_pipeline, Device.create_buffer]
    rcases Window.window_loop_writes _ surface events _ w hw with h | h
    · simp [Window.start, Window.setup_pipeline, Window.setup_buffers, Window.setup_camera,
        Device.create_shader_module, Device.create_bind_group_layout,
        Device.create_pipeline_layout, Device.create_render_pipeline, Device.create_buffer,
        Device.emit, Device.fresh, mapped_writes, Call.mapped_write?] at h
    · obtain ⟨hb, he, hi⟩ := h
      refine ⟨?_, hb, by rw [hb, hsize], he⟩
      simp [MappedWrite.in_bounds, hb, he, hi, hsize, Window.sizeof_InverseTransform]

/-- C21: for a non-suboptimal `render()` after the `START` handlers, in StencilTest the
draws are `draw_indexed(3, 1, 0, 0, 0)` in the mask pass and `draw_indexed(6, 1, 0, 0, 0)` in
the draw pass, and in Triangle the one draw is `draw_indexed(3, 1, 0, 0, 0)`; the index
buffer bound at each draw holds the indices 0, 1, 2 (0 to 5 for the draw pass) and the vertex
buffer bound to slot 0 holds 3 vertices (6 for the draw pass); so at every draw the count is
at most the number of indices written and every index read is below the number of vertices
held. -/
theorem C21_indexed_draws_in_range (dflt : Defaults) (surface : Surface) (d0 d : Device)
    (texture : GPUSurfaceTexture) (hsub : texture.suboptimal = false) :
    (let g := (StencilTest.start dflt surface d0).1
     let setup := calls_of (fun d => (StencilTest.start dflt surface d).2) d0
     let draws := draw_calls
       (commands_of (calls_of (StencilTest.render dflt g surface texture) d))
     draws.map (fun dc => dc.command) =
       [Command.draw_indexed 3 1 0 0 0, Command.draw_indexed 6 1 0 0 0] ∧
     draws.map (fun dc =>
         (dc.bound.index_buffer.map (fun ib => stored_indices ib.1 setup),
          (dc.bound.vertex_buffers.lookup 0).map (fun vb => vertices_held vb setup 24))) =
       [(some [0, 1, 2], some 3), (some [0, 1, 2, 3, 4, 5], some 6)] ∧
     ∀ dc ∈ draws, dc.indices_in_range setup = true) ∧
    (let g := (Triangle.start dflt surface d0).1
     let setup := calls_of (fun d => (Triangle.start dflt surface d).2) d0
     let draws := draw_calls
       (commands_of (calls_of (Triangle.render dflt g surface texture) d))
     draws.map (fun dc => dc.command) = [Command.draw_indexed 3 1 0 0 0] ∧
     draws.map (fun dc =>
         (dc.bound.index_buffer.map (fun ib => stored_indices ib.1 setup),
          (dc.bound.vertex_buffers.lookup 0).map (fun vb => vertices_held vb setup 24))) =
       [(some [0, 1, 2], some 3)] ∧
     ∀ dc ∈ draws, dc.indices_in_range setup = true) := by
  constructor
  · intro g setup draws
    have hcmds := StencilTest.stencil_render_commands dflt g surface texture d hsub
    simp only [draws, hcmds]
    simp [g, setup, draw_calls, draw_calls_from, Bindings.unbound, DrawCall.indices_in_range,
      stored_indices, stored_indices_from, stored_index, vertices_held, written_from,
      writes_to, mapped_writes, Call.mapped_write?, calls_of, List.lookup,
      StencilTest.start, StencilTest.setup_pipelines, StencilTest.setup_mask_geometry,
      StencilTest.setup_draw_geometry, StencilTest.setup_uniform_buffer,
      StencilTest.setup_stencil_buffer, StencilTest.pipeline_mask_descriptor,
      StencilTest.pipeline_draw_descriptor, StencilTest.vertex_layout,
      Device.create_shader_module, Device.create_bind_group_layout,
      Device.create_pipeline_layout, Device.create_render_pipeline, Device.create_buffer,
      Device.create_texture, GPUTexture.create_view, GPUBuffer.write, Device.emit]
  · intro g setup draws
    have hcmds := Triangle.triangle_render_commands dflt g surface texture d hsub
    simp only [draws, hcmds]
    simp [g, setup, draw_calls, draw_calls_from, Bindings.unbound, DrawCall.indices_in_range,
      stored_indices, stored_indices_from, stored_index, vertices_held, written_from,
      writes_to, mapped_writes, Call.mapped_write?, calls_of, List.lookup,
      Triangle.start, Triangle.setup_pipeline, Triangle.setup_buffers,
      Triangle.pipeline_descriptor, Device.create_shader_module,
      Device.create_bind_group_layout, Device.create_pipeline_layout,
      Device.create_render_pipeline, Device.create_buffer, GPUBuffer.write, Device.emit]

theorem C21_indexed_draws_in_range_witness :
    (sample_frame 0 false).suboptimal = false ∧
    (draw_calls (commands_of (calls_of (StencilTest.render sample_defaults
        (StencilTest.start sample_defaults sample_surface Device.fresh).1 sample_surface
        (sample_frame 0 false)) Device.fresh))).map (fun dc => dc.command) =
      [Command.draw_indexed 3 1 0 0 0, Command.draw_indexed 6 1 0 0 0] ∧
    ∀ dc ∈ draw_calls (commands_of (calls_of (StencilTest.render sample_defaults
        (StencilTest.start sample_defaults sample_surface Device.fresh).1 sample_surface
        (sample_frame 0 false)) Device.fresh)),
      dc.indices_in_range
        (calls_of (fun d => (StencilTest.start sample_defaults sample_surface d).2)
          Device.fresh) = true :=
  have h := (C21_indexed_draws_in_range sample_defaults sample_surface Device.fresh
    Device.fresh (sample_frame 0 false) rfl).1
  ⟨rfl, h.1, h.2.2⟩

/-- C22: for a non-suboptimal `render()` after the `START` handlers, every draw is fully
bound at the point it is recorded, by commands of its own render pass.  In StencilTest the
two draws have `pipeline_mask` and `pipeline_draw` bound, in Triangle and Window the one draw
has `pipeline` bound; the layout of each of these pipelines has one bind group layout, and a
bind group is bound at index 0; the pipelines of StencilTest and Triangle declare one vertex
buffer and a vertex buffer is bound to slot 0 and to no other slot, the pipeline of Window
declares none and none is bound; each `draw_indexed` has an index buffer bound with format
UINT32, and every mapped write into that index buffer stored an element of the 4 bytes of
that format. -/
theorem C22_draws_fully_bound (dflt : Defaults) (surface : Surface) (d0 d : Device)
    (texture : GPUSurfaceTexture) (hsub : texture.suboptimal = false) :
    (let g := (StencilTest.start dflt surface d0).1
     let setup := calls_of (fun d => (StencilTest.start dflt surface d).2) d0
     let draws := draw_calls
       (commands_of (calls_of (StencilTest.render dflt g surface texture) d))
     draws.map (fun dc => (dc.command, dc.bound.pipeline,
         dc.bound.bind_groups.map (fun b => b.1), dc.bound.vertex_buffers.map (fun v => v.1),
         dc.bound.index_buffer.map (fun ib => ib.2))) =
       [ (Command.draw_indexed 3 1 0 0 0, some g.pipeline_mask, [0], [0],
           some GPUIndexFormat.UINT32),
         (Command.draw_indexed 6 1 0 0 0, some g.pipeline_draw, [0], [0],
           some GPUIndexFormat.UINT32) ] ∧
     g.pipeline_mask.desc.layout.desc.bind_group_layouts.length = 1 ∧
     g.pipeline_draw.desc.layout.desc.bind_group_layouts.length = 1 ∧
     g.pipeline_mask.desc.vertex.buffers.length = 1 ∧
     g.pipeline_draw.desc.vertex.buffers.length = 1 ∧
     (∀ dc ∈ draws, dc.fully_bound = true) ∧
     (∀ dc ∈ draws, ∀ ib, dc.bound.index_buffer = some ib →
       ∀ w ∈ mapped_writes setup, w.buffer = ib.1 → w.elem_size = ib.2.size)) ∧
    (let g := (Triangle.start dflt surface d0).1
     let setup := calls_of (fun d => (Triangle.start dflt surface d).2) d0
     let draws := draw_calls
       (commands_of (calls_of (Triangle.render dflt g surface texture) d))
     draws.map (fun dc => (dc.command, dc.bound.pipeline,
         dc.bound.bind_groups.map (fun b => b.1), dc.bound.vertex_buffers.map (fun v => v.1),
         dc.bound.index_buffer.map (fun ib => ib.2))) =
       [ (Command.draw_indexed 3 1 0 0 0, some g.pipeline, [0], [0],
           some GPUIndexFormat.UINT32) ] ∧
     g.pipeline.desc.layout.desc.bind_group_layouts.length = 1 ∧
     g.pipeline.desc.vertex.buffers.length = 1 ∧
     (∀ dc ∈ draws, dc.fully_bound = true) ∧
     (∀ dc ∈ draws, ∀ ib, dc.bound.index_buffer = some ib →
       ∀ w ∈ mapped_writes setup, w.buffer = ib.1 → w.elem_size = ib.2.size)) ∧
    (let g := (Window.start dflt surface d0).1
     let draws := draw_calls (commands_of (calls_of (Window.render g surface texture) d))
     draws.map (fun dc => (dc.command, dc.bound.pipeline,
         dc.bound.bind_groups.map (fun b => b.1), dc.bound.vertex_buffers.map (fun v => v.1),
         dc.bound.index_buffer.map (fun ib => ib.2))) =
       [ (Command.draw 3 1 0 0, some g.pipeline, [0], [], none) ] ∧
     g.pipeline.desc.layout.desc.bind_group_layouts.length = 1 ∧
     g.pipeline.desc.vertex.buffers.length = 0 ∧
     (∀ dc ∈ draws, dc.fully_bound = true)) := by
  refine ⟨?_, ?_, ?_⟩
  · intro g setup draws
    have hcmds := StencilTest.stencil_render_commands dflt g surface texture d hsub
    simp only [draws, hcmds]
    simp [g, setup, draw_calls, draw_calls_from, Bindings.unbound, DrawCall.fully_bound,
      GPUIndexFormat.size, mapped_writes, Call.mapped_write?, calls_of, List.range,
      List.range.loop,
      StencilTest.start, StencilTest.setup_pipelines, StencilTest.setup_mask_geometry,
      StencilTest.setup_draw_geometry, StencilTest.setup_uniform_buffer,
      StencilTest.setup_stencil_buffer, StencilTest.pipeline_mask_descriptor,
      StencilTest.pipeline_draw_descriptor, StencilTest.vertex_layout,
      Device.create_shader_module, Device.create_bind_group_layout,
      Device.create_pipeline_layout, Device.create_render_pipeline, Device.create_buffer,
      Device.create_texture, GPUTexture.create_view, GPUBuffer.write, Device.emit]
  · intro g setup draws
    have hcmds := Triangle.triangle_render_commands dflt g surface texture d hsub
    simp only [draws, hcmds]
    simp [g, setup, draw_calls, draw_calls_from, Bindings.unbound, DrawCall.fully_bound,
      GPUIndexFormat.size, mapped_writes, Call.mapped_write?, calls_of, List.range,
      List.range.loop,
      Triangle.start, Triangle.setup_pipeline, Triangle.setup_buffers,
      Triangle.pipeline_descriptor, Device.create_shader_module,
      Device.create_bind_group_layout, Device.create_pipeline_layout,
      Device.create_render_pipeline, Device.create_buffer, GPUBuffer.write, Device.emit]
  · intro g draws
    have hcmds := Window.window_render_commands g surface texture d hsub
    simp only [draws, hcmds]
    simp [g, draw_calls, draw_calls_from, Bindings.unbound, DrawCall.fully_bound,
      List.range, List.range.loop,
      Window.start, Window.setup_pipeline, Window.setup_buffers, Window.setup_camera,
      Window.pipeline_descriptor, Device.create_shader_module,
      Device.create_bind_group_layout, Device.create_pipeline_layout,
      Device.create_render_pipeline, Device.create_buffer, Device.emit]

theorem C22_draws_fully_bound_witness :
    (sample_frame 0 false).suboptimal = false ∧
    (∀ dc ∈ draw_calls (commands_of (calls_of (StencilTest.render sample_defaults
        (StencilTest.start sample_defaults sample_surface Device.fresh).1 sample_surface
        (sample_frame 0 false)) Device.fresh)), dc.fully_bound = true) ∧
    (∀ dc ∈ draw_calls (commands_of (calls_of (Window.render
        (Window.start sample_defaults sample_surface Device.fresh).1 sample_surface
        (sample_frame 0 false)) Device.fresh)), dc.fully_bound = true) :=
  have h := C22_draws_fully_bound sample_defaults sample_surface Device.fresh Device.fresh
    (sample_frame 0 false) rfl
  ⟨rfl, h.1.2.2.2.2.2.1, h.2.2.2.2.2⟩

end Lyra
